import Mathlib

/-!
hansip: the JWT authorization middleware, the token factory and the user-management
handlers.

A shallow embedding of `internal/middlewares/JwtMiddleware.go`,
`pkg/helper/TokenFactory.go` and `internal/mgmnt/UserManagement.go`, followed by the
properties proved about them.

Conventions of the embedding.

* A Go `string` is a Lean `String`, a text of Unicode characters. Go counts `len`,
  `s[:n]` and `s[n:]` in bytes; the embedding counts characters, and the two agree
  wherever the text before the offset is ASCII. The middleware slices the
  `Authorization` header at the offsets 6 and 7, so the embedding follows the code on
  every header whose first seven characters are ASCII (`AsciiPrefix`); the statements
  about bearer headers are made for such headers.
* Go `strings.ToUpper` is followed on every character whose upper case is an ASCII
  letter, the dotless `ı` and the long `ſ` included, so that a comparison of an
  upper-cased text with an ASCII constant has the outcome it has in Go.
* A Go `map[string]interface{}` is a function `String → Option Value`; a `Value`
  tells the Go integer from the `float64`, and the `[]string` from the `[]interface{}`,
  that `encoding/json` returns in their place.
* A handler run ends in exactly one `Outcome`: the next handler was served, a
  response was written with `helper.WriteHTTPResponse`, or the goroutine panicked.
* Package-level collaborators that the handler reaches through an interface or
  through another package (`helper.Match`, `TokenFactory.ReadToken`,
  `config.Get`) are fields of an environment `Env`; the signing library is a `Jose`,
  the repositories and helpers of the handlers are a `Deps` and a `Repos`.
* A run of a user-management handler yields its outcome and the calls it made on the
  repositories and the mailer, in order.
-/

namespace Hansip

/-! ## Go strings -/

/-- Go `unicode.IsSpace`: the white space that `strings.TrimSpace` removes. -/
def isSpace (c : Char) : Bool :=
  let n := c.toNat
  n == 9 || n == 10 || n == 11 || n == 12 || n == 13 || n == 32 || n == 0x85 || n == 0xA0
    || n == 0x1680 || (0x2000 ≤ n && n ≤ 0x200a) || n == 0x2028 || n == 0x2029
    || n == 0x202f || n == 0x205f || n == 0x3000

/-- Go `strings.TrimSpace`: leading and trailing white space removed. -/
def TrimSpace (s : String) : String :=
  ⟨((s.data.dropWhile isSpace).reverse.dropWhile isSpace).reverse⟩

/-- Go `unicode.ToUpper` on the characters whose upper case is an ASCII letter: the
letters `a` to `z`, the dotless `ı` (U+0131, upper case `I`) and the long `ſ` (U+017F,
upper case `S`). Every other character is returned as it is; Go maps none of them to
an ASCII character. -/
def upperRune (c : Char) : Char :=
  if c = 'ı' then 'I' else if c = 'ſ' then 'S' else c.toUpper

/-- Go `strings.ToUpper`. The result equals an ASCII text exactly when the result of Go
does; letters outside ASCII whose upper case is outside ASCII are kept as they are. -/
def ToUpper (s : String) : String := ⟨s.data.map upperRune⟩

/-- Go `strings.ToLower` on ASCII text. -/
def ToLower (s : String) : String := ⟨s.data.map Char.toLower⟩

/-- Go slice expression `s[:n]` on a text whose first `n` bytes are ASCII, so that the
byte offset `n` of Go is the character offset `n`; `none` is the run-time panic "slice
bounds out of range". -/
def sliceTo (s : String) (n : Nat) : Option String :=
  if n ≤ s.length then some ⟨s.data.take n⟩ else none

/-- Go slice expression `s[n:]` on a text whose first `n` bytes are ASCII, so that the
byte offset `n` of Go is the character offset `n`; `none` is the run-time panic "slice
bounds out of range". -/
def sliceFrom (s : String) (n : Nat) : Option String :=
  if n ≤ s.length then some ⟨s.data.drop n⟩ else none

/-! ## Claim values and maps -/

/-- A Go `interface{}` value as it occurs in a claim set. -/
inductive Value where
  | null
  | bool (b : Bool)
  /-- A Go integer, such as the `int64` that `Claims.SetTime` stores. -/
  | num (n : Int)
  /-- A Go `float64` with the finite value `q`, the type of every number that
  `encoding/json` decodes into an `interface{}`. -/
  | float (q : ℚ)
  | str (s : String)
  /-- A Go `[]string`. -/
  | strs (l : List String)
  /-- A Go `[]interface{}` whose elements are the strings `l`, the type of every list of
  strings that `encoding/json` decodes into an `interface{}`. -/
  | anys (l : List String)
  deriving DecidableEq, Repr

/-- A Go `map[string]interface{}`. -/
abbrev GoMap := String → Option Value

/-- The empty map, `make(map[string]interface{})`. -/
def GoMap.empty : GoMap := fun _ => none

/-- The assignment `m[k] = v`. -/
def GoMap.set (m : GoMap) (k : String) (v : Value) : GoMap :=
  fun j => if j = k then some v else m j

/-! ## JwtMiddleware.go -/

/-- The struct `ACL`. -/
structure ACL where
  PathPattern : String
  Method : String
  AllowedAudiences : List String
  deriving DecidableEq, Repr

/-- The package variable `ACLs`, given the two configured role names
`config.Get("user.role.admin")` and `config.Get("user.role.user")`. -/
def ACLs (adminRole userRole : String) : List ACL :=
  [ ⟨"/docs/**/*", "GET", []⟩,
    ⟨"/health", "GET", []⟩,
    ⟨"/api/v1/auth/authenticate", "POST", []⟩,
    ⟨"/api/v1/auth/refresh", "POST", [userRole, adminRole]⟩,
    ⟨"/api/v1/auth/2fa", "POST", []⟩,
    ⟨"/api/v1/auth/2fatest", "POST", []⟩,
    ⟨"/api/v1/auth/authenticate2fa", "POST", []⟩,
    ⟨"/api/v1/recovery/**/*", "POST", []⟩,
    ⟨"/api/v1/management/user/whoami", "GET", [userRole, adminRole]⟩,
    ⟨"/api/v1/management/user/activate", "POST", []⟩,
    ⟨"/api/v1/management/users", "GET", [adminRole]⟩,
    ⟨"/api/v1/management/user", "POST", [adminRole]⟩,
    ⟨"/api/v1/management/user/*/passwd", "POST", [adminRole, userRole]⟩,
    ⟨"/api/v1/management/user/activate", "POST", [adminRole]⟩,
    ⟨"/api/v1/management/user/*", "GET", [adminRole]⟩,
    ⟨"/api/v1/management/user/*", "DELETE", [adminRole]⟩,
    ⟨"/api/v1/management/user/*", "PUT", [adminRole]⟩,
    ⟨"/api/v1/management/user/*/roles", "GET", [adminRole]⟩,
    ⟨"/api/v1/management/user/*/roles", "PUT", [adminRole]⟩,
    ⟨"/api/v1/management/user/*/roles", "DELETE", [adminRole]⟩,
    ⟨"/api/v1/management/user/*/all-roles", "GET", [adminRole]⟩,
    ⟨"/api/v1/management/user/*/role/*", "PUT", [adminRole]⟩,
    ⟨"/api/v1/management/user/*/role/*", "DELETE", [adminRole]⟩,
    ⟨"/api/v1/management/user/*/groups", "GET", [adminRole]⟩,
    ⟨"/api/v1/management/user/*/groups", "PUT", [adminRole]⟩,
    ⟨"/api/v1/management/user/*/groups", "DELETE", [adminRole]⟩,
    ⟨"/api/v1/management/user/*/group/*", "PUT", [adminRole]⟩,
    ⟨"/api/v1/management/user/*/group/*", "DELETE", [adminRole]⟩,
    ⟨"/api/v1/management/user/2FAQR", "GET", [adminRole, userRole]⟩,
    ⟨"/api/v1/management/user/activate2FA", "POST", [adminRole, userRole]⟩,
    ⟨"/api/v1/management/groups", "GET", [adminRole]⟩,
    ⟨"/api/v1/management/group", "POST", [adminRole]⟩,
    ⟨"/api/v1/management/group/*", "GET", [adminRole]⟩,
    ⟨"/api/v1/management/group/*", "DELETE", [adminRole]⟩,
    ⟨"/api/v1/management/group/*", "PUT", [adminRole]⟩,
    ⟨"/api/v1/management/group/*/users", "GET", [adminRole]⟩,
    ⟨"/api/v1/management/group/*/users", "PUT", [adminRole]⟩,
    ⟨"/api/v1/management/group/*/users", "DELETE", [adminRole]⟩,
    ⟨"/api/v1/management/group/*/user/*", "PUT", [adminRole]⟩,
    ⟨"/api/v1/management/group/*/user/*", "DELETE", [adminRole]⟩,
    ⟨"/api/v1/management/group/*/roles", "GET", [adminRole]⟩,
    ⟨"/api/v1/management/group/*/roles", "PUT", [adminRole]⟩,
    ⟨"/api/v1/management/group/*/roles", "DELETE", [adminRole]⟩,
    ⟨"/api/v1/management/group/*/role/*", "PUT", [adminRole]⟩,
    ⟨"/api/v1/management/group/*/role/*", "DELETE", [adminRole]⟩,
    ⟨"/api/v1/management/roles", "GET", [adminRole]⟩,
    ⟨"/api/v1/management/role", "POST", [adminRole]⟩,
    ⟨"/api/v1/management/role/*", "GET", [adminRole]⟩,
    ⟨"/api/v1/management/role/*", "DELETE", [adminRole]⟩,
    ⟨"/api/v1/management/role/*", "PUT", [adminRole]⟩,
    ⟨"/api/v1/management/role/*/users", "GET", [adminRole]⟩,
    ⟨"/api/v1/management/role/*/users", "PUT", [adminRole]⟩,
    ⟨"/api/v1/management/role/*/users", "DELETE", [adminRole]⟩,
    ⟨"/api/v1/management/role/*/user/*", "PUT", [adminRole]⟩,
    ⟨"/api/v1/management/role/*/user/*", "DELETE", [adminRole]⟩,
    ⟨"/api/v1/management/role/*/groups", "GET", [adminRole]⟩,
    ⟨"/api/v1/management/role/*/groups", "PUT", [adminRole]⟩,
    ⟨"/api/v1/management/role/*/groups", "DELETE", [adminRole]⟩,
    ⟨"/api/v1/management/role/*/group/*", "PUT", [adminRole]⟩,
    ⟨"/api/v1/management/role/*/group/*", "DELETE", [adminRole]⟩ ]

/-- The values `JwtMiddleware` uses of what `TokenFactory.ReadToken(tok)` returns:
`issuer, subject, audience, _, _, _, additional, err`. -/
structure ReadResult where
  issuer : String
  subject : String
  audience : List String
  additional : GoMap
  err : Option String

/-- The collaborators of the middleware that live outside the file. -/
structure Env where
  /-- The function `helper.Match(pattern, path)`: its verdict and its error. -/
  Match : String → String → Bool × Option String
  /-- The method `ReadToken` of the package variable `TokenFactory`. -/
  ReadToken : String → ReadResult
  /-- The value of `config.Get("token.issuer")`. -/
  tokenIssuer : String

/-- The part of an `*http.Request` the middleware reads. `Authorization` is
`r.Header.Get("Authorization")`, the empty string when the header is absent. -/
structure Request where
  Method : String
  Path : String
  Authorization : String
  deriving DecidableEq, Repr

/-- The struct `hansipcontext.AuthenticationContext` the middleware attaches on a grant. -/
structure AuthenticationContext where
  Token : String
  Subject : String
  Audience : List String
  TokenType : String
  deriving DecidableEq, Repr

/-- How one run of the handler ends. -/
inductive Outcome where
  /-- The call `next.ServeHTTP`: with the request as received (`none`) or with the
  authentication context attached to it. -/
  | served (ctx : Option AuthenticationContext)
  /-- The call `helper.WriteHTTPResponse(ctx, w, status, message, nil, nil)`. -/
  | written (status : Nat) (message : String)
  /-- A run-time panic; nothing is written by the handler. -/
  | panicked (reason : String)
  deriving DecidableEq, Repr

/-- The constant `http.StatusUnauthorized`. -/
def StatusUnauthorized : Nat := 401

/-- The constant `http.StatusForbidden`. -/
def StatusForbidden : Nat := 403

/-- Modelled from the spec: `helper.StringArrayContainString(arr, s)`, which is in
`pkg/helper` outside the given files; the spec grants on a non-empty intersection of
the token's audience list and the allowed audiences, so this is membership of `s` in `arr`. -/
def StringArrayContainString (arr : List String) (s : String) : Bool :=
  arr.contains s

/-- The loop over `acl.AllowedAudiences` that sets `allowed` (lines 158 to 164). -/
def allowedLoop (audience : List String) : List String → Bool
  | [] => false
  | allowedAud :: rest =>
    if StringArrayContainString audience allowedAud then true else allowedLoop audience rest

/-- The body of the loop `for _, acl := range ACLs` for one entry (lines 116 to 178):
`some o` when the handler returns or panics with outcome `o`, `none` when the loop goes on
to the next entry; together with the tokens handed to `ReadToken`. -/
def checkACL (env : Env) (r : Request) (acl : ACL) : Option Outcome × List String :=
  match env.Match acl.PathPattern r.Path with
  | (_, some err) => (some (.panicked err), [])
  | (false, none) => (none, [])
  | (true, none) =>
    if ToUpper r.Method = acl.Method then
      if acl.AllowedAudiences.length = 0 then
        (some (.served none), [])
      else
        let authHeader := r.Authorization
        if authHeader.length = 0 then
          (some (.written StatusUnauthorized
            ("You are not authorized to access this end point " ++ r.Path)), [])
        else
          match sliceTo authHeader 6 with
          | none => (some (.panicked "slice bounds out of range"), [])
          | some scheme =>
            let meth := ToLower (TrimSpace scheme)
            if meth ≠ "bearer" then
              (some (.written StatusUnauthorized
                ("Authorization method " ++ meth ++ " not supported")), [])
            else
              match sliceFrom authHeader 7 with
              | none => (some (.panicked "slice bounds out of range"), [])
              | some rest =>
                let tok := TrimSpace rest
                let res := env.ReadToken tok
                match res.err with
                | some e =>
                  (some (.written StatusForbidden ("Forbidden. Got " ++ e ++ " ")), [tok])
                | none =>
                  if res.issuer ≠ env.tokenIssuer then
                    -- line 154 evaluates `err.Error()` with `err == nil`
                    (some (.panicked "invalid memory address or nil pointer dereference"), [tok])
                  else if allowedLoop res.audience acl.AllowedAudiences then
                    match res.additional "type" with
                    | some (.str tokenType) =>
                      (some (.served (some ⟨tok, res.subject, res.audience, tokenType⟩)), [tok])
                    | _ => (some (.panicked "interface conversion: interface is not string"), [tok])
                  else (none, [tok])
    else (none, [])

/-- What one run of the handler did. -/
structure Result where
  /-- How the run ended. -/
  outcome : Outcome
  /-- The tokens handed to `TokenFactory.ReadToken`, in call order. -/
  reads : List String
  /-- The number of entries of the rule list the loop evaluated. -/
  visited : Nat
  deriving DecidableEq, Repr

/-- The handler returned by `JwtMiddleware(next)`, run on request `r` with rule list `acls`. -/
def JwtMiddleware (env : Env) (acls : List ACL) (r : Request) : Result :=
  match acls with
  | [] =>
    ⟨.written StatusForbidden
      ("You are authenticated but not allowed to access this end point " ++ r.Path), [], 0⟩
  | acl :: rest =>
    match checkACL env r acl with
    | (some o, reads) => ⟨o, reads, 1⟩
    | (none, reads) =>
      let res := JwtMiddleware env rest r
      ⟨res.outcome, reads ++ res.reads, res.visited + 1⟩

/-! ### Path patterns -/

/-- Splits a text at every `sep`, as Go `strings.Split` does. -/
def splitOn (sep : Char) : List Char → List (List Char)
  | [] => [[]]
  | c :: cs =>
    if c = sep then [] :: splitOn sep cs
    else
      match splitOn sep cs with
      | [] => [[c]]
      | seg :: segs => (c :: seg) :: segs

/-- Segment-wise match of a split pattern against a split path. -/
def matchSegments : List (List Char) → List (List Char) → Bool
  | [], [] => true
  | [], _ :: _ => false
  | p :: ps, segs =>
    if p = "**".data ∧ (ps = [] ∨ ps = ["*".data]) then true
    else
      match segs with
      | [] => false
      | s :: ss => (p = "*".data || p = s) && matchSegments ps ss

/-- Modelled from the spec: `helper.Match`, which is in `pkg/helper` outside the given
files. Patterns are `/`-delimited; a segment `*` matches exactly one path segment; a
trailing `**`, optionally followed by `/*`, matches zero or more remaining segments;
literal segments are compared case-sensitively. The spec describes no error. -/
def specMatch (pattern path : String) : Bool × Option String :=
  (matchSegments (splitOn '/' pattern.data) (splitOn '/' path.data), none)

/-! ### Vocabulary for the statements -/

/-- The rule is the one the loop stops at: `helper.Match` reports a match without
error and the upper-cased request method equals the rule's `Method` (line 123). -/
def Matches (env : Env) (r : Request) (acl : ACL) : Prop :=
  env.Match acl.PathPattern r.Path = (true, none) ∧ ToUpper r.Method = acl.Method

instance (env : Env) (r : Request) (acl : ACL) : Decidable (Matches env r acl) := by
  unfold Matches; infer_instance

/-- The loop passes the rule by: `helper.Match` reports no error, and the path or
the method does not match. -/
def Skipped (env : Env) (r : Request) (acl : ACL) : Prop :=
  (env.Match acl.PathPattern r.Path).2 = none ∧
    ¬ ((env.Match acl.PathPattern r.Path).1 = true ∧ ToUpper r.Method = acl.Method)

instance (env : Env) (r : Request) (acl : ACL) : Decidable (Skipped env r acl) := by
  unfold Skipped; infer_instance

/-- The first seven characters of the header, or all of them when it is shorter, are
ASCII: each is one byte of the header, so that the slices `authHeader[:6]` and
`authHeader[7:]` of the code, which count bytes, cut the header after its sixth and
after its seventh character. -/
def AsciiPrefix (h : String) : Prop := ∀ c ∈ h.data.take 7, c.toNat < 128

instance (h : String) : Decidable (AsciiPrefix h) := by
  unfold AsciiPrefix; infer_instance

/-- The header starts with seven ASCII characters, the first six of which are `bearer`
in some letter case; `tok` is the token the middleware takes from it, the header from
its eighth byte on with the white space around it removed. -/
def BearerHeader (h tok : String) : Prop :=
  AsciiPrefix h ∧ 7 ≤ h.length ∧ ToLower (TrimSpace ⟨h.data.take 6⟩) = "bearer" ∧
    tok = TrimSpace ⟨h.data.drop 7⟩

instance (h tok : String) : Decidable (BearerHeader h tok) := by
  unfold BearerHeader; infer_instance

/-- The rule grants a request whose token carries the audience list `audience`: it is
public, or one of its allowed audiences is in `audience`. -/
def Grants (acl : ACL) (audience : List String) : Prop :=
  acl.AllowedAudiences = [] ∨ ∃ a ∈ acl.AllowedAudiences, a ∈ audience

/-- The condition under which the loop body falls through at a matching rule: the rule
is audience-protected and the request bears a token that `ReadToken` accepts, from the
configured issuer, with none of the rule's allowed audiences in its audience list. -/
def PassedOver (env : Env) (r : Request) (acl : ACL) : Prop :=
  acl.AllowedAudiences ≠ [] ∧ ∃ tok, BearerHeader r.Authorization tok ∧
    (env.ReadToken tok).err = none ∧ (env.ReadToken tok).issuer = env.tokenIssuer ∧
    ∀ x ∈ acl.AllowedAudiences, x ∉ (env.ReadToken tok).audience

/-! ### Worked examples of the middleware -/

/-- A `ReadToken` used in the worked examples: four tokens are accepted, every other
text is rejected. -/
def sampleRead (tok : String) : ReadResult :=
  if tok = "admin-access" then
    ⟨"hansip", "admin@example.com", ["admin@aud"], GoMap.empty.set "type" (.str "access"), none⟩
  else if tok = "user-access" then
    ⟨"hansip", "user@example.com", ["user@aud"], GoMap.empty.set "type" (.str "access"), none⟩
  else if tok = "admin-refresh" then
    ⟨"hansip", "admin@example.com", ["admin@aud"], GoMap.empty.set "type" (.str "refresh"), none⟩
  else if tok = "foreign" then
    ⟨"elsewhere", "admin@example.com", ["admin@aud"], GoMap.empty.set "type" (.str "access"), none⟩
  else ⟨"", "", [], GoMap.empty, some "malformed jwt token"⟩

/-- The environment of the worked examples: issuer `hansip`, patterns matched as the spec
describes. -/
def sampleEnv : Env := ⟨specMatch, sampleRead, "hansip"⟩

/-- The declared rule list with the role names of the worked examples. -/
def sampleACLs : List ACL := ACLs "admin@aud" "user@aud"

/-! ## TokenFactory.go -/

/-- A Go `time.Time`, as nanoseconds since the Unix epoch. -/
abbrev Time := Int

/-- A Go `time.Duration`, in nanoseconds. -/
abbrev Duration := Int

/-- Go `t.Unix()`: the whole seconds since the epoch. -/
def Unix (t : Time) : Int := t / 1000000000

/-- Go `time.Unix(sec, 0)`. -/
def timeOfUnix (sec : Int) : Time := sec * 1000000000

/-- Go `time.Time{}`, the zero time (1 January of year 1, UTC). -/
def zeroTime : Time := timeOfUnix (-62135596800)

/-- Go `t.Add(d)`. -/
def Add (t : Time) (d : Duration) : Time := t + d

/-- A call that returns normally or panics. -/
inductive Go (α : Type) where
  | ret (a : α)
  | panic (reason : String)
  deriving DecidableEq, Repr

/-- The three HMAC signing methods of `github.com/SermoDigital/jose/crypto`. -/
inductive SigningMethod where
  | HS256
  | HS384
  | HS512
  deriving DecidableEq, Repr

/-- The part of `github.com/SermoDigital/jose` that signs and verifies; it is outside
the repository and enters the model as a parameter. -/
structure Jose where
  /-- The call `jws.ParseJWT` followed by `Claims()`: the claim set a token text carries, or
  `none` when the text does not parse. -/
  ParseJWT : String → Option GoMap
  /-- The call `jwt.Validate(key, method)` on the parsed token at the given clock reading:
  `none` when it succeeds, the error text otherwise. -/
  Validate : String → String → SigningMethod → Time → Option String
  /-- The call `jws.NewJWT(claims, method).Serialize(key)`. -/
  Serialize : GoMap → SigningMethod → String → Except String String

/-! The accessors of `jwt.Claims`, a `map[string]interface{}` keyed by the registered
claim names of RFC 7519. -/

/-- The method `Claims.SetIssuer`. -/
def SetIssuer (c : GoMap) (issuer : String) : GoMap := c.set "iss" (.str issuer)

/-- The method `Claims.SetSubject`. -/
def SetSubject (c : GoMap) (subject : String) : GoMap := c.set "sub" (.str subject)

/-- The method `Claims.SetAudience`: one audience is stored as a string, any other number as a list. -/
def SetAudience (c : GoMap) (audience : List String) : GoMap :=
  match audience with
  | [a] => c.set "aud" (.str a)
  | _ => c.set "aud" (.strs audience)

/-- The method `Claims.SetTime`: the time is stored as Unix seconds. -/
def SetTime (c : GoMap) (key : String) (t : Time) : GoMap := c.set key (.num (Unix t))

/-- The method `Claims.SetIssuedAt`. -/
def SetIssuedAt (c : GoMap) (t : Time) : GoMap := SetTime c "iat" t

/-- The method `Claims.SetNotBefore`. -/
def SetNotBefore (c : GoMap) (t : Time) : GoMap := SetTime c "nbf" t

/-- The method `Claims.SetExpiration`. -/
def SetExpiration (c : GoMap) (t : Time) : GoMap := SetTime c "exp" t

/-- The method `Claims.Issuer`, its second result dropped as the caller does. -/
def Issuer (c : GoMap) : String :=
  match c "iss" with
  | some (.str s) => s
  | _ => ""

/-- The method `Claims.Subject`, its second result dropped. -/
def Subject (c : GoMap) : String :=
  match c "sub" with
  | some (.str s) => s
  | _ => ""

/-- The method `Claims.Audience`, its second result dropped: a string, a `[]string` and
a `[]interface{}` of strings are audiences. -/
def Audience (c : GoMap) : List String :=
  match c "aud" with
  | some (.str s) => [s]
  | some (.strs l) => l
  | some (.anys l) => l
  | _ => []

/-- Go conversion `int64(f)` of a `float64`: the fraction is cut off, towards zero. -/
def int64OfFloat (q : ℚ) : Int := Int.tdiv q.num q.den

/-- The method `Claims.GetTime`, its second result dropped: an integer and a `float64`
are read as Unix seconds, `time.Unix(int64(t), 0)`. -/
def GetTime (c : GoMap) (key : String) : Time :=
  match c key with
  | some (.num n) => timeOfUnix n
  | some (.float q) => timeOfUnix (int64OfFloat q)
  | _ => zeroTime

/-- The loop `for k, v := range src { dst[k] = v }`. -/
def copyInto (dst src : GoMap) : GoMap :=
  fun k => match src k with
    | some v => some v
    | none => dst k

/-- The struct `HansipToken`. -/
structure HansipToken where
  Issuer : String
  Subject : String
  Audiences : List String
  Expire : Time
  NotBefore : Time
  IssuedAt : Time
  Additional : GoMap
  Token : String

/-- The struct `DefaultTokenFactory` (its mutex left out). -/
structure DefaultTokenFactory where
  Issuer : String
  AccessTokenDuration : Duration
  RefreshTokenDuration : Duration
  SignKey : String
  SignMethod : String
  deriving DecidableEq, Repr

/-- The function `NewTokenFactory`; `none` is the panic on an empty issuer. -/
def NewTokenFactory (signKey signMethod issuer : String)
    (accessTokenAge refreshTokenAge : Duration) : Option DefaultTokenFactory :=
  if issuer = "" then none
  else some ⟨issuer, accessTokenAge, refreshTokenAge, signKey, signMethod⟩

/-- The switch on `strings.ToUpper(signMethod)` in both token functions. -/
def signingMethodOf (signMethod : String) : SigningMethod :=
  if ToUpper signMethod = "HS256" then .HS256
  else if ToUpper signMethod = "HS384" then .HS384
  else if ToUpper signMethod = "HS512" then .HS512
  else .HS256

/-- The eight results of `ReadJWTStringToken`. -/
structure JWTContent where
  issuer : String
  subject : String
  audience : List String
  issuedAt : Time
  notBefore : Time
  expire : Time
  additional : GoMap
  err : Option String

/-- The test of line 160 on an upper-cased claim name. -/
def isRegisteredName (kup : String) : Bool :=
  !(kup ≠ "ISS" && kup ≠ "AUD" && kup ≠ "SUB" && kup ≠ "IAT" && kup ≠ "EXP" && kup ≠ "NBF")

/-- The function `ReadJWTStringToken`. `now k` is the k-th reading of the clock during
the call. -/
def ReadJWTStringToken (lib : Jose) (now : Nat → Time) (validate : Bool)
    (signKey signMethod tokenString : String) : JWTContent :=
  match lib.ParseJWT tokenString with
  | none => ⟨"", "", [], now 0, now 1, now 2, GoMap.empty, some "malformed jwt token"⟩
  | some claims =>
    match (if validate then lib.Validate tokenString signKey (signingMethodOf signMethod) (now 0)
        else none) with
    | some e =>
      ⟨"", "", [], now 1, now 2, now 3, GoMap.empty, some ("invalid jwt token - " ++ e)⟩
    | none =>
      let additional : GoMap := fun k => if isRegisteredName (ToUpper k) then none else claims k
      ⟨Issuer claims, Subject claims, Audience claims, GetTime claims "iat",
        GetTime claims "nbf", GetTime claims "exp", additional, none⟩

/-- The claim set `CreateJWTStringToken` builds before signing (lines 181 to 191). -/
def jwtClaims (issuer subject : String) (audience : List String)
    (issuedAt notBefore expiration : Time) (additional : GoMap) : GoMap :=
  let claims := GoMap.empty
  let claims := SetIssuer claims issuer
  let claims := SetSubject claims subject
  let claims := SetAudience claims audience
  let claims := SetIssuedAt claims issuedAt
  let claims := SetNotBefore claims notBefore
  let claims := SetExpiration claims expiration
  copyInto claims additional

/-- The function `CreateJWTStringToken`. -/
def CreateJWTStringToken (lib : Jose) (signKey signMethod issuer subject : String)
    (audience : List String) (issuedAt notBefore expiration : Time) (additional : GoMap) :
    Go (String × Option String) :=
  let claims := jwtClaims issuer subject audience issuedAt notBefore expiration additional
  match lib.Serialize claims (signingMethodOf signMethod) signKey with
  | .error e => .panic e
  | .ok tokenByte => .ret (tokenByte, none)

/-- The method `CreateTokenPair`. `now k` is the k-th reading of the clock during the call. -/
def CreateTokenPair (lib : Jose) (now : Nat → Time) (tf : DefaultTokenFactory)
    (subject : String) (audience : List String) (additional : GoMap) :
    Go (String × String × Option String) :=
  let accessAdditional := copyInto GoMap.empty additional
  let refreshAdditional := copyInto GoMap.empty additional
  let accessAdditional := accessAdditional.set "type" (.str "access")
  let refreshAdditional := refreshAdditional.set "type" (.str "refresh")
  match CreateJWTStringToken lib tf.SignKey tf.SignMethod tf.Issuer subject audience (now 0)
      (now 1) (Add (now 2) tf.AccessTokenDuration) accessAdditional with
  | .panic e => .panic e
  | .ret (_, some err) => .ret ("", "", some err)
  | .ret (access, none) =>
    match CreateJWTStringToken lib tf.SignKey tf.SignMethod tf.Issuer subject audience (now 3)
        (now 4) (Add (now 5) tf.RefreshTokenDuration) refreshAdditional with
    | .panic e => .panic e
    | .ret (_, some err) => .ret ("", "", some err)
    | .ret (refresh, none) => .ret (access, refresh, none)

/-- The method `ReadToken`: the token it builds and the error it returns. -/
def ReadToken (lib : Jose) (now : Nat → Time) (tf : DefaultTokenFactory) (token : String) :
    HansipToken × Option String :=
  let c := ReadJWTStringToken lib now true tf.SignKey tf.SignMethod token
  let htoken : HansipToken :=
    ⟨c.issuer, c.subject, c.audience, c.expire, c.notBefore, c.issuedAt, c.additional, token⟩
  if c.issuer ≠ tf.Issuer then (htoken, some ("invalid issuer " ++ c.issuer))
  else (htoken, c.err)

/-- The method `RefreshToken`. `now` is the clock during the inner `ReadToken`,
`refreshTime` the reading of `time.Now()` on line 120. -/
def RefreshToken (lib : Jose) (now : Nat → Time) (refreshTime : Time) (tf : DefaultTokenFactory)
    (refreshToken : String) : Go (String × Option String) :=
  match ReadToken lib now tf refreshToken with
  | (_, some err) => .ret ("", some err)
  | (hToken, none) =>
    if hToken.Issuer ≠ tf.Issuer then .ret ("", some "invalid issuer")
    else
      match hToken.Additional "type" with
      | none => .ret ("", some "unknown token type")
      | some typ =>
        if typ ≠ .str "refresh" then .ret ("", some "not refresh token")
        else
          CreateJWTStringToken lib tf.SignKey tf.SignMethod tf.Issuer hToken.Subject
            hToken.Audiences hToken.IssuedAt hToken.NotBefore (Add refreshTime tf.AccessTokenDuration)
            (hToken.Additional.set "type" (.str "access"))

/-- What `encoding/json` decodes after a value was encoded, for an integer of at most
`2 ^ 53` in absolute value and a slice that is not nil: the integer comes back as the
`float64` of the same value, a `[]string` as a `[]interface{}`, every other value as it
was. -/
def jsonValue : Value → Value
  | .num n => .float n
  | .strs l => .anys l
  | v => v

/-- A claim set after `encoding/json` encoded and decoded it, see `jsonValue`. -/
def jsonDecoded (c : GoMap) : GoMap := fun k => (c k).map jsonValue

/-- The value `v2` is what `encoding/json` decodes after `v1` was encoded: an integer
comes back as a `float64`, which has the same value when the integer is at most `2 ^ 53`
in absolute value; a slice comes back as a `[]interface{}`, or as null when it is the nil
slice, which a `Value` does not tell from the empty slice; every other value comes back as
it was. -/
def JsonValue (v1 v2 : Value) : Prop :=
  match v1, v2 with
  | .num n, .float q => n.natAbs ≤ 2 ^ 53 → q = n
  | .num _, _ => False
  | .strs l, w => w = .anys l ∨ (l = [] ∧ w = .null)
  | .anys l, w => w = .anys l ∨ (l = [] ∧ w = .null)
  | v, w => w = v

instance (v1 v2 : Value) : Decidable (JsonValue v1 v2) := by
  unfold JsonValue; split <;> infer_instance

/-- The claim set `parsed` is what the payload of a token signed with the claim set
`signed` decodes to: the same names, each with the value `encoding/json` returns for it. -/
def JsonImage (signed parsed : GoMap) : Prop :=
  ∀ k, match signed k with
    | none => parsed k = none
    | some v => ∃ w, parsed k = some w ∧ JsonValue v w

/-- A test double of the signing library that knows two issued tokens: it serializes a
claim set typed `refresh` to the text `refresh.jwt` and any other to `access.jwt`, parses
these two texts back to the claim sets given as `encoding/json` decodes them, and validates
them and nothing else. -/
def stubJose (accessClaims refreshClaims : GoMap) : Jose where
  ParseJWT := fun tok =>
    if tok = "access.jwt" then some (jsonDecoded accessClaims)
    else if tok = "refresh.jwt" then some (jsonDecoded refreshClaims)
    else none
  Validate := fun tok _ _ _ =>
    if tok = "access.jwt" ∨ tok = "refresh.jwt" then none
    else some "crypto/hmac: invalid signature"
  Serialize := fun c _ _ =>
    if c "type" = some (.str "refresh") then .ok "refresh.jwt" else .ok "access.jwt"

/-- The claim set signed for the access token of `CreateTokenPair` (lines 60 to 71). -/
def accessClaims (now : Nat → Time) (tf : DefaultTokenFactory) (subject : String)
    (audience : List String) (additional : GoMap) : GoMap :=
  jwtClaims tf.Issuer subject audience (now 0) (now 1) (Add (now 2) tf.AccessTokenDuration)
    ((copyInto GoMap.empty additional).set "type" (.str "access"))

/-- The claim set signed for the refresh token of `CreateTokenPair` (lines 60 to 75). -/
def refreshClaims (now : Nat → Time) (tf : DefaultTokenFactory) (subject : String)
    (audience : List String) (additional : GoMap) : GoMap :=
  jwtClaims tf.Issuer subject audience (now 3) (now 4) (Add (now 5) tf.RefreshTokenDuration)
    ((copyInto GoMap.empty additional).set "type" (.str "refresh"))

/-- The factory of the worked examples: fifteen minutes of access, a day of refresh. -/
def sampleFactory : DefaultTokenFactory :=
  ⟨"hansip", 900000000000, 86400000000000, "secret", "HS256"⟩

/-- The clock of the worked examples: one nanosecond per reading from a fixed start. -/
def sampleNow (k : Nat) : Time := 1700000000000000000 + k

/-- The test double primed with the two claim sets `CreateTokenPair` signs for the input. -/
def sampleJose (subject : String) (audience : List String) (additional : GoMap) : Jose :=
  stubJose (accessClaims sampleNow sampleFactory subject audience additional)
    (refreshClaims sampleNow sampleFactory subject audience additional)

/-- The claim set `RefreshToken` signs for the new access token (lines 119 and 120), from
the token `hToken` that `ReadToken` returned and the reading `refreshTime` of the clock. -/
def refreshedClaims (tf : DefaultTokenFactory) (refreshTime : Time) (hToken : HansipToken) :
    GoMap :=
  jwtClaims tf.Issuer hToken.Subject hToken.Audiences hToken.IssuedAt hToken.NotBefore
    (Add refreshTime tf.AccessTokenDuration) (hToken.Additional.set "type" (.str "access"))

/-- The package variable `whiteListUrls` of `JwtMiddleware.go` (lines 22 to 28). -/
def whiteListUrls : List String :=
  [ "/docs/**/*",
    "/api/v1/auth/authenticate",
    "/api/v1/auth/2fa",
    "/api/v1/recovery/**/*",
    "/api/v1/management/user/activate" ]

/-- The path matches one of the patterns of `whiteListUrls`. -/
def Whitelisted (env : Env) (path : String) : Prop :=
  ∃ p ∈ whiteListUrls, (env.Match p path).1 = true

instance (env : Env) (path : String) : Decidable (Whitelisted env path) := by
  unfold Whitelisted; infer_instance

/-- Two method names are equal when letter case is ignored. -/
def EqualFold (a b : String) : Prop := ToUpper a = ToUpper b

instance (a b : String) : Decidable (EqualFold a b) := by
  unfold EqualFold; infer_instance

/-! ## UserManagement.go -/

/-- The fields of `connector.User` that the handlers read or write. -/
structure User where
  RecID : String
  Email : String
  HashedPassphrase : String
  Enabled : Bool
  Suspended : Bool
  LastSeen : Time
  LastLogin : Time
  Enable2FactorAuth : Bool
  UserTotpSecretKey : String
  ActivationCode : String
  deriving DecidableEq, Repr

/-- The struct `Activate2FARequest`. -/
structure Activate2FARequest where
  Token : String
  deriving DecidableEq, Repr

/-- The struct `UpdateUserRequest`. -/
structure UpdateUserRequest where
  Email : String
  Enabled : Bool
  Suspended : Bool
  Enable2FA : Bool
  deriving DecidableEq, Repr

/-- The fields of `connector.Role` that the handlers read. -/
structure Role where
  RecID : String
  RoleName : String
  deriving DecidableEq, Repr

/-- The fields of `connector.Group` that the handlers read. -/
structure Group where
  RecID : String
  GroupName : String
  deriving DecidableEq, Repr

/-- A `connector.UserRole` record, the direct grant of a role to a user. -/
structure UserRole where
  UserRecID : String
  RoleRecID : String
  deriving DecidableEq, Repr

/-- A `connector.UserGroup` record, the membership of a user in a group. -/
structure UserGroup where
  UserRecID : String
  GroupRecID : String
  deriving DecidableEq, Repr

/-- The struct `helper.PageRequest`; `SortOrder` is its field `Sort`. -/
structure PageRequest where
  No : Nat
  PageSize : Nat
  OrderBy : String
  SortOrder : String
  deriving DecidableEq, Repr

/-- A `helper.Page` value, which the handlers pass on unread; the model keeps the page
number, the page size and the total count. -/
structure Page where
  No : Nat
  PageSize : Nat
  TotalItems : Nat
  deriving DecidableEq, Repr

/-- The struct `SimpleUser`. -/
structure SimpleUser where
  RecID : String
  Email : String
  Enabled : Bool
  Suspended : Bool
  deriving DecidableEq, Repr

/-- The struct `SimpleRole`. -/
structure SimpleRole where
  RecID : String
  RoleName : String
  deriving DecidableEq, Repr

/-- The struct `SimpleGroup`. -/
structure SimpleGroup where
  RecID : String
  GroupName : String
  deriving DecidableEq, Repr

/-- The struct `RoleSummary`. -/
structure RoleSummary where
  RecordID : String
  RoleName : String
  deriving DecidableEq, Repr

/-- The struct `GroupSummary`. -/
structure GroupSummary where
  RecordID : String
  GroupName : String
  Roles : List RoleSummary
  deriving DecidableEq, Repr

/-- The struct `WhoAmIResponse`. -/
structure WhoAmIResponse where
  RecordID : String
  Email : String
  Enabled : Bool
  Suspended : Bool
  Roles : List RoleSummary
  Groups : List GroupSummary
  deriving DecidableEq, Repr

/-- A call a handler makes on one of the repositories or on the mailer. -/
inductive Call where
  | GetUserByEmail (email : String)
  | GetUserByRecID (recID : String)
  | SaveOrUpdate (user : User)
  | RecreateTOTPRecoveryCodes (user : User)
  | GetTOTPRecoveryCodes (user : User)
  | MailerSend (recipients : List String) (template : String) (data : User)
  | ListUser (page : PageRequest)
  | CreateUserRecord (email passphrase : String)
  | DeleteUser (user : User)
  | ListAllUserRoles (user : User) (page : PageRequest)
  | GetRoleByRecID (recID : String)
  | GetGroupByRecID (recID : String)
  | ListUserRoleByUser (user : User) (page : PageRequest)
  | CreateUserRole (user : User) (role : Role)
  | GetUserRole (user : User) (role : Role)
  | DeleteUserRole (userRole : UserRole)
  | ListUserGroupByUser (user : User) (page : PageRequest)
  | CreateUserGroup (user : User) (group : Group)
  | GetUserGroup (user : User) (group : Group)
  | DeleteUserGroup (userGroup : UserGroup)
  | ListGroupRoleByGroup (group : Group) (page : PageRequest)
  deriving DecidableEq, Repr

/-- What the handlers of `UserManagement.go` reach outside the file: the repository
`UserRepo`, the packages `totp` and `helper`, and the decoders of the standard library.
An `Except.error e` or a `some e` is a non-nil Go `error` with text `e`. -/
structure Deps where
  /-- The method `UserRepo.GetUserByEmail`. -/
  GetUserByEmail : String → Except String User
  /-- The method `UserRepo.GetUserByRecID`. -/
  GetUserByRecID : String → Except String User
  /-- The method `UserRepo.SaveOrUpdate`. -/
  SaveOrUpdate : User → Option String
  /-- The method `UserRepo.RecreateTOTPRecoveryCodes`. -/
  RecreateTOTPRecoveryCodes : User → Except String (List String)
  /-- The method `UserRepo.GetTOTPRecoveryCodes`. -/
  GetTOTPRecoveryCodes : User → Except String (List String)
  /-- The value the call `totp.MakeRandomTotpKey()` returns. -/
  MakeRandomTotpKey : String
  /-- The function `totp.GenerateTotpWithDrift(secret, time, step, digits)`. -/
  GenerateTotpWithDrift : String → Time → Nat → Nat → Except String String
  /-- The function `totp.MakeTotpQrImage(secret, label)`. -/
  MakeTotpQrImage : String → String → Except String String
  /-- The function `helper.ParsePathParams(template, path)`. -/
  ParsePathParams : String → String → Except String (String → String)
  /-- The value the call `helper.MakeRandomString(6, true, false, false, false)` returns. -/
  MakeRandomString : String
  /-- The method `base32.StdEncoding.EncodeToString`. -/
  EncodeToString : String → String
  /-- The call `json.Unmarshal(body, c)` for an `Activate2FARequest`. -/
  UnmarshalActivate2FA : String → Except String Activate2FARequest
  /-- The call `json.Unmarshal(body, req)` for an `UpdateUserRequest`. -/
  UnmarshalUpdateUser : String → Except String UpdateUserRequest

/-- The part of an `*http.Request` the handlers read: the path, the value stored under
`constants.HansipAuthentication` in its context, and the result of `ioutil.ReadAll(r.Body)`. -/
structure HandlerRequest where
  Path : String
  Authentication : Option AuthenticationContext
  Body : Except String String

/-- The `data` argument of `helper.WriteHTTPResponse`. -/
inductive Data where
  | null
  | text (s : String)
  | recoveryCodes (codes : List String)
  | userDetail (recID email : String) (enabled suspended : Bool) (lastSeen lastLogin : Time)
      (twoFactor : Bool)
  | users (users : List SimpleUser) (page : Option Page)
  | roles (roles : List SimpleRole) (page : Option Page)
  | groups (groups : List SimpleGroup) (page : Option Page)
  | whoami (resp : WhoAmIResponse)
  deriving DecidableEq, Repr

/-- How one run of a handler of `UserManagement.go` ends. -/
inductive HandlerOutcome where
  /-- The call `helper.WriteHTTPResponse(ctx, w, status, message, nil, data)`. -/
  | written (status : Nat) (message : String) (data : Data)
  /-- The PNG image written with status 200 and content type `image/png`. -/
  | image (png : String)
  /-- A run-time panic; nothing is written by the handler. -/
  | panicked (reason : String)
  deriving DecidableEq, Repr

/-- What one run of a handler did: its outcome and its calls, in order. -/
structure HandlerResult where
  outcome : HandlerOutcome
  calls : List Call
  deriving DecidableEq, Repr

/-- The constant `http.StatusOK`. -/
def StatusOK : Nat := 200

/-- The constant `http.StatusBadRequest`. -/
def StatusBadRequest : Nat := 400

/-- The constant `http.StatusNotFound`. -/
def StatusNotFound : Nat := 404

/-- The constant `http.StatusInternalServerError`. -/
def StatusInternalServerError : Nat := 500

/-- Go `strings.TrimRight(s, "=")`. -/
def TrimRightEquals (s : String) : String :=
  ⟨(s.data.reverse.dropWhile (fun c => c = '=')).reverse⟩

/-- The handler `Show2FAQrCode`. -/
def Show2FAQrCode (d : Deps) (r : HandlerRequest) : HandlerResult :=
  match r.Authentication with
  | none => ⟨.panicked "interface conversion: interface is nil", []⟩
  | some authCtx =>
    match d.GetUserByEmail authCtx.Subject with
    | .error e =>
      ⟨.written StatusNotFound e
        (.text ("subject not found : " ++ authCtx.Subject ++ ". got " ++ e)),
        [.GetUserByEmail authCtx.Subject]⟩
    | .ok user =>
      let user := { user with UserTotpSecretKey := d.MakeRandomTotpKey }
      match d.SaveOrUpdate user with
      | some e =>
        ⟨.written StatusInternalServerError e .null,
          [.GetUserByEmail authCtx.Subject, .SaveOrUpdate user]⟩
      | none =>
        match d.RecreateTOTPRecoveryCodes user with
        | .error e =>
          ⟨.written StatusInternalServerError e .null,
            [.GetUserByEmail authCtx.Subject, .SaveOrUpdate user,
              .RecreateTOTPRecoveryCodes user]⟩
        | .ok _ =>
          let secretstr := TrimRightEquals (d.EncodeToString user.UserTotpSecretKey)
          match d.MakeTotpQrImage secretstr ("AAA:" ++ user.Email) with
          | .error e =>
            ⟨.written StatusInternalServerError e .null,
              [.GetUserByEmail authCtx.Subject, .SaveOrUpdate user,
                .RecreateTOTPRecoveryCodes user]⟩
          | .ok png =>
            ⟨.image png,
              [.GetUserByEmail authCtx.Subject, .SaveOrUpdate user,
                .RecreateTOTPRecoveryCodes user]⟩

/-- The handler `Activate2FA`; `now` is the reading `time.Now().UTC()` of line 291. -/
def Activate2FA (d : Deps) (now : Time) (r : HandlerRequest) : HandlerResult :=
  match r.Authentication with
  | none => ⟨.panicked "interface conversion: interface is nil", []⟩
  | some authCtx =>
    match d.GetUserByEmail authCtx.Subject with
    | .error e =>
      ⟨.written StatusNotFound e
        (.text ("subject not found : " ++ authCtx.Subject ++ ". got " ++ e)),
        [.GetUserByEmail authCtx.Subject]⟩
    | .ok user =>
      match r.Body with
      | .error e =>
        ⟨.written StatusInternalServerError e .null, [.GetUserByEmail authCtx.Subject]⟩
      | .ok body =>
        match d.UnmarshalActivate2FA body with
        | .error _ =>
          ⟨.written StatusBadRequest "Malformed json body" .null,
            [.GetUserByEmail authCtx.Subject]⟩
        | .ok c =>
          match d.GenerateTotpWithDrift user.UserTotpSecretKey now 30 6 with
          | .error e =>
            ⟨.written StatusInternalServerError e .null, [.GetUserByEmail authCtx.Subject]⟩
          | .ok otp =>
            if c.Token ≠ otp then
              -- line 299 passes `err.Error()` as the message while `err == nil`
              ⟨.panicked "invalid memory address or nil pointer dereference",
                [.GetUserByEmail authCtx.Subject]⟩
            else
              match d.GetTOTPRecoveryCodes user with
              | .error e =>
                ⟨.written StatusInternalServerError e .null,
                  [.GetUserByEmail authCtx.Subject, .GetTOTPRecoveryCodes user]⟩
              | .ok codes =>
                let user2 := { user with Enable2FactorAuth := true }
                match d.SaveOrUpdate user2 with
                | some e =>
                  ⟨.written StatusInternalServerError e .null,
                    [.GetUserByEmail authCtx.Subject, .GetTOTPRecoveryCodes user,
                      .SaveOrUpdate user2]⟩
                | none =>
                  ⟨.written StatusOK "2FA Activated" (.recoveryCodes codes),
                    [.GetUserByEmail authCtx.Subject, .GetTOTPRecoveryCodes user,
                      .SaveOrUpdate user2]⟩

/-- The handler `UpdateUserDetail`. Of the mail it sends, the recipients, the template and
the data are kept. -/
def UpdateUserDetail (d : Deps) (r : HandlerRequest) : HandlerResult :=
  match d.ParsePathParams "/api/v1/management/user/{userRecId}" r.Path with
  | .error e => ⟨.panicked e, []⟩
  | .ok params =>
    match d.GetUserByRecID (params "userRecId") with
    | .error e =>
      ⟨.written StatusNotFound e .null, [.GetUserByRecID (params "userRecId")]⟩
    | .ok user =>
      match r.Body with
      | .error e =>
        ⟨.written StatusInternalServerError e .null, [.GetUserByRecID (params "userRecId")]⟩
      | .ok body =>
        match d.UnmarshalUpdateUser body with
        | .error e =>
          ⟨.written StatusBadRequest e .null, [.GetUserByRecID (params "userRecId")]⟩
        | .ok req =>
          let sendemail := decide (user.Email ≠ req.Email) && req.Enabled == false
          let user1 :=
            if sendemail then { user with ActivationCode := d.MakeRandomString } else user
          let user2 :=
            if !user1.Enable2FactorAuth && req.Enable2FA then
              { user1 with UserTotpSecretKey := d.MakeRandomTotpKey }
            else user1
          let user3 : User :=
            { user2 with
              Email := req.Email
              Enable2FactorAuth := req.Enable2FA
              Enabled := req.Enabled
              Suspended := req.Suspended }
          match d.SaveOrUpdate user3 with
          | some e =>
            ⟨.written StatusInternalServerError e .null,
              [.GetUserByRecID (params "userRecId"), .SaveOrUpdate user3]⟩
          | none =>
            ⟨.written StatusOK "User updated"
              (.userDetail user3.RecID user3.Email user3.Enabled user3.Suspended user3.LastSeen
                user3.LastLogin user3.Enable2FactorAuth),
              [.GetUserByRecID (params "userRecId"), .SaveOrUpdate user3] ++
                (if sendemail then [.MailerSend [user3.Email] "EMAIL_VERIFY" user3] else [])⟩

/-! ### Worked examples of the handlers -/

/-- The principal of the worked examples: 2FA not yet enabled, secret `OLDSECRET`. -/
def sampleUser : User :=
  ⟨"u-1", "alice@example.com", "hashed", true, false, 0, 0, false, "OLDSECRET", ""⟩

/-- The collaborators of the worked examples. The repository knows `sampleUser` and never
fails; the fresh TOTP secret is `NEWSECRET`; the current code of every secret is `123456`;
the request bodies are decoded from a few fixed texts. -/
def sampleDeps : Deps where
  GetUserByEmail := fun email =>
    if email = "alice@example.com" then .ok sampleUser else .error "record not found"
  GetUserByRecID := fun recID =>
    if recID = "u-1" then .ok sampleUser else .error "record not found"
  SaveOrUpdate := fun _ => none
  RecreateTOTPRecoveryCodes := fun _ => .ok ["r-new-1", "r-new-2"]
  GetTOTPRecoveryCodes := fun _ => .ok ["r-old-1", "r-old-2"]
  MakeRandomTotpKey := "NEWSECRET"
  GenerateTotpWithDrift := fun _ _ _ _ => .ok "123456"
  MakeTotpQrImage := fun secret label => .ok ("png:" ++ secret ++ ":" ++ label)
  ParsePathParams := fun _ path =>
    if path = "/api/v1/management/user/u-1" then
      .ok (fun k => if k = "userRecId" then "u-1" else "")
    else .error "path does not match the template"
  MakeRandomString := "ABCDEF"
  EncodeToString := fun s => s ++ "===="
  UnmarshalActivate2FA := fun body =>
    if body = "2FA_token=123456" then .ok ⟨"123456"⟩
    else if body = "2FA_token=000000" then .ok ⟨"000000"⟩
    else .error "invalid character"
  UnmarshalUpdateUser := fun body =>
    if body = "enable-2fa" then .ok ⟨"alice@example.com", true, false, true⟩
    else .error "invalid character"

/-- The authentication context the middleware attaches for `alice`. -/
def sampleAuth : AuthenticationContext :=
  ⟨"admin-access", "alice@example.com", ["admin@aud"], "access"⟩

/-- A `ReadToken` that accepts every token as one of the configured issuer `hansip` with
audience `admin@aud` and the additional claims given. -/
def acceptingRead (additional : GoMap) (_tok : String) : ReadResult :=
  ⟨"hansip", "alice@example.com", ["admin@aud"], additional, none⟩

/-- The declared rule list without its 14th entry, the admin-only rule for `POST` on
`/api/v1/management/user/activate`. -/
def ACLsWithoutAdminActivate (adminRole userRole : String) : List ACL :=
  (ACLs adminRole userRole).take 13 ++ (ACLs adminRole userRole).drop 14

/-! ### The remaining handlers of UserManagement.go -/

/-- The struct `CreateNewUserRequest`. -/
structure CreateNewUserRequest where
  Email : String
  Passphrase : String
  deriving DecidableEq, Repr

/-- The struct `ChangePassphraseRequest`. -/
structure ChangePassphraseRequest where
  OldPassphrase : String
  NewPassphrase : String
  deriving DecidableEq, Repr

/-- The struct `ActivateUserRequest`. -/
structure ActivateUserRequest where
  Email : String
  ActivationToken : String
  deriving DecidableEq, Repr

/-- The three results of a repository listing call: the records, the page and the error. -/
structure Listing (α : Type) where
  items : List α
  page : Option Page
  err : Option String

/-- The further collaborators of the handlers, all outside the file: the listing, role,
group and relation methods of the repositories, `bcrypt`, the paging helper and the
remaining decoders. -/
structure Repos where
  /-- The method `UserRepo.ListUser`. -/
  ListUser : PageRequest → Listing User
  /-- The method `UserRepo.CreateUserRecord`. -/
  CreateUserRecord : String → String → Except String User
  /-- The method `UserRepo.ListAllUserRoles`. -/
  ListAllUserRoles : User → PageRequest → Listing Role
  /-- The method `RoleRepo.GetRoleByRecID`. -/
  GetRoleByRecID : String → Except String Role
  /-- The method `GroupRepo.GetGroupByRecID`. -/
  GetGroupByRecID : String → Except String Group
  /-- The method `UserRoleRepo.ListUserRoleByUser`. -/
  ListUserRoleByUser : User → PageRequest → Listing Role
  /-- The error of the method `UserRoleRepo.CreateUserRole`. -/
  CreateUserRole : User → Role → Option String
  /-- The method `UserRoleRepo.GetUserRole`. -/
  GetUserRole : User → Role → Except String UserRole
  /-- The method `UserRoleRepo.DeleteUserRole`. -/
  DeleteUserRole : UserRole → Option String
  /-- The method `UserGroupRepo.ListUserGroupByUser`. -/
  ListUserGroupByUser : User → PageRequest → Listing Group
  /-- The error of the method `UserGroupRepo.CreateUserGroup`. -/
  CreateUserGroup : User → Group → Option String
  /-- The method `UserGroupRepo.GetUserGroup`. -/
  GetUserGroup : User → Group → Except String UserGroup
  /-- The method `UserGroupRepo.DeleteUserGroup`. -/
  DeleteUserGroup : UserGroup → Option String
  /-- The method `GroupRoleRepo.ListGroupRoleByGroup`. -/
  ListGroupRoleByGroup : Group → PageRequest → Listing Role
  /-- The function `bcrypt.CompareHashAndPassword(hash, password)`. -/
  CompareHashAndPassword : String → String → Option String
  /-- The function `bcrypt.GenerateFromPassword(password, cost)`. -/
  GenerateFromPassword : String → Nat → Except String String
  /-- The function `helper.NewPageRequestFromRequest(r)`. -/
  NewPageRequestFromRequest : HandlerRequest → Except String PageRequest
  /-- The call `json.Unmarshal(body, req)` for a `CreateNewUserRequest`. -/
  UnmarshalCreateNewUser : String → Except String CreateNewUserRequest
  /-- The call `json.Unmarshal(body, c)` for a `ChangePassphraseRequest`. -/
  UnmarshalChangePassphrase : String → Except String ChangePassphraseRequest
  /-- The call `json.Unmarshal(body, c)` for an `ActivateUserRequest`. -/
  UnmarshalActivateUser : String → Except String ActivateUserRequest

/-- The constant `http.StatusNotAcceptable`. -/
def StatusNotAcceptable : Nat := 406

/-- The call `c` was made, then the handler went on as `rest`. -/
def calling (c : Call) (rest : HandlerResult) : HandlerResult :=
  ⟨rest.outcome, c :: rest.calls⟩

/-- The response data built from a user record by `CreateNewUser`, `ActivateUser`,
`GetUserDetail` and `UpdateUserDetail`. -/
def userData (user : User) : Data :=
  .userDetail user.RecID user.Email user.Enabled user.Suspended user.LastSeen user.LastLogin
    user.Enable2FactorAuth

/-- The handler `ListAllUsers`. Its deferred `recover` writes 400 after a panic; no step of
the body panics in the model. -/
def ListAllUsers (rp : Repos) (r : HandlerRequest) : HandlerResult :=
  match rp.NewPageRequestFromRequest r with
  | .error e => ⟨.written StatusBadRequest e .null, []⟩
  | .ok pageRequest =>
    calling (.ListUser pageRequest)
      (match (rp.ListUser pageRequest).err with
      | some e => ⟨.written StatusInternalServerError e .null, []⟩
      | none =>
        ⟨.written StatusOK "List of all user paginated"
          (.users ((rp.ListUser pageRequest).items.map
            (fun v => ⟨v.RecID, v.Email, v.Enabled, v.Suspended⟩))
            (rp.ListUser pageRequest).page), []⟩)

/-- The handler `CreateNewUser`. -/
def CreateNewUser (rp : Repos) (r : HandlerRequest) : HandlerResult :=
  match r.Body with
  | .error e => ⟨.written StatusInternalServerError e .null, []⟩
  | .ok body =>
    match rp.UnmarshalCreateNewUser body with
    | .error e => ⟨.written StatusBadRequest e .null, []⟩
    | .ok req =>
      calling (.CreateUserRecord req.Email req.Passphrase)
        (match rp.CreateUserRecord req.Email req.Passphrase with
        | .error e => ⟨.written StatusBadRequest e .null, []⟩
        | .ok user =>
          ⟨.written StatusOK "Success creating user" (userData user),
            [.MailerSend [user.Email] "EMAIL_VERIFY" user]⟩)

/-- The handler `ChangePassphrase`. -/
def ChangePassphrase (d : Deps) (rp : Repos) (r : HandlerRequest) : HandlerResult :=
  match d.ParsePathParams "/api/v1/management/user/{userRecId}/passwd" r.Path with
  | .error e => ⟨.panicked e, []⟩
  | .ok params =>
    match r.Body with
    | .error e => ⟨.written StatusInternalServerError e .null, []⟩
    | .ok body =>
      match rp.UnmarshalChangePassphrase body with
      | .error _ => ⟨.written StatusBadRequest "Malformed json body" .null, []⟩
      | .ok c =>
        calling (.GetUserByRecID (params "userRecId"))
          (match d.GetUserByRecID (params "userRecId") with
          | .error e => ⟨.written StatusNotFound e .null, []⟩
          | .ok user =>
            match rp.CompareHashAndPassword user.HashedPassphrase c.OldPassphrase with
            | some e => ⟨.written StatusNotAcceptable e .null, []⟩
            | none =>
              match rp.GenerateFromPassword c.NewPassphrase 14 with
              | .error e => ⟨.written StatusInternalServerError e .null, []⟩
              | .ok newHashed =>
                calling (.SaveOrUpdate { user with HashedPassphrase := newHashed })
                  (match d.SaveOrUpdate { user with HashedPassphrase := newHashed } with
                  | some e => ⟨.written StatusInternalServerError e .null, []⟩
                  | none => ⟨.written StatusOK "Password changed" .null, []⟩))

/-- The page request `WhoAmI` sends with each of its three listing calls: the first page
of 100 records in ascending order of `orderBy`. -/
def whoamiPage (orderBy : String) : PageRequest := ⟨1, 100, orderBy, "ASC"⟩

/-- The loop over `groups` in `WhoAmI` (lines 368 to 392): the group summaries, or the
error of the first failing `ListGroupRoleByGroup`; with the calls made. -/
def whoamiGroups (rp : Repos) : List Group → Except String (List GroupSummary) × List Call
  | [] => (.ok [], [])
  | g :: rest =>
    match (rp.ListGroupRoleByGroup g (whoamiPage "ROLE_NAME")).err with
    | some e => (.error e, [.ListGroupRoleByGroup g (whoamiPage "ROLE_NAME")])
    | none =>
      let groupSummary : GroupSummary :=
        ⟨g.RecID, g.GroupName,
          (rp.ListGroupRoleByGroup g (whoamiPage "ROLE_NAME")).items.map
            (fun gr => ⟨gr.RecID, gr.RoleName⟩)⟩
      match whoamiGroups rp rest with
      | (.error e, calls) =>
        (.error e, .ListGroupRoleByGroup g (whoamiPage "ROLE_NAME") :: calls)
      | (.ok summaries, calls) =>
        (.ok (groupSummary :: summaries),
          .ListGroupRoleByGroup g (whoamiPage "ROLE_NAME") :: calls)

/-- The handler `WhoAmI`. -/
def WhoAmI (d : Deps) (rp : Repos) (r : HandlerRequest) : HandlerResult :=
  match r.Authentication with
  | none => ⟨.panicked "interface conversion: interface is nil", []⟩
  | some authCtx =>
    calling (.GetUserByEmail authCtx.Subject)
      (match d.GetUserByEmail authCtx.Subject with
      | .error e =>
        ⟨.written StatusNotFound e
          (.text ("subject not found : " ++ authCtx.Subject ++ ". got " ++ e)), []⟩
      | .ok user =>
        calling (.ListUserRoleByUser user (whoamiPage "ROLE_NAME"))
          (match (rp.ListUserRoleByUser user (whoamiPage "ROLE_NAME")).err with
          | some e =>
            ⟨.written StatusInternalServerError e
              (.text ("subject not found : " ++ authCtx.Subject ++ ". got " ++ e)), []⟩
          | none =>
            let roles : List RoleSummary :=
              (rp.ListUserRoleByUser user (whoamiPage "ROLE_NAME")).items.map
                (fun role => ⟨role.RecID, role.RoleName⟩)
            calling (.ListUserGroupByUser user (whoamiPage "GROUP_NAME"))
              (match (rp.ListUserGroupByUser user (whoamiPage "GROUP_NAME")).err with
              | some e =>
                ⟨.written StatusInternalServerError e
                  (.text ("subject not found : " ++ authCtx.Subject ++ ". got " ++ e)), []⟩
              | none =>
                match whoamiGroups rp
                    (rp.ListUserGroupByUser user (whoamiPage "GROUP_NAME")).items with
                | (.error e, calls) =>
                  ⟨.written StatusInternalServerError e
                    (.text ("subject not found : " ++ authCtx.Subject ++ ". got " ++ e)),
                    calls⟩
                | (.ok groups, calls) =>
                  ⟨.written StatusOK "User information populated"
                    (.whoami ⟨user.RecID, user.Email, user.Enabled, user.Suspended, roles,
                      groups⟩), calls⟩)))

/-- The handler `ActivateUser`. -/
def ActivateUser (d : Deps) (rp : Repos) (r : HandlerRequest) : HandlerResult :=
  match r.Body with
  | .error e => ⟨.written StatusInternalServerError e .null, []⟩
  | .ok body =>
    match rp.UnmarshalActivateUser body with
    | .error _ => ⟨.written StatusBadRequest "Malformed json body" .null, []⟩
    | .ok c =>
      calling (.GetUserByEmail c.Email)
        (match d.GetUserByEmail c.Email with
        | .error e => ⟨.written StatusNotFound e .null, []⟩
        | .ok user =>
          if user.ActivationCode = c.ActivationToken then
            calling (.SaveOrUpdate { user with Enabled := true })
              (match d.SaveOrUpdate { user with Enabled := true } with
              | some e => ⟨.written StatusInternalServerError e .null, []⟩
              | none =>
                ⟨.written StatusOK "User activated" (userData { user with Enabled := true }),
                  []⟩)
          else
            ⟨.written StatusNotFound "Activation token and email not match" .null, []⟩)

/-- The handler `GetUserDetail`. -/
def GetUserDetail (d : Deps) (r : HandlerRequest) : HandlerResult :=
  match d.ParsePathParams "/api/v1/management/user/{userRecId}" r.Path with
  | .error e => ⟨.panicked e, []⟩
  | .ok params =>
    calling (.GetUserByRecID (params "userRecId"))
      (match d.GetUserByRecID (params "userRecId") with
      | .error e => ⟨.written StatusNotFound e .null, []⟩
      | .ok user => ⟨.written StatusOK "User retrieved" (userData user), []⟩)

/-- The handler `DeleteUser`. -/
def DeleteUser (d : Deps) (r : HandlerRequest) : HandlerResult :=
  match d.ParsePathParams "/api/v1/management/user/{userRecId}" r.Path with
  | .error e => ⟨.panicked e, []⟩
  | .ok params =>
    calling (.GetUserByRecID (params "userRecId"))
      (match d.GetUserByRecID (params "userRecId") with
      | .error e => ⟨.written StatusNotFound e .null, []⟩
      | .ok user => ⟨.written StatusOK "User deleted" .null, [.DeleteUser user]⟩)

/-- The handler `ListUserRole`. -/
def ListUserRole (d : Deps) (rp : Repos) (r : HandlerRequest) : HandlerResult :=
  match d.ParsePathParams "/api/v1/management/user/{userRecId}/roles" r.Path with
  | .error e => ⟨.panicked e, []⟩
  | .ok params =>
    calling (.GetUserByRecID (params "userRecId"))
      (match d.GetUserByRecID (params "userRecId") with
      | .error e => ⟨.written StatusNotFound e .null, []⟩
      | .ok user =>
        match rp.NewPageRequestFromRequest r with
        | .error e => ⟨.written StatusBadRequest e .null, []⟩
        | .ok pageRequest =>
          -- lines 591 to 593 log the error of the listing call and go on
          ⟨.written StatusOK "List of roles paginated"
            (.roles ((rp.ListUserRoleByUser user pageRequest).items.map
              (fun v => ⟨v.RecID, v.RoleName⟩)) (rp.ListUserRoleByUser user pageRequest).page),
            [.ListUserRoleByUser user pageRequest]⟩)

/-- The handler `ListAllUserRole`. -/
def ListAllUserRole (d : Deps) (rp : Repos) (r : HandlerRequest) : HandlerResult :=
  match d.ParsePathParams "/api/v1/management/user/{userRecId}/all-roles" r.Path with
  | .error e => ⟨.panicked e, []⟩
  | .ok params =>
    calling (.GetUserByRecID (params "userRecId"))
      (match d.GetUserByRecID (params "userRecId") with
      | .error e => ⟨.written StatusNotFound e .null, []⟩
      | .ok user =>
        match rp.NewPageRequestFromRequest r with
        | .error e => ⟨.written StatusBadRequest e .null, []⟩
        | .ok pageRequest =>
          -- lines 627 to 629 log the error of the listing call and go on
          ⟨.written StatusOK "List of roles paginated"
            (.roles ((rp.ListAllUserRoles user pageRequest).items.map
              (fun v => ⟨v.RecID, v.RoleName⟩)) (rp.ListAllUserRoles user pageRequest).page),
            [.ListAllUserRoles user pageRequest]⟩)

/-- The handler `CreateUserRole`. -/
def CreateUserRole (d : Deps) (rp : Repos) (r : HandlerRequest) : HandlerResult :=
  match d.ParsePathParams "/api/v1/management/user/{userRecId}/role/{roleRecId}" r.Path with
  | .error e => ⟨.panicked e, []⟩
  | .ok params =>
    calling (.GetUserByRecID (params "userRecId"))
      (match d.GetUserByRecID (params "userRecId") with
      | .error e => ⟨.written StatusNotFound e .null, []⟩
      | .ok user =>
        calling (.GetRoleByRecID (params "roleRecId"))
          (match rp.GetRoleByRecID (params "roleRecId") with
          | .error e => ⟨.written StatusNotFound e .null, []⟩
          | .ok role =>
            calling (.CreateUserRole user role)
              (match rp.CreateUserRole user role with
              | some e => ⟨.written StatusBadRequest e .null, []⟩
              | none => ⟨.written StatusOK "User-Role created" .null, []⟩)))

/-- The handler `DeleteUserRole`. -/
def DeleteUserRole (d : Deps) (rp : Repos) (r : HandlerRequest) : HandlerResult :=
  match d.ParsePathParams "/api/v1/management/user/{userRecId}/role/{roleRecId}" r.Path with
  | .error e => ⟨.panicked e, []⟩
  | .ok params =>
    calling (.GetUserByRecID (params "userRecId"))
      (match d.GetUserByRecID (params "userRecId") with
      | .error e => ⟨.written StatusNotFound e .null, []⟩
      | .ok user =>
        calling (.GetRoleByRecID (params "roleRecId"))
          (match rp.GetRoleByRecID (params "roleRecId") with
          | .error e => ⟨.written StatusNotFound e .null, []⟩
          | .ok role =>
            calling (.GetUserRole user role)
              (match rp.GetUserRole user role with
              | .error e => ⟨.written StatusNotFound e .null, []⟩
              | .ok userRole =>
                calling (.DeleteUserRole userRole)
                  (match rp.DeleteUserRole userRole with
                  | some e => ⟨.written StatusBadRequest e .null, []⟩
                  | none => ⟨.written StatusOK "User-Role deleted" .null, []⟩))))

/-- The handler `ListUserGroup`. -/
def ListUserGroup (d : Deps) (rp : Repos) (r : HandlerRequest) : HandlerResult :=
  match d.ParsePathParams "/api/v1/management/user/{userRecId}/groups" r.Path with
  | .error e => ⟨.panicked e, []⟩
  | .ok params =>
    calling (.GetUserByRecID (params "userRecId"))
      (match d.GetUserByRecID (params "userRecId") with
      | .error e => ⟨.written StatusNotFound e .null, []⟩
      | .ok user =>
        match rp.NewPageRequestFromRequest r with
        | .error e => ⟨.written StatusBadRequest e .null, []⟩
        | .ok pageRequest =>
          -- lines 725 to 727 log the error of the listing call and go on
          ⟨.written StatusOK "List of groups paginated"
            (.groups ((rp.ListUserGroupByUser user pageRequest).items.map
              (fun v => ⟨v.RecID, v.GroupName⟩))
              (rp.ListUserGroupByUser user pageRequest).page),
            [.ListUserGroupByUser user pageRequest]⟩)

/-- The handler `CreateUserGroup`. -/
def CreateUserGroup (d : Deps) (rp : Repos) (r : HandlerRequest) : HandlerResult :=
  match d.ParsePathParams "/api/v1/management/user/{userRecId}/group/{groupRecId}" r.Path with
  | .error e => ⟨.panicked e, []⟩
  | .ok params =>
    calling (.GetUserByRecID (params "userRecId"))
      (match d.GetUserByRecID (params "userRecId") with
      | .error e => ⟨.written StatusNotFound e .null, []⟩
      | .ok user =>
        calling (.GetGroupByRecID (params "groupRecId"))
          (match rp.GetGroupByRecID (params "groupRecId") with
          | .error e => ⟨.written StatusNotFound e .null, []⟩
          | .ok group =>
            calling (.CreateUserGroup user group)
              (match rp.CreateUserGroup user group with
              | some e => ⟨.written StatusBadRequest e .null, []⟩
              | none => ⟨.written StatusOK "User-Group created" .null, []⟩)))

/-- The handler `DeleteUserGroup`. -/
def DeleteUserGroup (d : Deps) (rp : Repos) (r : HandlerRequest) : HandlerResult :=
  match d.ParsePathParams "/api/v1/management/user/{userRecId}/group/{groupRecId}" r.Path with
  | .error e => ⟨.panicked e, []⟩
  | .ok params =>
    calling (.GetUserByRecID (params "userRecId"))
      (match d.GetUserByRecID (params "userRecId") with
      | .error e => ⟨.written StatusNotFound e .null, []⟩
      | .ok user =>
        calling (.GetGroupByRecID (params "groupRecId"))
          (match rp.GetGroupByRecID (params "groupRecId") with
          | .error e => ⟨.written StatusNotFound e .null, []⟩
          | .ok group =>
            calling (.GetUserGroup user group)
              (match rp.GetUserGroup user group with
              | .error e => ⟨.written StatusNotFound e .null, []⟩
              | .ok ug =>
                calling (.DeleteUserGroup ug)
                  (match rp.DeleteUserGroup ug with
                  | some e => ⟨.written StatusNotFound e .null, []⟩
                  | none => ⟨.written StatusOK "User-Group deleted" .null, []⟩))))

/-- The HTTP status a handler run puts on the wire, if it writes a response: the status
given to `helper.WriteHTTPResponse`, or 200 with the QR image. -/
def HandlerOutcome.status : HandlerOutcome → Option Nat
  | .written status _ _ => some status
  | .image _ => some StatusOK
  | .panicked _ => none

/-- The HTTP status a run of the middleware writes itself, if it does. -/
def Outcome.status : Outcome → Option Nat
  | .written status _ => some status
  | .served _ => none
  | .panicked _ => none

/-! ### Worked examples of the remaining handlers -/

/-- The collaborators of the worked examples for handlers with a path template: as
`sampleDeps`, with every path yielding the record id `u-1`. -/
def pathDeps : Deps :=
  { sampleDeps with
    ParsePathParams := fun _ _ => .ok (fun k => if k = "userRecId" then "u-1" else "") }

/-- The further collaborators of the worked examples: empty listings, no role and no
group, and a `bcrypt` that accepts the passphrase `correct horse` only. -/
def sampleRepos : Repos where
  ListUser := fun _ => ⟨[], none, none⟩
  CreateUserRecord := fun _ _ => .error "duplicate email"
  ListAllUserRoles := fun _ _ => ⟨[], none, none⟩
  GetRoleByRecID := fun _ => .error "record not found"
  GetGroupByRecID := fun _ => .error "record not found"
  ListUserRoleByUser := fun _ _ => ⟨[], none, none⟩
  CreateUserRole := fun _ _ => none
  GetUserRole := fun _ _ => .error "record not found"
  DeleteUserRole := fun _ => none
  ListUserGroupByUser := fun _ _ => ⟨[], none, none⟩
  CreateUserGroup := fun _ _ => none
  GetUserGroup := fun _ _ => .error "record not found"
  DeleteUserGroup := fun _ => none
  ListGroupRoleByGroup := fun _ _ => ⟨[], none, none⟩
  CompareHashAndPassword := fun _ password =>
    if password = "correct horse" then none
    else some "crypto/bcrypt: hashedPassword is not the hash of the given password"
  GenerateFromPassword := fun password _ => .ok ("hash:" ++ password)
  NewPageRequestFromRequest := fun _ => .ok ⟨1, 10, "EMAIL", "ASC"⟩
  UnmarshalCreateNewUser := fun _ => .error "invalid character"
  UnmarshalChangePassphrase := fun body =>
    if body = "old=wrong" then .ok ⟨"wrong", "battery staple"⟩
    else if body = "old=right" then .ok ⟨"correct horse", "battery staple"⟩
    else .error "invalid character"
  UnmarshalActivateUser := fun _ => .error "invalid character"

/-- Every status the handler run puts on the wire is in the list. -/
def StatusIn (allowed : List Nat) (o : HandlerOutcome) : Prop :=
  ∀ s, o.status = some s → s ∈ allowed

/-! ### The relation tables behind the listing calls -/

/-- Modelled from the spec: the relation tables `UserRole` (a user and a role granted to
it directly), `UserGroup` (a user and a group it belongs to) and `GroupRole` (a group and a
role granted to it), which live in the repository outside the given files. Users and groups
are referred to by record id. -/
structure Tables where
  UserRole : List (String × Role)
  UserGroup : List (String × Group)
  GroupRole : List (String × Role)

/-- Modelled from the spec: the roles granted to the user directly, as `UserRole` holds them. -/
def directRoles (t : Tables) (user : User) : List Role :=
  (t.UserRole.filter (fun p => p.1 = user.RecID)).map (fun p => p.2)

/-- Modelled from the spec: the groups the user belongs to, as `UserGroup` holds them. -/
def groupsOf (t : Tables) (user : User) : List Group :=
  (t.UserGroup.filter (fun p => p.1 = user.RecID)).map (fun p => p.2)

/-- Modelled from the spec: the roles granted to the group, as `GroupRole` holds them. -/
def rolesOfGroup (t : Tables) (group : Group) : List Role :=
  (t.GroupRole.filter (fun p => p.1 = group.RecID)).map (fun p => p.2)

/-- Modelled from the spec: a paginated listing "ordered by a caller-specified field and
direction", which the repository computes outside the given files. The rows are ordered by
`key`, descending when the request says `DESC` and ascending otherwise, and the page
`req.No` of `req.PageSize` rows is cut out. -/
def pageOf {α : Type} (key : α → String) (rows : List α) (req : PageRequest) : List α :=
  let sorted :=
    if req.SortOrder = "DESC" then
      rows.insertionSort (fun a b => ¬ (key a).data < (key b).data)
    else rows.insertionSort (fun a b => ¬ (key b).data < (key a).data)
  (sorted.drop ((req.No - 1) * req.PageSize)).take req.PageSize

/-- Modelled from the spec: the three listing calls of `WhoAmI` answered from the relation
tables, page by page, without error; the other collaborators are those of `base`. -/
def tableRepos (t : Tables) (base : Repos) : Repos :=
  { base with
    ListUserRoleByUser := fun user req =>
      ⟨pageOf (fun role => role.RoleName) (directRoles t user) req,
        some ⟨req.No, req.PageSize, (directRoles t user).length⟩, none⟩
    ListUserGroupByUser := fun user req =>
      ⟨pageOf (fun g => g.GroupName) (groupsOf t user) req,
        some ⟨req.No, req.PageSize, (groupsOf t user).length⟩, none⟩
    ListGroupRoleByGroup := fun g req =>
      ⟨pageOf (fun role => role.RoleName) (rolesOfGroup t g) req,
        some ⟨req.No, req.PageSize, (rolesOfGroup t g).length⟩, none⟩ }

/-- The `WhoAmIResponse` of a handler run, if it wrote one. -/
def whoamiOf : HandlerOutcome → Option WhoAmIResponse
  | .written _ _ (.whoami resp) => some resp
  | _ => none

/-- The role number `i` of the worked example, named by `i + 1` letters `x`. -/
def numberedRole (i : Nat) : Role :=
  ⟨String.mk (List.replicate (i + 1) 'r'), String.mk (List.replicate (i + 1) 'x')⟩

/-- Relation tables in which the principal `u-1` holds 101 roles directly. -/
def crowdedTables : Tables :=
  ⟨(List.range 101).map (fun i => ("u-1", numberedRole i)), [], []⟩

/-- Relation tables in which `u-1` holds the roles `auditor` and `admin` directly and
belongs to the group `ops`, which grants `operator`. -/
def smallTables : Tables :=
  ⟨[("u-1", ⟨"r-2", "auditor"⟩), ("u-2", ⟨"r-3", "guest"⟩), ("u-1", ⟨"r-1", "admin"⟩)],
    [("u-1", ⟨"g-1", "ops"⟩)],
    [("g-1", ⟨"r-4", "operator"⟩)]⟩

/-! ## Properties of the middleware -/

theorem allowedLoop_iff (audience allowed : List String) :
    allowedLoop audience allowed = true ↔ ∃ a ∈ allowed, a ∈ audience := by
  induction allowed with
  | nil => simp [allowedLoop]
  | cons a rest ih =>
    by_cases h : a ∈ audience
    · simp [allowedLoop, StringArrayContainString, h]
    · simp [allowedLoop, StringArrayContainString, h, ih]

theorem checkACL_skipped {env : Env} {r : Request} {acl : ACL} (h : Skipped env r acl) :
    checkACL env r acl = (none, []) := by
  obtain ⟨h1, h2⟩ := h
  unfold checkACL
  rcases hM : env.Match acl.PathPattern r.Path with ⟨b, e⟩
  rw [hM] at h1 h2
  simp only at h1 h2
  subst h1
  cases b with
  | false => rfl
  | true =>
    have : ¬ ToUpper r.Method = acl.Method := fun hh => h2 ⟨rfl, hh⟩
    simp [this]

theorem JwtMiddleware_skip (env : Env) (r : Request) (pre rest : List ACL)
    (h : ∀ a ∈ pre, Skipped env r a) :
    JwtMiddleware env (pre ++ rest) r =
      ⟨(JwtMiddleware env rest r).outcome, (JwtMiddleware env rest r).reads,
        (JwtMiddleware env rest r).visited + pre.length⟩ := by
  induction pre with
  | nil => simp
  | cons a pre ih =>
    have ha : Skipped env r a := h a (List.mem_cons_self _ _)
    have ih2 := ih (fun b hb => h b (List.mem_cons_of_mem _ hb))
    show JwtMiddleware env (a :: (pre ++ rest)) r = _
    rw [JwtMiddleware, checkACL_skipped ha]
    simp only [ih2, List.nil_append, List.length_cons, Nat.add_assoc]

theorem checkACL_public {env : Env} {r : Request} {acl : ACL} (h : Matches env r acl)
    (hp : acl.AllowedAudiences = []) : checkACL env r acl = (some (.served none), []) := by
  obtain ⟨h1, h2⟩ := h
  unfold checkACL
  rw [h1]
  simp [h2, hp]

theorem checkACL_noHeader {env : Env} {r : Request} {acl : ACL} (h : Matches env r acl)
    (hp : acl.AllowedAudiences ≠ []) (hh : r.Authorization = "") :
    checkACL env r acl = (some (.written 401
      ("You are not authorized to access this end point " ++ r.Path)), []) := by
  obtain ⟨h1, h2⟩ := h
  unfold checkACL
  rw [h1]
  simp [h2, hp, hh, StatusUnauthorized]

/-- The loop body at a matching protected rule, once both slices of the header succeed
and the scheme is `bearer`. -/
theorem checkACL_slices {env : Env} {r : Request} {acl : ACL} {tok : String}
    (h : Matches env r acl) (hp : acl.AllowedAudiences ≠ [])
    (b1 : 7 ≤ r.Authorization.length)
    (b2 : ToLower (TrimSpace ⟨r.Authorization.data.take 6⟩) = "bearer")
    (b3 : tok = TrimSpace ⟨r.Authorization.data.drop 7⟩) :
    checkACL env r acl =
      match (env.ReadToken tok).err with
      | some e => (some (.written 403 ("Forbidden. Got " ++ e ++ " ")), [tok])
      | none =>
        if (env.ReadToken tok).issuer ≠ env.tokenIssuer then
          (some (.panicked "invalid memory address or nil pointer dereference"), [tok])
        else if allowedLoop (env.ReadToken tok).audience acl.AllowedAudiences then
          match (env.ReadToken tok).additional "type" with
          | some (.str tokenType) =>
            (some (.served (some ⟨tok, (env.ReadToken tok).subject,
              (env.ReadToken tok).audience, tokenType⟩)), [tok])
          | _ => (some (.panicked "interface conversion: interface is not string"), [tok])
        else (none, [tok]) := by
  obtain ⟨h1, h2⟩ := h
  have hlen : r.Authorization.length ≠ 0 := by omega
  have h6 : sliceTo r.Authorization 6 = some ⟨r.Authorization.data.take 6⟩ := by
    unfold sliceTo; rw [if_pos (by omega)]
  have h7 : sliceFrom r.Authorization 7 = some ⟨r.Authorization.data.drop 7⟩ := by
    unfold sliceFrom; rw [if_pos b1]
  unfold checkACL
  rw [h1]
  simp only [h2, if_true, List.length_eq_zero, hp, if_false, hlen, h6, b2, ne_eq,
    not_true_eq_false, h7, ← b3, StatusForbidden]

theorem checkACL_bearer {env : Env} {r : Request} {acl : ACL} {tok : String}
    (h : Matches env r acl) (hp : acl.AllowedAudiences ≠ [])
    (hb : BearerHeader r.Authorization tok) :
    checkACL env r acl =
      match (env.ReadToken tok).err with
      | some e => (some (.written 403 ("Forbidden. Got " ++ e ++ " ")), [tok])
      | none =>
        if (env.ReadToken tok).issuer ≠ env.tokenIssuer then
          (some (.panicked "invalid memory address or nil pointer dereference"), [tok])
        else if allowedLoop (env.ReadToken tok).audience acl.AllowedAudiences then
          match (env.ReadToken tok).additional "type" with
          | some (.str tokenType) =>
            (some (.served (some ⟨tok, (env.ReadToken tok).subject,
              (env.ReadToken tok).audience, tokenType⟩)), [tok])
          | _ => (some (.panicked "interface conversion: interface is not string"), [tok])
        else (none, [tok]) :=
  checkACL_slices h hp hb.2.1 hb.2.2.1 hb.2.2.2

theorem bearerHeader_literal (tok : String) :
    BearerHeader ("Bearer " ++ tok) (TrimSpace tok) := by
  have hd : ("Bearer " ++ tok).data = 'B' :: 'e' :: 'a' :: 'r' :: 'e' :: 'r' :: ' ' :: tok.data := rfl
  refine ⟨?_, ?_, ?_, ?_⟩
  · intro c hc
    rw [hd] at hc
    simp only [List.take_succ_cons, List.take_zero, List.mem_cons, List.mem_nil_iff,
      or_false] at hc
    rcases hc with rfl | rfl | rfl | rfl | rfl | rfl | rfl <;> decide
  · show 7 ≤ ("Bearer " ++ tok).data.length
    rw [hd]; simp
  · rw [hd]
    show ToLower (TrimSpace ⟨['B', 'e', 'a', 'r', 'e', 'r']⟩) = "bearer"
    decide
  · rw [hd]; rfl

theorem not_matches_skipped {env : Env} {r : Request} {acl : ACL}
    (he : (env.Match acl.PathPattern r.Path).2 = none) (h : ¬ Matches env r acl) :
    Skipped env r acl := by
  refine ⟨he, fun hh => h ⟨?_, hh.2⟩⟩
  exact Prod.ext hh.1 he

theorem checkACL_passedOver {env : Env} {r : Request} {acl : ACL} (hm : Matches env r acl)
    (h : PassedOver env r acl) :
    ∃ tok, checkACL env r acl = (none, [tok]) := by
  obtain ⟨hp, tok, hb, herr, hiss, hdis⟩ := h
  refine ⟨tok, ?_⟩
  have hal : ¬ allowedLoop (env.ReadToken tok).audience acl.AllowedAudiences = true := by
    rw [allowedLoop_iff]
    rintro ⟨x, hx, hx2⟩
    exact hdis x hx hx2
  rw [checkACL_bearer hm hp hb, herr]
  simp [hiss, hal]

theorem checkACL_decides {env : Env} {r : Request} {acl : ACL} (hm : Matches env r acl)
    (ha : AsciiPrefix r.Authorization) (h : ¬ PassedOver env r acl) :
    ∃ o reads, checkACL env r acl = (some o, reads) := by
  by_cases hp : acl.AllowedAudiences = []
  · exact ⟨_, _, checkACL_public hm hp⟩
  by_cases h0 : r.Authorization = ""
  · exact ⟨_, _, checkACL_noHeader hm hp h0⟩
  have hlen : r.Authorization.length ≠ 0 := by
    intro hl
    apply h0
    have : r.Authorization.data = [] := List.length_eq_zero.1 hl
    exact String.ext this
  by_cases h6 : 6 ≤ r.Authorization.length
  · by_cases hbe : ToLower (TrimSpace ⟨r.Authorization.data.take 6⟩) = "bearer"
    · by_cases h7 : 7 ≤ r.Authorization.length
      · have hb : BearerHeader r.Authorization (TrimSpace ⟨r.Authorization.data.drop 7⟩) :=
          ⟨ha, h7, hbe, rfl⟩
        rw [checkACL_bearer hm hp hb]
        cases herr : (env.ReadToken (TrimSpace ⟨r.Authorization.data.drop 7⟩)).err with
        | some e => exact ⟨_, _, rfl⟩
        | none =>
          by_cases hiss : (env.ReadToken (TrimSpace ⟨r.Authorization.data.drop 7⟩)).issuer
              = env.tokenIssuer
          · by_cases hal : allowedLoop
                (env.ReadToken (TrimSpace ⟨r.Authorization.data.drop 7⟩)).audience
                acl.AllowedAudiences = true
            · simp only [hiss, ne_eq, not_true_eq_false, if_false, hal, if_true]
              split <;> exact ⟨_, _, rfl⟩
            · exfalso
              apply h
              refine ⟨hp, _, hb, herr, hiss, fun x hx hx2 => hal ?_⟩
              exact (allowedLoop_iff _ _).2 ⟨x, hx, hx2⟩
          · simp only [ne_eq, hiss, not_false_eq_true, if_true]
            exact ⟨_, _, rfl⟩
      · obtain ⟨h1, h2⟩ := hm
        unfold checkACL
        rw [h1]
        simp [h2, hp, hlen, sliceTo, sliceFrom, h6, hbe, h7]
    · obtain ⟨h1, h2⟩ := hm
      unfold checkACL
      rw [h1]
      simp [h2, hp, hlen, sliceTo, h6, hbe]
  · obtain ⟨h1, h2⟩ := hm
    unfold checkACL
    rw [h1]
    simp [h2, hp, hlen, sliceTo, h6]

/-- With a bearer header whose token is accepted, comes from the configured issuer and
carries a string type, the scan forwards exactly when some rule matches and grants, and
writes the final 403 otherwise. -/
theorem scan_accepted_token (env : Env) (r : Request) (tok : String)
    (hb : BearerHeader r.Authorization tok)
    (hRead : (env.ReadToken tok).err = none)
    (hIss : (env.ReadToken tok).issuer = env.tokenIssuer)
    (hTy : ∃ ty, (env.ReadToken tok).additional "type" = some (.str ty))
    (acls : List ACL) (hMatch : ∀ a ∈ acls, (env.Match a.PathPattern r.Path).2 = none) :
    ((∃ a ∈ acls, Matches env r a ∧ Grants a (env.ReadToken tok).audience) →
        ∃ ctx, (JwtMiddleware env acls r).outcome = .served ctx) ∧
      ((¬ ∃ a ∈ acls, Matches env r a ∧ Grants a (env.ReadToken tok).audience) →
        (JwtMiddleware env acls r).outcome = .written 403
          ("You are authenticated but not allowed to access this end point " ++ r.Path)) := by
  induction acls with
  | nil => simp [JwtMiddleware, StatusForbidden]
  | cons a rest ih =>
    have ih2 := ih (fun b hb2 => hMatch b (List.mem_cons_of_mem _ hb2))
    have he := hMatch a (List.mem_cons_self _ _)
    obtain ⟨ty, hty⟩ := hTy
    by_cases hm : Matches env r a
    · by_cases hp : a.AllowedAudiences = []
      · have hg : ∃ b ∈ a :: rest, Matches env r b ∧ Grants b (env.ReadToken tok).audience :=
          ⟨a, List.mem_cons_self _ _, hm, Or.inl hp⟩
        refine ⟨fun _ => ⟨none, ?_⟩, fun hn => absurd hg hn⟩
        rw [JwtMiddleware, checkACL_public hm hp]
      · by_cases hal : allowedLoop (env.ReadToken tok).audience a.AllowedAudiences = true
        · have hg : ∃ b ∈ a :: rest, Matches env r b ∧ Grants b (env.ReadToken tok).audience :=
            ⟨a, List.mem_cons_self _ _, hm, Or.inr ((allowedLoop_iff _ _).1 hal)⟩
          refine ⟨fun _ => ⟨some ⟨tok, (env.ReadToken tok).subject,
            (env.ReadToken tok).audience, ty⟩, ?_⟩, fun hn => absurd hg hn⟩
          rw [JwtMiddleware, checkACL_bearer hm hp hb, hRead]
          simp [hIss, hal, hty]
        · have hng : ¬ Grants a (env.ReadToken tok).audience := by
            rintro (h | h)
            · exact hp h
            · exact hal ((allowedLoop_iff _ _).2 h)
          have hstep : (JwtMiddleware env (a :: rest) r).outcome =
              (JwtMiddleware env rest r).outcome := by
            rw [JwtMiddleware, checkACL_bearer hm hp hb, hRead]
            simp [hIss, hal]
          rw [hstep]
          constructor
          · rintro ⟨b, hb2, hmb, hgb⟩
            rcases List.mem_cons.1 hb2 with rfl | hb3
            · exact absurd hgb hng
            · exact ih2.1 ⟨b, hb3, hmb, hgb⟩
          · intro hn
            exact ih2.2 (fun ⟨b, hb3, hmb, hgb⟩ => hn ⟨b, List.mem_cons_of_mem _ hb3, hmb, hgb⟩)
    · have hstep : (JwtMiddleware env (a :: rest) r).outcome =
          (JwtMiddleware env rest r).outcome := by
        rw [JwtMiddleware, checkACL_skipped (not_matches_skipped he hm)]
      rw [hstep]
      constructor
      · rintro ⟨b, hb2, hmb, hgb⟩
        rcases List.mem_cons.1 hb2 with rfl | hb3
        · exact absurd hmb hm
        · exact ih2.1 ⟨b, hb3, hmb, hgb⟩
      · intro hn
        exact ih2.2 (fun ⟨b, hb3, hmb, hgb⟩ => hn ⟨b, List.mem_cons_of_mem _ hb3, hmb, hgb⟩)

/-- C1: for a request with header `Bearer <tok>` whose token `ReadToken` accepts, whose
issuer is the configured one and whose type claim is a string, and a rule list on whose
patterns `helper.Match` reports no error for the path, the middleware forwards the request
exactly when some rule matches path and method and is public or has an allowed audience
in the token's audience list; in every other case it writes status 403. -/
theorem C1_forward_iff_some_rule_grants (env : Env) (acls : List ACL)
    (method path tok : String)
    (hMatch : ∀ a ∈ acls, (env.Match a.PathPattern path).2 = none)
    (hRead : (env.ReadToken (TrimSpace tok)).err = none)
    (hIss : (env.ReadToken (TrimSpace tok)).issuer = env.tokenIssuer)
    (hTy : ∃ ty, (env.ReadToken (TrimSpace tok)).additional "type" = some (.str ty)) :
    ((∃ ctx, (JwtMiddleware env acls ⟨method, path, "Bearer " ++ tok⟩).outcome = .served ctx) ↔
        ∃ a ∈ acls, Matches env ⟨method, path, "Bearer " ++ tok⟩ a ∧
          Grants a (env.ReadToken (TrimSpace tok)).audience) ∧
      ((¬ ∃ a ∈ acls, Matches env ⟨method, path, "Bearer " ++ tok⟩ a ∧
          Grants a (env.ReadToken (TrimSpace tok)).audience) →
        (JwtMiddleware env acls ⟨method, path, "Bearer " ++ tok⟩).outcome = .written 403
          ("You are authenticated but not allowed to access this end point " ++ path)) := by
  have h := scan_accepted_token env ⟨method, path, "Bearer " ++ tok⟩ (TrimSpace tok)
    (bearerHeader_literal tok) hRead hIss hTy acls hMatch
  refine ⟨⟨fun ⟨ctx, hs⟩ => ?_, h.1⟩, h.2⟩
  by_contra hn
  have h403 := h.2 hn
  rw [hs] at h403
  exact Outcome.noConfusion h403

/-- C1 (instance): an admin token on `GET /api/v1/management/users` is forwarded. -/
theorem C1_forward_iff_some_rule_grants_witness :
    ((∃ ctx, (JwtMiddleware sampleEnv sampleACLs
        ⟨"GET", "/api/v1/management/users", "Bearer " ++ "admin-access"⟩).outcome = .served ctx) ↔
        ∃ a ∈ sampleACLs, Matches sampleEnv
            ⟨"GET", "/api/v1/management/users", "Bearer " ++ "admin-access"⟩ a ∧
          Grants a (sampleEnv.ReadToken (TrimSpace "admin-access")).audience) ∧
      ((¬ ∃ a ∈ sampleACLs, Matches sampleEnv
            ⟨"GET", "/api/v1/management/users", "Bearer " ++ "admin-access"⟩ a ∧
          Grants a (sampleEnv.ReadToken (TrimSpace "admin-access")).audience) →
        (JwtMiddleware sampleEnv sampleACLs
          ⟨"GET", "/api/v1/management/users", "Bearer " ++ "admin-access"⟩).outcome =
          .written 403
            ("You are authenticated but not allowed to access this end point " ++
              "/api/v1/management/users")) :=
  C1_forward_iff_some_rule_grants sampleEnv sampleACLs "GET" "/api/v1/management/users"
    "admin-access" (fun _ _ => rfl) (by decide) (by decide) ⟨"access", by decide⟩

/-- C2 (counterexample): with the declared rule list, a user-role token on
`GET /api/v1/management/user/2FAQR` first meets the admin-only rule
`/api/v1/management/user/*` (the 15th entry), which does not grant it; the scan goes on,
evaluates 29 entries and forwards the request by the 29th, although the list cut after
the 15th entry answers 403. -/
theorem C2_counterexample :
    (∀ a ∈ sampleACLs.take 14,
        Skipped sampleEnv ⟨"GET", "/api/v1/management/user/2FAQR", "Bearer user-access"⟩ a) ∧
      (∃ a, sampleACLs.get? 14 = some a ∧ a.PathPattern = "/api/v1/management/user/*" ∧
        Matches sampleEnv ⟨"GET", "/api/v1/management/user/2FAQR", "Bearer user-access"⟩ a) ∧
      JwtMiddleware sampleEnv sampleACLs
          ⟨"GET", "/api/v1/management/user/2FAQR", "Bearer user-access"⟩ =
        ⟨.served (some ⟨"user-access", "user@example.com", ["user@aud"], "access"⟩),
          ["user-access", "user-access"], 29⟩ ∧
      (JwtMiddleware sampleEnv (sampleACLs.take 15)
          ⟨"GET", "/api/v1/management/user/2FAQR", "Bearer user-access"⟩).outcome =
        .written 403 ("You are authenticated but not allowed to access this end point " ++
          "/api/v1/management/user/2FAQR") := by
  refine ⟨by decide, ⟨_, rfl, rfl, by decide⟩, by decide, by decide⟩

/-- C2 (amended): for a request whose `Authorization` header is ASCII in its first seven
characters, the first rule matching path and method decides the outcome and no later rule
is evaluated, unless that rule is audience-protected and the request bears a token that
`ReadToken` accepts, from the configured issuer, with no audience among the rule's allowed
audiences; in that case the scan goes on with the rules after it. -/
theorem C2_first_match_decides_unless_audience_miss (env : Env) (r : Request)
    (pre post : List ACL) (a : ACL)
    (hpre : ∀ b ∈ pre, Skipped env r b) (hm : Matches env r a)
    (hAscii : AsciiPrefix r.Authorization) :
    (¬ PassedOver env r a →
        (JwtMiddleware env (pre ++ a :: post) r).visited = pre.length + 1 ∧
        ∀ post2, JwtMiddleware env (pre ++ a :: post2) r = JwtMiddleware env (pre ++ a :: post) r) ∧
      (PassedOver env r a →
        (JwtMiddleware env (pre ++ a :: post) r).outcome = (JwtMiddleware env post r).outcome ∧
        (JwtMiddleware env (pre ++ a :: post) r).visited =
          pre.length + 1 + (JwtMiddleware env post r).visited) := by
  constructor
  · intro hn
    obtain ⟨o, reads, hc⟩ := checkACL_decides hm hAscii hn
    have key : ∀ p, JwtMiddleware env (pre ++ a :: p) r = ⟨o, reads, pre.length + 1⟩ := by
      intro p
      rw [JwtMiddleware_skip env r pre (a :: p) hpre, JwtMiddleware, hc]
      simp [Nat.add_comm]
    refine ⟨by rw [key], fun post2 => by rw [key, key]⟩
  · intro hpo
    obtain ⟨tok, hc⟩ := checkACL_passedOver hm hpo
    rw [JwtMiddleware_skip env r pre (a :: post) hpre, JwtMiddleware, hc]
    simp only [true_and]
    omega

/-- C2 (instance of the amended claim): the user-role token on
`GET /api/v1/management/user/2FAQR` is passed over by the 15th entry of the declared list. -/
theorem C2_first_match_decides_unless_audience_miss_witness :
    (JwtMiddleware sampleEnv (sampleACLs.take 14 ++ ⟨"/api/v1/management/user/*", "GET",
        ["admin@aud"]⟩ :: sampleACLs.drop 15)
        ⟨"GET", "/api/v1/management/user/2FAQR", "Bearer user-access"⟩).outcome =
      (JwtMiddleware sampleEnv (sampleACLs.drop 15)
        ⟨"GET", "/api/v1/management/user/2FAQR", "Bearer user-access"⟩).outcome :=
  ((C2_first_match_decides_unless_audience_miss sampleEnv
      ⟨"GET", "/api/v1/management/user/2FAQR", "Bearer user-access"⟩
      (sampleACLs.take 14) (sampleACLs.drop 15)
      ⟨"/api/v1/management/user/*", "GET", ["admin@aud"]⟩ (by decide) (by decide)
      (by decide)).2
    ⟨by decide, "user-access", by decide, by decide, by decide, by decide⟩).1

/-- C3: when the first rule matching path and method has an empty `AllowedAudiences` list,
the request is forwarded as received and `ReadToken` is never called, whatever the
`Authorization` header holds; `GET /health` without a header is forwarded by the declared
rule list. -/
theorem C3_public_rule_forwards_without_token :
    (∀ (env : Env) (r : Request) (pre post : List ACL) (a : ACL),
        (∀ b ∈ pre, Skipped env r b) → Matches env r a → a.AllowedAudiences = [] →
        ∀ header : String,
          JwtMiddleware env (pre ++ a :: post) ⟨r.Method, r.Path, header⟩ =
            ⟨.served none, [], pre.length + 1⟩) ∧
      (∀ (readToken : String → ReadResult) (issuer adminRole userRole : String),
        JwtMiddleware ⟨specMatch, readToken, issuer⟩ (ACLs adminRole userRole)
          ⟨"GET", "/health", ""⟩ = ⟨.served none, [], 2⟩) := by
  constructor
  · intro env r pre post a hpre hm hp header
    have hpre2 : ∀ b ∈ pre, Skipped env ⟨r.Method, r.Path, header⟩ b := hpre
    have hm2 : Matches env ⟨r.Method, r.Path, header⟩ a := hm
    rw [JwtMiddleware_skip env _ pre (a :: post) hpre2, JwtMiddleware, checkACL_public hm2 hp]
    simp [Nat.add_comm]
  · intro readToken issuer adminRole userRole
    rfl

/-- C3 (instance): a malformed header on `POST /api/v1/auth/authenticate` changes nothing. -/
theorem C3_public_rule_forwards_without_token_witness :
    JwtMiddleware sampleEnv (sampleACLs.take 2 ++ ⟨"/api/v1/auth/authenticate", "POST", []⟩ ::
        sampleACLs.drop 3) ⟨"POST", "/api/v1/auth/authenticate", "abc"⟩ =
      ⟨.served none, [], 3⟩ :=
  C3_public_rule_forwards_without_token.1 sampleEnv ⟨"POST", "/api/v1/auth/authenticate", ""⟩
    (sampleACLs.take 2) (sampleACLs.drop 3) ⟨"/api/v1/auth/authenticate", "POST", []⟩
    (by decide) (by decide) rfl "abc"

/-- C4: when the first rule matching path and method has a non-empty `AllowedAudiences`
list and the request has no `Authorization` header, the middleware writes status 401, the
next handler is not served and no token is read; `GET /api/v1/management/users` without a
header gets 401 from the declared rule list. -/
theorem C4_missing_header_unauthorized :
    (∀ (env : Env) (r : Request) (pre post : List ACL) (a : ACL),
        (∀ b ∈ pre, Skipped env r b) → Matches env r a → a.AllowedAudiences ≠ [] →
        r.Authorization = "" →
        JwtMiddleware env (pre ++ a :: post) r =
          ⟨.written 401 ("You are not authorized to access this end point " ++ r.Path), [],
            pre.length + 1⟩) ∧
      (∀ (readToken : String → ReadResult) (issuer adminRole userRole : String),
        JwtMiddleware ⟨specMatch, readToken, issuer⟩ (ACLs adminRole userRole)
          ⟨"GET", "/api/v1/management/users", ""⟩ =
          ⟨.written 401 "You are not authorized to access this end point /api/v1/management/users",
            [], 11⟩) := by
  constructor
  · intro env r pre post a hpre hm hp hh
    rw [JwtMiddleware_skip env _ pre (a :: post) hpre, JwtMiddleware, checkACL_noHeader hm hp hh]
    simp [Nat.add_comm]
  · intro readToken issuer adminRole userRole
    rfl

/-- C4 (instance): `GET /api/v1/management/user/whoami` without a header gets 401. -/
theorem C4_missing_header_unauthorized_witness :
    JwtMiddleware sampleEnv (sampleACLs.take 8 ++ ⟨"/api/v1/management/user/whoami", "GET",
        ["user@aud", "admin@aud"]⟩ :: sampleACLs.drop 9)
        ⟨"GET", "/api/v1/management/user/whoami", ""⟩ =
      ⟨.written 401 ("You are not authorized to access this end point " ++
        "/api/v1/management/user/whoami"), [], 8 + 1⟩ :=
  C4_missing_header_unauthorized.1 sampleEnv ⟨"GET", "/api/v1/management/user/whoami", ""⟩
    (sampleACLs.take 8) (sampleACLs.drop 9)
    ⟨"/api/v1/management/user/whoami", "GET", ["user@aud", "admin@aud"]⟩
    (by decide) (by decide) (by decide) rfl

/-- C5 (the code at the failing input): a three-character header `abc` on the protected
rule `GET /api/v1/management/users` makes the slice `authHeader[:6]` panic; no 401 is
written. -/
theorem C5_short_header_panics :
    ∀ (readToken : String → ReadResult) (issuer adminRole userRole : String),
      JwtMiddleware ⟨specMatch, readToken, issuer⟩ (ACLs adminRole userRole)
        ⟨"GET", "/api/v1/management/users", "abc"⟩ =
        ⟨.panicked "slice bounds out of range", [], 11⟩ := by
  intro readToken issuer adminRole userRole
  rfl

/-- C6: when the first rule matching path and method is audience-protected, the header is
a bearer header (seven ASCII characters, the first six of them `bearer` in some letter
case, then the token) and `ReadToken` returns an error for its token, the middleware writes
status 403, the next handler is not served, and no rule after that one is evaluated. -/
theorem C6_token_error_forbidden (env : Env) (r : Request) (pre post : List ACL) (a : ACL)
    (tok e : String)
    (hpre : ∀ b ∈ pre, Skipped env r b) (hm : Matches env r a)
    (hp : a.AllowedAudiences ≠ []) (hb : BearerHeader r.Authorization tok)
    (herr : (env.ReadToken tok).err = some e) :
    JwtMiddleware env (pre ++ a :: post) r =
      ⟨.written 403 ("Forbidden. Got " ++ e ++ " "), [tok], pre.length + 1⟩ := by
  rw [JwtMiddleware_skip env _ pre (a :: post) hpre, JwtMiddleware, checkACL_bearer hm hp hb,
    herr]
  simp [Nat.add_comm]

/-- C6 (instance): an unreadable token on `GET /api/v1/management/users`. -/
theorem C6_token_error_forbidden_witness :
    JwtMiddleware sampleEnv (sampleACLs.take 10 ++ ⟨"/api/v1/management/users", "GET",
        ["admin@aud"]⟩ :: sampleACLs.drop 11)
        ⟨"GET", "/api/v1/management/users", "Bearer garbage"⟩ =
      ⟨.written 403 ("Forbidden. Got " ++ "malformed jwt token" ++ " "), ["garbage"],
        10 + 1⟩ :=
  C6_token_error_forbidden sampleEnv ⟨"GET", "/api/v1/management/users", "Bearer garbage"⟩
    (sampleACLs.take 10) (sampleACLs.drop 11) ⟨"/api/v1/management/users", "GET", ["admin@aud"]⟩
    "garbage" "malformed jwt token" (by decide) (by decide) (by decide) (by decide) (by decide)

/-- C7 (the code at the failing input): a token that `ReadToken` accepts without error
and whose issuer is `elsewhere`, not the configured `hansip`, makes the handler panic at
line 154 (`err.Error()` on a nil `err`); status 403 is never written. -/
theorem C7_foreign_issuer_panics :
    JwtMiddleware sampleEnv sampleACLs ⟨"GET", "/api/v1/management/users", "Bearer foreign"⟩ =
      ⟨.panicked "invalid memory address or nil pointer dereference", ["foreign"], 11⟩ := by
  decide

/-- C8 (counterexample): a valid refresh token with the admin audience on the
access-token endpoint `GET /api/v1/management/users` is forwarded. -/
theorem C8_counterexample :
    JwtMiddleware sampleEnv sampleACLs
        ⟨"GET", "/api/v1/management/users", "Bearer admin-refresh"⟩ =
      ⟨.served (some ⟨"admin-refresh", "admin@example.com", ["admin@aud"], "refresh"⟩),
        ["admin-refresh"], 11⟩ := by
  decide

/-- C8 (amended): the middleware does not test the type claim. At an audience-protected
rule, the token of a bearer header (seven ASCII characters, the first six of them `bearer`
in some letter case, then the token) that `ReadToken` accepts, from the configured issuer,
with an allowed audience and a string type claim is forwarded whatever that type is,
`refresh` included, and the type is handed to the next handler as `TokenType` of the
authentication context. -/
theorem C8_token_type_not_checked (env : Env) (r : Request) (pre post : List ACL) (a : ACL)
    (tok tokenType : String)
    (hpre : ∀ b ∈ pre, Skipped env r b) (hm : Matches env r a)
    (hp : a.AllowedAudiences ≠ []) (hb : BearerHeader r.Authorization tok)
    (herr : (env.ReadToken tok).err = none)
    (hiss : (env.ReadToken tok).issuer = env.tokenIssuer)
    (haud : ∃ x ∈ a.AllowedAudiences, x ∈ (env.ReadToken tok).audience)
    (hty : (env.ReadToken tok).additional "type" = some (.str tokenType)) :
    JwtMiddleware env (pre ++ a :: post) r =
      ⟨.served (some ⟨tok, (env.ReadToken tok).subject, (env.ReadToken tok).audience,
        tokenType⟩), [tok], pre.length + 1⟩ := by
  have hal := (allowedLoop_iff _ _).2 haud
  rw [JwtMiddleware_skip env _ pre (a :: post) hpre, JwtMiddleware, checkACL_bearer hm hp hb,
    herr]
  simp [hiss, hal, hty, Nat.add_comm]

/-- C8 (instance of the amended claim): the refresh token on `GET /api/v1/management/users`. -/
theorem C8_token_type_not_checked_witness :
    JwtMiddleware sampleEnv (sampleACLs.take 10 ++ ⟨"/api/v1/management/users", "GET",
        ["admin@aud"]⟩ :: sampleACLs.drop 11)
        ⟨"GET", "/api/v1/management/users", "Bearer admin-refresh"⟩ =
      ⟨.served (some ⟨"admin-refresh", (sampleEnv.ReadToken "admin-refresh").subject,
        (sampleEnv.ReadToken "admin-refresh").audience, "refresh"⟩), ["admin-refresh"],
        (sampleACLs.take 10).length + 1⟩ :=
  C8_token_type_not_checked sampleEnv
    ⟨"GET", "/api/v1/management/users", "Bearer admin-refresh"⟩
    (sampleACLs.take 10) (sampleACLs.drop 11) ⟨"/api/v1/management/users", "GET", ["admin@aud"]⟩
    "admin-refresh" "refresh" (by decide) (by decide) (by decide) (by decide) (by decide)
    (by decide) ⟨"admin@aud", by decide, by decide⟩ (by decide)

/-! ## Properties of the token factory -/

/-- C9 (the code at the failing input): for the factory
`NewTokenFactory("secret", "HS256", "hansip", ..)`, a token text that does not parse and a
token that parses but fails validation both make `ReadToken` return the issuer-mismatch
error `invalid issuer `, not the malformed-token or the invalid-signature error that
`ReadJWTStringToken` produced. -/
theorem C9_parse_and_signature_errors_masked :
    ∀ (lib : Jose) (now : Nat → Time) (acc ref : Duration) (claims : GoMap) (e tok : String),
      NewTokenFactory "secret" "HS256" "hansip" acc ref =
          some ⟨"hansip", acc, ref, "secret", "HS256"⟩ ∧
        (ReadJWTStringToken ⟨fun _ => none, lib.Validate, lib.Serialize⟩ now true "secret"
          "HS256" tok).err = some "malformed jwt token" ∧
        (ReadToken ⟨fun _ => none, lib.Validate, lib.Serialize⟩ now
          ⟨"hansip", acc, ref, "secret", "HS256"⟩ tok).2 = some "invalid issuer " ∧
        (ReadJWTStringToken ⟨fun _ => some claims, fun _ _ _ _ => some e, lib.Serialize⟩ now true
          "secret" "HS256" tok).err = some ("invalid jwt token - " ++ e) ∧
        (ReadToken ⟨fun _ => some claims, fun _ _ _ _ => some e, lib.Serialize⟩ now
          ⟨"hansip", acc, ref, "secret", "HS256"⟩ tok).2 = some "invalid issuer " := by
  intro lib now acc ref claims e tok
  refine ⟨rfl, rfl, ?_, rfl, ?_⟩
  · simp [ReadToken, ReadJWTStringToken]
  · simp [ReadToken, ReadJWTStringToken]

/-- C10 (counterexample): four additional maps whose entry does not come back. With
`type ↦ custom` the access token reads back with `type ↦ access`. With `sub ↦ mallory` it
reads back with subject `mallory`, not the given subject `alice`, and without the entry.
With `ıss ↦ x`, a name that Go upper-cases to `ISS`, it reads back without the entry. With
the integer entry `level ↦ 5` it reads back with the `float64` that the JSON decoder
returns for the number, not with the integer. -/
theorem C10_counterexample :
    (CreateTokenPair (sampleJose "alice" ["admin@aud"] (GoMap.empty.set "type" (.str "custom")))
        sampleNow sampleFactory "alice" ["admin@aud"] (GoMap.empty.set "type" (.str "custom")) =
        .ret ("access.jwt", "refresh.jwt", none) ∧
      (ReadToken (sampleJose "alice" ["admin@aud"] (GoMap.empty.set "type" (.str "custom")))
        sampleNow sampleFactory "access.jwt").2 = none ∧
      (ReadToken (sampleJose "alice" ["admin@aud"] (GoMap.empty.set "type" (.str "custom")))
        sampleNow sampleFactory "access.jwt").1.Additional "type" = some (.str "access")) ∧
    (CreateTokenPair (sampleJose "alice" ["admin@aud"] (GoMap.empty.set "sub" (.str "mallory")))
        sampleNow sampleFactory "alice" ["admin@aud"] (GoMap.empty.set "sub" (.str "mallory")) =
        .ret ("access.jwt", "refresh.jwt", none) ∧
      (ReadToken (sampleJose "alice" ["admin@aud"] (GoMap.empty.set "sub" (.str "mallory")))
        sampleNow sampleFactory "access.jwt").2 = none ∧
      (ReadToken (sampleJose "alice" ["admin@aud"] (GoMap.empty.set "sub" (.str "mallory")))
        sampleNow sampleFactory "access.jwt").1.Subject = "mallory" ∧
      (ReadToken (sampleJose "alice" ["admin@aud"] (GoMap.empty.set "sub" (.str "mallory")))
        sampleNow sampleFactory "access.jwt").1.Additional "sub" = none) ∧
    (CreateTokenPair (sampleJose "alice" ["admin@aud"] (GoMap.empty.set "ıss" (.str "x")))
        sampleNow sampleFactory "alice" ["admin@aud"] (GoMap.empty.set "ıss" (.str "x")) =
        .ret ("access.jwt", "refresh.jwt", none) ∧
      accessClaims sampleNow sampleFactory "alice" ["admin@aud"]
        (GoMap.empty.set "ıss" (.str "x")) "ıss" = some (.str "x") ∧
      (ReadToken (sampleJose "alice" ["admin@aud"] (GoMap.empty.set "ıss" (.str "x")))
        sampleNow sampleFactory "access.jwt").2 = none ∧
      (ReadToken (sampleJose "alice" ["admin@aud"] (GoMap.empty.set "ıss" (.str "x")))
        sampleNow sampleFactory "access.jwt").1.Additional "ıss" = none) ∧
    (CreateTokenPair (sampleJose "alice" ["admin@aud"] (GoMap.empty.set "level" (.num 5)))
        sampleNow sampleFactory "alice" ["admin@aud"] (GoMap.empty.set "level" (.num 5)) =
        .ret ("access.jwt", "refresh.jwt", none) ∧
      (ReadToken (sampleJose "alice" ["admin@aud"] (GoMap.empty.set "level" (.num 5)))
        sampleNow sampleFactory "access.jwt").2 = none ∧
      (ReadToken (sampleJose "alice" ["admin@aud"] (GoMap.empty.set "level" (.num 5)))
        sampleNow sampleFactory "access.jwt").1.Additional "level" = some (.float 5) ∧
      (ReadToken (sampleJose "alice" ["admin@aud"] (GoMap.empty.set "level" (.num 5)))
        sampleNow sampleFactory "access.jwt").1.Additional "level" ≠ some (.num 5)) := by
  decide

theorem createTokenPair_access_signed {lib : Jose} {now : Nat → Time}
    {tf : DefaultTokenFactory} {subject : String} {audience : List String}
    {additional : GoMap} {access refresh : String} {err : Option String}
    (h : CreateTokenPair lib now tf subject audience additional = .ret (access, refresh, err)) :
    err = none ∧
    lib.Serialize (accessClaims now tf subject audience additional)
      (signingMethodOf tf.SignMethod) tf.SignKey = .ok access := by
  unfold CreateTokenPair CreateJWTStringToken at h
  simp only at h
  unfold accessClaims
  cases h1 : lib.Serialize (jwtClaims tf.Issuer subject audience (now 0) (now 1)
      (Add (now 2) tf.AccessTokenDuration)
      ((copyInto GoMap.empty additional).set "type" (.str "access")))
      (signingMethodOf tf.SignMethod) tf.SignKey with
  | error e => rw [h1] at h; simp at h
  | ok a =>
    rw [h1] at h
    simp only at h
    cases h2 : lib.Serialize (jwtClaims tf.Issuer subject audience (now 3) (now 4)
        (Add (now 5) tf.RefreshTokenDuration)
        ((copyInto GoMap.empty additional).set "type" (.str "refresh")))
        (signingMethodOf tf.SignMethod) tf.SignKey with
    | error e => rw [h2] at h; simp at h
    | ok b =>
      rw [h2] at h
      simp only [Go.ret.injEq, Prod.mk.injEq] at h
      obtain ⟨ha, _, he⟩ := h
      exact ⟨he.symm, by rw [ha]⟩

theorem setAudience_other (c : GoMap) (audience : List String) (k : String) (hk : k ≠ "aud") :
    SetAudience c audience k = c k := by
  unfold SetAudience
  split <;> simp only [GoMap.set, if_neg hk]

theorem audience_setAudience (c d : GoMap) (audience : List String)
    (h : d "aud" = SetAudience c audience "aud") : Audience d = audience := by
  unfold Audience
  rw [h]
  cases audience with
  | nil => simp [SetAudience, GoMap.set]
  | cons a rest =>
    cases rest with
    | nil => simp [SetAudience, GoMap.set]
    | cons b rest2 => simp [SetAudience, GoMap.set]

/-- The claims a token is signed with, at a name the additional map leaves alone. -/
theorem jwtClaims_of_absent (issuer subject : String) (audience : List String)
    (iat nbf exp : Time) (additional : GoMap) (k : String) (h : additional k = none) :
    jwtClaims issuer subject audience iat nbf exp additional k =
      SetExpiration (SetNotBefore (SetIssuedAt (SetAudience (SetSubject
        (SetIssuer GoMap.empty issuer) subject) audience) iat) nbf) exp k := by
  simp [jwtClaims, copyInto, h]

theorem jwtClaims_of_present (issuer subject : String) (audience : List String)
    (iat nbf exp : Time) (additional : GoMap) (k : String) (v : Value)
    (h : additional k = some v) :
    jwtClaims issuer subject audience iat nbf exp additional k = some v := by
  simp [jwtClaims, copyInto, h]

theorem jsonValue_image (v : Value) : JsonValue v (jsonValue v) := by
  cases v <;> simp [JsonValue, jsonValue]

/-- The decoding of the test double is a JSON image of the claim set. -/
theorem jsonDecoded_image (c : GoMap) : JsonImage c (jsonDecoded c) := by
  intro k
  unfold jsonDecoded
  cases h : c k with
  | none => simp
  | some v => exact ⟨_, rfl, jsonValue_image v⟩

/-- A string claim comes back from the JSON round trip as the same string. -/
theorem jsonImage_str {signed parsed : GoMap} (h : JsonImage signed parsed) {k x : String}
    (hk : signed k = some (.str x)) : parsed k = some (.str x) := by
  have := h k
  rw [hk] at this
  obtain ⟨w, hw, hj⟩ := this
  have : w = .str x := by
    unfold JsonValue at hj
    simpa using hj
  rw [hw, this]

/-- C10 (amended): for an additional map none of whose names Go upper-cases to a
registered claim name (`ISS`, `AUD`, `SUB`, `IAT`, `EXP`, `NBF`) and whose `type` entry, if
any, is `access`, when the signing library parses the access token it signed back to the
JSON decoding of the signed claims and validates it, `ReadToken` on the access token
returned by `CreateTokenPair` succeeds with the given subject, the given audience list,
`type` equal to `access` and every entry of the additional map with the value JSON decoding
returns for it: a string, a boolean, null and a `float64` unchanged, an integer as
`float64`, a slice of strings as `[]interface{}` (the nil slice as null). -/
theorem C10_round_trip_unreserved_claims (lib : Jose) (now nowRead : Nat → Time)
    (tf : DefaultTokenFactory) (subject : String) (audience : List String)
    (additional : GoMap) (access refresh : String)
    (hKeys : ∀ k, isRegisteredName (ToUpper k) = true → additional k = none)
    (hType : ∀ v, additional "type" = some v → v = .str "access")
    (hPair : CreateTokenPair lib now tf subject audience additional =
      .ret (access, refresh, none))
    (hLib : ∀ tok, lib.Serialize (accessClaims now tf subject audience additional)
        (signingMethodOf tf.SignMethod) tf.SignKey = .ok tok →
      (∃ c, lib.ParseJWT tok = some c ∧
          JsonImage (accessClaims now tf subject audience additional) c) ∧
        lib.Validate tok tf.SignKey (signingMethodOf tf.SignMethod) (nowRead 0) = none) :
    (ReadToken lib nowRead tf access).2 = none ∧
      (ReadToken lib nowRead tf access).1.Subject = subject ∧
      (ReadToken lib nowRead tf access).1.Audiences = audience ∧
      (ReadToken lib nowRead tf access).1.Additional "type" = some (.str "access") ∧
      ∀ k v, additional k = some v →
        ∃ w, (ReadToken lib nowRead tf access).1.Additional k = some w ∧ JsonValue v w := by
  obtain ⟨_, hser⟩ := createTokenPair_access_signed hPair
  obtain ⟨⟨c, hparse, himg⟩, hval⟩ := hLib access hser
  have hadd : ∀ k, isRegisteredName (ToUpper k) = true →
      ((copyInto GoMap.empty additional).set "type" (.str "access")) k = none := by
    intro k hk
    have hne : k ≠ "type" := by
      rintro rfl
      revert hk
      decide
    simp [GoMap.set, hne, copyInto, hKeys k hk, GoMap.empty]
  have hissv : accessClaims now tf subject audience additional "iss" =
      some (.str tf.Issuer) := by
    unfold accessClaims
    rw [jwtClaims_of_absent _ _ _ _ _ _ _ "iss" (hadd "iss" (by decide))]
    simp [SetExpiration, SetNotBefore, SetIssuedAt, SetTime, GoMap.set, SetIssuer,
      setAudience_other, SetSubject]
  have hsubv : accessClaims now tf subject audience additional "sub" =
      some (.str subject) := by
    unfold accessClaims
    rw [jwtClaims_of_absent _ _ _ _ _ _ _ "sub" (hadd "sub" (by decide))]
    simp [SetExpiration, SetNotBefore, SetIssuedAt, SetTime, GoMap.set, SetIssuer,
      setAudience_other, SetSubject]
  have haudv : accessClaims now tf subject audience additional "aud" =
      SetAudience (SetSubject (SetIssuer GoMap.empty tf.Issuer) subject) audience "aud" := by
    unfold accessClaims
    rw [jwtClaims_of_absent _ _ _ _ _ _ _ "aud" (hadd "aud" (by decide))]
    simp [SetExpiration, SetNotBefore, SetIssuedAt, SetTime, GoMap.set]
  have hiss : Issuer c = tf.Issuer := by
    unfold Issuer
    rw [jsonImage_str himg hissv]
  have hsub : Subject c = subject := by
    unfold Subject
    rw [jsonImage_str himg hsubv]
  have haud : Audience c = audience := by
    have h := himg "aud"
    rw [haudv] at h
    unfold Audience
    cases audience with
    | nil =>
      simp only [SetAudience, GoMap.set, if_true] at h
      obtain ⟨w, hw, hj⟩ := h
      have : w = .anys [] ∨ w = .null := by unfold JsonValue at hj; simpa using hj
      rcases this with rfl | rfl <;> rw [hw]
    | cons a rest =>
      cases rest with
      | nil =>
        simp only [SetAudience, GoMap.set, if_true] at h
        obtain ⟨w, hw, hj⟩ := h
        have : w = .str a := by unfold JsonValue at hj; simpa using hj
        rw [hw, this]
      | cons b rest2 =>
        simp only [SetAudience, GoMap.set, if_true] at h
        obtain ⟨w, hw, hj⟩ := h
        have : w = .anys (a :: b :: rest2) := by unfold JsonValue at hj; simpa using hj
        rw [hw, this]
  have hread : ReadJWTStringToken lib nowRead true tf.SignKey tf.SignMethod access =
      ⟨tf.Issuer, subject, audience, GetTime c "iat", GetTime c "nbf", GetTime c "exp",
        fun k => if isRegisteredName (ToUpper k) then none else c k, none⟩ := by
    unfold ReadJWTStringToken
    rw [hparse]
    simp only [if_true, hval, hiss, hsub, haud]
  unfold ReadToken
  rw [hread]
  simp only [ne_eq, not_true_eq_false, if_false]
  refine ⟨trivial, trivial, trivial, ?_, ?_⟩
  · have : isRegisteredName (ToUpper "type") = false := by decide
    rw [this]
    simp only [Bool.false_eq_true, if_false]
    apply jsonImage_str himg
    unfold accessClaims
    exact jwtClaims_of_present _ _ _ _ _ _ _ "type" (.str "access") (by simp [GoMap.set])
  · intro k v hkv
    have hk : isRegisteredName (ToUpper k) = false := by
      cases hreg : isRegisteredName (ToUpper k) with
      | false => rfl
      | true => rw [hKeys k hreg] at hkv; exact Option.noConfusion hkv
    rw [hk]
    simp only [Bool.false_eq_true, if_false]
    have hset : ((copyInto GoMap.empty additional).set "type" (.str "access")) k = some v := by
      by_cases hty : k = "type"
      · subst hty
        rw [hType v hkv]
        simp [GoMap.set]
      · simp [GoMap.set, hty, copyInto, hkv]
    have hsigned : accessClaims now tf subject audience additional k = some v := by
      unfold accessClaims
      exact jwtClaims_of_present _ _ _ _ _ _ _ k v hset
    have h := himg k
    rw [hsigned] at h
    exact h

/-- C10 (instance of the amended claim): subject `alice`, audiences `admin@aud` and
`user@aud`, additional map `dept ↦ ops`. -/
theorem C10_round_trip_unreserved_claims_witness :
    (ReadToken (sampleJose "alice" ["admin@aud", "user@aud"] (GoMap.empty.set "dept" (.str "ops")))
        sampleNow sampleFactory "access.jwt").2 = none ∧
      (ReadToken (sampleJose "alice" ["admin@aud", "user@aud"] (GoMap.empty.set "dept" (.str "ops")))
        sampleNow sampleFactory "access.jwt").1.Subject = "alice" ∧
      (ReadToken (sampleJose "alice" ["admin@aud", "user@aud"] (GoMap.empty.set "dept" (.str "ops")))
        sampleNow sampleFactory "access.jwt").1.Audiences = ["admin@aud", "user@aud"] ∧
      (ReadToken (sampleJose "alice" ["admin@aud", "user@aud"] (GoMap.empty.set "dept" (.str "ops")))
        sampleNow sampleFactory "access.jwt").1.Additional "type" = some (.str "access") ∧
      ∀ k v, (GoMap.empty.set "dept" (.str "ops")) k = some v →
        ∃ w, (ReadToken (sampleJose "alice" ["admin@aud", "user@aud"]
          (GoMap.empty.set "dept" (.str "ops"))) sampleNow sampleFactory "access.jwt").1.Additional k
          = some w ∧ JsonValue v w :=
  C10_round_trip_unreserved_claims
    (sampleJose "alice" ["admin@aud", "user@aud"] (GoMap.empty.set "dept" (.str "ops")))
    sampleNow sampleNow sampleFactory "alice" ["admin@aud", "user@aud"]
    (GoMap.empty.set "dept" (.str "ops")) "access.jwt" "refresh.jwt"
    (by
      intro k hk
      have hne : k ≠ "dept" := by
        rintro rfl
        revert hk
        decide
      simp [GoMap.set, hne, GoMap.empty])
    (by
      intro v hv
      have : (GoMap.empty.set "dept" (.str "ops")) "type" = none := by decide
      rw [this] at hv
      exact Option.noConfusion hv)
    (by decide)
    (by
      intro tok htok
      have h1 : tok = "access.jwt" := by
        have : (sampleJose "alice" ["admin@aud", "user@aud"]
            (GoMap.empty.set "dept" (.str "ops"))).Serialize
            (accessClaims sampleNow sampleFactory "alice" ["admin@aud", "user@aud"]
              (GoMap.empty.set "dept" (.str "ops")))
            (signingMethodOf sampleFactory.SignMethod) sampleFactory.SignKey
            = .ok "access.jwt" := rfl
        rw [this] at htok
        exact (Except.ok.inj htok).symm
      subst h1
      exact ⟨⟨_, rfl, jsonDecoded_image _⟩, rfl⟩)

/-! ## Properties of the token pair and of the refresh -/

/-- The call `CreateTokenPair` signs `accessClaims` first and `refreshClaims` second. -/
theorem createTokenPair_eq (lib : Jose) (now : Nat → Time) (tf : DefaultTokenFactory)
    (subject : String) (audience : List String) (additional : GoMap) :
    CreateTokenPair lib now tf subject audience additional =
      match lib.Serialize (accessClaims now tf subject audience additional)
          (signingMethodOf tf.SignMethod) tf.SignKey with
      | .error e => .panic e
      | .ok access =>
        match lib.Serialize (refreshClaims now tf subject audience additional)
            (signingMethodOf tf.SignMethod) tf.SignKey with
        | .error e => .panic e
        | .ok refresh => .ret (access, refresh, none) := by
  unfold CreateTokenPair CreateJWTStringToken accessClaims refreshClaims
  simp only
  cases lib.Serialize (jwtClaims tf.Issuer subject audience (now 0) (now 1)
      (Add (now 2) tf.AccessTokenDuration)
      ((copyInto GoMap.empty additional).set "type" (.str "access")))
      (signingMethodOf tf.SignMethod) tf.SignKey with
  | error e => rfl
  | ok a =>
    simp only
    cases lib.Serialize (jwtClaims tf.Issuer subject audience (now 3) (now 4)
        (Add (now 5) tf.RefreshTokenDuration)
        ((copyInto GoMap.empty additional).set "type" (.str "refresh")))
        (signingMethodOf tf.SignMethod) tf.SignKey with
    | error e => rfl
    | ok b => rfl

/-- Outside the three time claims, a signed claim set depends on the additional map only
through the entry asked for. -/
theorem jwtClaims_congr (issuer subject : String) (audience : List String)
    (iat nbf exp iat2 nbf2 exp2 : Time) (add add2 : GoMap) (k : String)
    (h : add k = add2 k) (h1 : k ≠ "iat") (h2 : k ≠ "nbf") (h3 : k ≠ "exp") :
    jwtClaims issuer subject audience iat nbf exp add k =
      jwtClaims issuer subject audience iat2 nbf2 exp2 add2 k := by
  simp [jwtClaims, copyInto, h, SetExpiration, SetNotBefore, SetIssuedAt, SetTime, GoMap.set,
    h1, h2, h3]

/-- C11: for every subject, audience list and additional map, also one with a `type` key,
`CreateTokenPair` signs two claim sets, the access one first; they agree on issuer, subject
and audience and on every entry other than `type` and the three time claims, both carry
every entry of the additional map other than `type`, and their `type` is `access` in the
first and `refresh` in the second. -/
theorem C11_pair_claims_agree (lib : Jose) (now : Nat → Time) (tf : DefaultTokenFactory)
    (subject : String) (audience : List String) (additional : GoMap) :
    (CreateTokenPair lib now tf subject audience additional =
      match lib.Serialize (accessClaims now tf subject audience additional)
          (signingMethodOf tf.SignMethod) tf.SignKey with
      | .error e => .panic e
      | .ok access =>
        match lib.Serialize (refreshClaims now tf subject audience additional)
            (signingMethodOf tf.SignMethod) tf.SignKey with
        | .error e => .panic e
        | .ok refresh => .ret (access, refresh, none)) ∧
      Issuer (accessClaims now tf subject audience additional) =
        Issuer (refreshClaims now tf subject audience additional) ∧
      Subject (accessClaims now tf subject audience additional) =
        Subject (refreshClaims now tf subject audience additional) ∧
      Audience (accessClaims now tf subject audience additional) =
        Audience (refreshClaims now tf subject audience additional) ∧
      (∀ k, k ≠ "type" → k ≠ "iat" → k ≠ "nbf" → k ≠ "exp" →
        accessClaims now tf subject audience additional k =
          refreshClaims now tf subject audience additional k) ∧
      (∀ k v, k ≠ "type" → additional k = some v →
        accessClaims now tf subject audience additional k = some v ∧
          refreshClaims now tf subject audience additional k = some v) ∧
      accessClaims now tf subject audience additional "type" = some (.str "access") ∧
      refreshClaims now tf subject audience additional "type" = some (.str "refresh") := by
  have hsame : ∀ k, k ≠ "type" → k ≠ "iat" → k ≠ "nbf" → k ≠ "exp" →
      accessClaims now tf subject audience additional k =
        refreshClaims now tf subject audience additional k := by
    intro k hk h1 h2 h3
    unfold accessClaims refreshClaims
    exact jwtClaims_congr _ _ _ _ _ _ _ _ _ _ _ k (by simp [GoMap.set, hk]) h1 h2 h3
  refine ⟨createTokenPair_eq lib now tf subject audience additional, ?_, ?_, ?_, hsame, ?_, ?_, ?_⟩
  · unfold Issuer
    rw [hsame "iss" (by decide) (by decide) (by decide) (by decide)]
  · unfold Subject
    rw [hsame "sub" (by decide) (by decide) (by decide) (by decide)]
  · unfold Audience
    rw [hsame "aud" (by decide) (by decide) (by decide) (by decide)]
  · intro k v hk hkv
    unfold accessClaims refreshClaims
    exact ⟨jwtClaims_of_present _ _ _ _ _ _ _ k v (by simp [GoMap.set, hk, copyInto, hkv]),
      jwtClaims_of_present _ _ _ _ _ _ _ k v (by simp [GoMap.set, hk, copyInto, hkv])⟩
  · unfold accessClaims
    exact jwtClaims_of_present _ _ _ _ _ _ _ "type" _ (by simp [GoMap.set])
  · unfold refreshClaims
    exact jwtClaims_of_present _ _ _ _ _ _ _ "type" _ (by simp [GoMap.set])

/-- C11 (instance): an additional map that already has `type ↦ custom` and `dept ↦ ops`. -/
theorem C11_pair_claims_agree_witness :
    accessClaims sampleNow sampleFactory "alice" ["admin@aud"]
        ((GoMap.empty.set "type" (.str "custom")).set "dept" (.str "ops")) "dept"
        = some (.str "ops") ∧
      refreshClaims sampleNow sampleFactory "alice" ["admin@aud"]
        ((GoMap.empty.set "type" (.str "custom")).set "dept" (.str "ops")) "dept"
        = some (.str "ops") :=
  (C11_pair_claims_agree (sampleJose "alice" ["admin@aud"] GoMap.empty) sampleNow sampleFactory
    "alice" ["admin@aud"]
    ((GoMap.empty.set "type" (.str "custom")).set "dept" (.str "ops"))).2.2.2.2.2.1
    "dept" (.str "ops") (by decide) (by decide)
/-- When `ReadToken` returns no error, the token parsed, validated and carries the
factory's issuer, and the token it built holds the accessors of the parsed claim set. -/
theorem readToken_ok {lib : Jose} {now : Nat → Time} {tf : DefaultTokenFactory}
    {token : String} (h : (ReadToken lib now tf token).2 = none) :
    ∃ c, lib.ParseJWT token = some c ∧
      lib.Validate token tf.SignKey (signingMethodOf tf.SignMethod) (now 0) = none ∧
      (ReadToken lib now tf token).1 =
        ⟨Issuer c, Subject c, Audience c, GetTime c "exp", GetTime c "nbf", GetTime c "iat",
          fun k => if isRegisteredName (ToUpper k) then none else c k, token⟩ ∧
      Issuer c = tf.Issuer := by
  unfold ReadToken ReadJWTStringToken at h ⊢
  cases hp : lib.ParseJWT token with
  | none =>
    rw [hp] at h
    simp only at h
    split at h <;> simp at h
  | some c =>
    rw [hp] at h
    simp only [if_true] at h ⊢
    cases hv : lib.Validate token tf.SignKey (signingMethodOf tf.SignMethod) (now 0) with
    | some e =>
      rw [hv] at h
      simp only at h
      split at h <;> simp at h
    | none =>
      rw [hv] at h
      simp only at h ⊢
      by_cases hi : Issuer c = tf.Issuer
      · refine ⟨c, rfl, trivial, ?_, hi⟩
        simp [hi]
      · simp [hi] at h

/-- C12: a token whose type claim is not `refresh` (an access token, a token without a
type claim, a token with any other type) makes `RefreshToken` return an error with the
empty token text, whatever the signing operation would do: no token is signed. -/
theorem C12_refresh_rejects_other_types (lib : Jose) (now : Nat → Time) (refreshTime : Time)
    (tf : DefaultTokenFactory) (token : String)
    (h : ∀ c, lib.ParseJWT token = some c → c "type" ≠ some (.str "refresh")) :
    ∃ e, ∀ serialize, RefreshToken ⟨lib.ParseJWT, lib.Validate, serialize⟩ now refreshTime tf
      token = .ret ("", some e) := by
  have hread : ∀ serialize, ReadToken ⟨lib.ParseJWT, lib.Validate, serialize⟩ now tf token =
      ReadToken lib now tf token := fun _ => rfl
  cases herr : (ReadToken lib now tf token).2 with
  | some e =>
    refine ⟨e, fun serialize => ?_⟩
    unfold RefreshToken
    rw [hread]
    rcases hr : ReadToken lib now tf token with ⟨ht, er⟩
    rw [hr] at herr
    simp only at herr
    subst herr
    rfl
  | none =>
    obtain ⟨c, hp, _, htok, hiss⟩ := readToken_ok herr
    have hty : (ReadToken lib now tf token).1.Additional "type" = c "type" := by
      rw [htok]
      have : isRegisteredName (ToUpper "type") = false := by decide
      simp [this]
    have hne := h c hp
    cases hct : c "type" with
    | none =>
      refine ⟨"unknown token type", fun serialize => ?_⟩
      unfold RefreshToken
      rw [hread]
      rcases hr : ReadToken lib now tf token with ⟨ht, er⟩
      rw [hr] at herr hty htok
      simp only at herr hty htok
      subst herr
      have hi : ht.Issuer = tf.Issuer := by rw [htok]; exact hiss
      simp [hi, hty, hct]
    | some v =>
      refine ⟨"not refresh token", fun serialize => ?_⟩
      unfold RefreshToken
      rw [hread]
      rcases hr : ReadToken lib now tf token with ⟨ht, er⟩
      rw [hr] at herr hty htok
      simp only at herr hty htok
      subst herr
      have hi : ht.Issuer = tf.Issuer := by rw [htok]; exact hiss
      have hv : v ≠ .str "refresh" := by
        intro hh
        apply hne
        rw [hct, hh]
      simp [hi, hty, hct, hv]

/-- C12 (instance): the access token of a pair is refused by `RefreshToken`. -/
theorem C12_refresh_rejects_other_types_witness :
    ∃ e, ∀ serialize, RefreshToken
      ⟨(sampleJose "alice" ["admin@aud"] GoMap.empty).ParseJWT,
        (sampleJose "alice" ["admin@aud"] GoMap.empty).Validate, serialize⟩
      sampleNow (sampleNow 10) sampleFactory "access.jwt" = .ret ("", some e) :=
  C12_refresh_rejects_other_types (sampleJose "alice" ["admin@aud"] GoMap.empty) sampleNow
    (sampleNow 10) sampleFactory "access.jwt"
    (by
      intro c hc
      have hp : (sampleJose "alice" ["admin@aud"] GoMap.empty).ParseJWT "access.jwt" =
          some (jsonDecoded
            (accessClaims sampleNow sampleFactory "alice" ["admin@aud"] GoMap.empty)) := rfl
      rw [hp] at hc
      rw [← Option.some.inj hc]
      decide)
/-- When `RefreshToken` returns a token without error, the refresh token parsed, validated,
has the factory's issuer and type `refresh`, and the new token is the serialization of
`refreshedClaims`. -/
theorem refreshToken_ok {lib : Jose} {now : Nat → Time} {refreshTime : Time}
    {tf : DefaultTokenFactory} {refreshToken newToken : String}
    (h : RefreshToken lib now refreshTime tf refreshToken = .ret (newToken, none)) :
    (ReadToken lib now tf refreshToken).2 = none ∧
      (ReadToken lib now tf refreshToken).1.Additional "type" = some (.str "refresh") ∧
      lib.Serialize (refreshedClaims tf refreshTime (ReadToken lib now tf refreshToken).1)
        (signingMethodOf tf.SignMethod) tf.SignKey = .ok newToken := by
  unfold RefreshToken at h
  rcases hr : ReadToken lib now tf refreshToken with ⟨ht, er⟩
  rw [hr] at h
  cases er with
  | some e => simp at h
  | none =>
    simp only at h ⊢
    by_cases hi : ht.Issuer = tf.Issuer
    · simp only [hi, ne_eq, not_true_eq_false, if_false] at h
      cases hty : ht.Additional "type" with
      | none => rw [hty] at h; simp at h
      | some v =>
        rw [hty] at h
        simp only at h
        by_cases hv : v = .str "refresh"
        · subst hv
          simp only [ne_eq, not_true_eq_false, if_false] at h
          refine ⟨trivial, rfl, ?_⟩
          unfold CreateJWTStringToken at h
          unfold refreshedClaims
          simp only at h
          cases hs : lib.Serialize (jwtClaims tf.Issuer ht.Subject ht.Audiences ht.IssuedAt
              ht.NotBefore (Add refreshTime tf.AccessTokenDuration)
              (ht.Additional.set "type" (.str "access")))
              (signingMethodOf tf.SignMethod) tf.SignKey with
          | error e => rw [hs] at h; simp at h
          | ok t =>
            rw [hs] at h
            simp only [Go.ret.injEq, Prod.mk.injEq, and_true] at h
            rw [h]
        · simp [hv] at h
    · simp [hi] at h

theorem unix_timeOfUnix (n : Int) : Unix (timeOfUnix n) = n := by
  unfold Unix timeOfUnix
  omega

theorem unix_getTime (c : GoMap) (k : String) : timeOfUnix (Unix (GetTime c k)) = GetTime c k := by
  unfold GetTime
  split
  · rw [unix_timeOfUnix]
  · rw [unix_timeOfUnix]
  · unfold zeroTime
    rw [unix_timeOfUnix]

/-- The claim set of a refreshed token, at every name. -/
theorem refreshedClaims_apply (tf : DefaultTokenFactory) (refreshTime : Time) (c : GoMap)
    (token : String) (k : String) :
    refreshedClaims tf refreshTime
        ⟨Issuer c, Subject c, Audience c, GetTime c "exp", GetTime c "nbf", GetTime c "iat",
          fun k => if isRegisteredName (ToUpper k) then none else c k, token⟩ k =
      if k = "type" then some (.str "access")
      else if isRegisteredName (ToUpper k) = true then
        SetExpiration (SetNotBefore (SetIssuedAt (SetAudience (SetSubject
          (SetIssuer GoMap.empty tf.Issuer) (Subject c)) (Audience c)) (GetTime c "iat"))
          (GetTime c "nbf")) (Add refreshTime tf.AccessTokenDuration) k
      else
        match c k with
        | some v => some v
        | none =>
          SetExpiration (SetNotBefore (SetIssuedAt (SetAudience (SetSubject
            (SetIssuer GoMap.empty tf.Issuer) (Subject c)) (Audience c)) (GetTime c "iat"))
            (GetTime c "nbf")) (Add refreshTime tf.AccessTokenDuration) k := by
  unfold refreshedClaims
  by_cases hk : k = "type"
  · subst hk
    simp [jwtClaims, copyInto, GoMap.set]
  · cases hr : isRegisteredName (ToUpper k) with
    | true => simp [jwtClaims, copyInto, GoMap.set, hk, hr]
    | false => simp only [jwtClaims, copyInto, GoMap.set, hk, hr, Bool.false_eq_true, if_false]

theorem subject_of {c : GoMap} {s : String} (h : c "sub" = some (.str s)) : Subject c = s := by
  unfold Subject
  rw [h]

theorem getTime_of {c : GoMap} {k : String} {n : Int} (h : c k = some (.num n)) :
    GetTime c k = timeOfUnix n := by
  unfold GetTime
  rw [h]

/-- A name that is not a registered claim name in any letter case is none of the six
names the setters write. -/
theorem not_registered_ne {k : String} (h : isRegisteredName (ToUpper k) = false) :
    k ≠ "iss" ∧ k ≠ "sub" ∧ k ≠ "aud" ∧ k ≠ "iat" ∧ k ≠ "nbf" ∧ k ≠ "exp" := by
  refine ⟨?_, ?_, ?_, ?_, ?_, ?_⟩ <;>
  · rintro rfl
    revert h
    decide

/-- C13 (counterexample): the refresh token of a pair for `bob` is used half a second
after the pair's first clock reading; the refresh succeeds, the refresh time plus
`AccessTokenDuration` is the instant 1700000900.5 s, and the new access token is signed
with the expiry 1700000900 s, half a second earlier. -/
theorem C13_counterexample :
    RefreshToken (sampleJose "bob" ["user@aud"] GoMap.empty) sampleNow (sampleNow 500000000)
        sampleFactory "refresh.jwt" = .ret ("access.jwt", none) ∧
      Add (sampleNow 500000000) sampleFactory.AccessTokenDuration = 1700000900500000000 ∧
      refreshedClaims sampleFactory (sampleNow 500000000)
        (ReadToken (sampleJose "bob" ["user@aud"] GoMap.empty) sampleNow sampleFactory
          "refresh.jwt").1 "exp" = some (.num 1700000900) ∧
      GetTime (refreshedClaims sampleFactory (sampleNow 500000000)
        (ReadToken (sampleJose "bob" ["user@aud"] GoMap.empty) sampleNow sampleFactory
          "refresh.jwt").1) "exp" = 1700000900000000000 ∧
      GetTime (refreshedClaims sampleFactory (sampleNow 500000000)
        (ReadToken (sampleJose "bob" ["user@aud"] GoMap.empty) sampleNow sampleFactory
          "refresh.jwt").1) "exp" ≠ Add (sampleNow 500000000) sampleFactory.AccessTokenDuration := by
  decide

/-- C13 (amended): when `RefreshToken` accepts a refresh token carrying the claim set `c`,
the claim set it signs for the new token has the subject, audience list, issued-at and
not-before of `c`, type `access`, every other claim of `c` whose name Go does not upper-case
to a registered claim name unchanged, and as expiry the refresh time plus
`AccessTokenDuration` cut down to whole Unix seconds. -/
theorem C13_refreshed_claims (lib : Jose) (now : Nat → Time) (refreshTime : Time)
    (tf : DefaultTokenFactory) (refreshToken newToken : String) (c : GoMap)
    (hOk : RefreshToken lib now refreshTime tf refreshToken = .ret (newToken, none))
    (hc : lib.ParseJWT refreshToken = some c) :
    lib.Serialize (refreshedClaims tf refreshTime (ReadToken lib now tf refreshToken).1)
        (signingMethodOf tf.SignMethod) tf.SignKey = .ok newToken ∧
      Subject (refreshedClaims tf refreshTime (ReadToken lib now tf refreshToken).1) =
        Subject c ∧
      Audience (refreshedClaims tf refreshTime (ReadToken lib now tf refreshToken).1) =
        Audience c ∧
      GetTime (refreshedClaims tf refreshTime (ReadToken lib now tf refreshToken).1) "iat" =
        GetTime c "iat" ∧
      GetTime (refreshedClaims tf refreshTime (ReadToken lib now tf refreshToken).1) "nbf" =
        GetTime c "nbf" ∧
      refreshedClaims tf refreshTime (ReadToken lib now tf refreshToken).1 "type" =
        some (.str "access") ∧
      (∀ k, k ≠ "type" → isRegisteredName (ToUpper k) = false →
        refreshedClaims tf refreshTime (ReadToken lib now tf refreshToken).1 k = c k) ∧
      refreshedClaims tf refreshTime (ReadToken lib now tf refreshToken).1 "exp" =
        some (.num (Unix (Add refreshTime tf.AccessTokenDuration))) := by
  obtain ⟨herr, _, hser⟩ := refreshToken_ok hOk
  obtain ⟨c2, hp, _, htok, _⟩ := readToken_ok herr
  rw [hc] at hp
  obtain rfl := Option.some.inj hp
  refine ⟨hser, ?_⟩
  rw [htok]
  refine ⟨?_, ?_, ?_, ?_, ?_, ?_, ?_⟩
  · apply subject_of
    rw [refreshedClaims_apply]
    simp [SetExpiration, SetNotBefore, SetIssuedAt, SetTime, GoMap.set, setAudience_other,
      SetSubject, show isRegisteredName (ToUpper "sub") = true by decide]
  · apply audience_setAudience (SetSubject (SetIssuer GoMap.empty tf.Issuer) (Subject c))
    rw [refreshedClaims_apply]
    simp [SetExpiration, SetNotBefore, SetIssuedAt, SetTime, GoMap.set,
      show isRegisteredName (ToUpper "aud") = true by decide]
  · refine (getTime_of (n := Unix (GetTime c "iat")) ?_).trans (unix_getTime c "iat")
    rw [refreshedClaims_apply]
    simp [SetExpiration, SetNotBefore, SetIssuedAt, SetTime, GoMap.set,
      show isRegisteredName (ToUpper "iat") = true by decide, unix_getTime]
  · refine (getTime_of (n := Unix (GetTime c "nbf")) ?_).trans (unix_getTime c "nbf")
    rw [refreshedClaims_apply]
    simp [SetExpiration, SetNotBefore, SetIssuedAt, SetTime, GoMap.set,
      show isRegisteredName (ToUpper "nbf") = true by decide, unix_getTime]
  · rw [refreshedClaims_apply]
    simp
  · intro k hk hr
    obtain ⟨h1, h2, h3, h4, h5, h6⟩ := not_registered_ne hr
    rw [refreshedClaims_apply]
    simp only [hk, hr, if_false, Bool.false_eq_true]
    cases c k with
    | some v => rfl
    | none =>
      simp [SetExpiration, SetNotBefore, SetIssuedAt, SetTime, GoMap.set, setAudience_other,
        SetSubject, SetIssuer, h1, h2, h3, h4, h5, h6, GoMap.empty]
  · rw [refreshedClaims_apply]
    simp [SetExpiration, SetTime, GoMap.set,
      show isRegisteredName (ToUpper "exp") = true by decide]

/-- C13 (instance of the amended claim): the refresh token of a pair for `alice`, refreshed ten nanoseconds
after the pair's first clock reading. -/
theorem C13_refreshed_claims_witness :
    refreshedClaims sampleFactory (sampleNow 10)
        (ReadToken (sampleJose "alice" ["admin@aud"] (GoMap.empty.set "dept" (.str "ops")))
          sampleNow sampleFactory "refresh.jwt").1 "exp" =
      some (.num (Unix (Add (sampleNow 10) sampleFactory.AccessTokenDuration))) :=
  (C13_refreshed_claims (sampleJose "alice" ["admin@aud"] (GoMap.empty.set "dept" (.str "ops")))
    sampleNow (sampleNow 10) sampleFactory "refresh.jwt" "access.jwt"
    (jsonDecoded (refreshClaims sampleNow sampleFactory "alice" ["admin@aud"]
      (GoMap.empty.set "dept" (.str "ops"))))
    (by decide) rfl).2.2.2.2.2.2.2
/-- C14 (counterexample): a pair is issued and its refresh token is used ten nanoseconds
after the pair's first clock reading, within the same second; the refresh succeeds and the
new access token expires at the very second the original access token does. -/
theorem C14_counterexample :
    CreateTokenPair (sampleJose "alice" ["admin@aud"] GoMap.empty) sampleNow sampleFactory
        "alice" ["admin@aud"] GoMap.empty = .ret ("access.jwt", "refresh.jwt", none) ∧
      sampleNow 5 < sampleNow 10 ∧
      RefreshToken (sampleJose "alice" ["admin@aud"] GoMap.empty) sampleNow (sampleNow 10)
        sampleFactory "refresh.jwt" = .ret ("access.jwt", none) ∧
      GetTime (accessClaims sampleNow sampleFactory "alice" ["admin@aud"] GoMap.empty) "exp" =
        timeOfUnix 1700000900 ∧
      GetTime (refreshedClaims sampleFactory (sampleNow 10)
        (ReadToken (sampleJose "alice" ["admin@aud"] GoMap.empty) sampleNow sampleFactory
          "refresh.jwt").1) "exp" = timeOfUnix 1700000900 := by
  decide

/-- The expiry claim of the access token of a pair whose additional map has no `exp`. -/
theorem accessClaims_exp (now : Nat → Time) (tf : DefaultTokenFactory) (subject : String)
    (audience : List String) (additional : GoMap) (h : additional "exp" = none) :
    accessClaims now tf subject audience additional "exp" =
      some (.num (Unix (Add (now 2) tf.AccessTokenDuration))) := by
  unfold accessClaims
  rw [jwtClaims_of_absent _ _ _ _ _ _ _ "exp" (by simp [GoMap.set, copyInto, h, GoMap.empty])]
  simp [SetExpiration, SetTime, GoMap.set]

/-- The expiry claim of a refreshed token. -/
theorem refreshedClaims_exp (tf : DefaultTokenFactory) (refreshTime : Time) (c : GoMap)
    (token : String) :
    refreshedClaims tf refreshTime
        ⟨Issuer c, Subject c, Audience c, GetTime c "exp", GetTime c "nbf", GetTime c "iat",
          fun k => if isRegisteredName (ToUpper k) then none else c k, token⟩ "exp" =
      some (.num (Unix (Add refreshTime tf.AccessTokenDuration))) := by
  rw [refreshedClaims_apply]
  simp [SetExpiration, SetTime, GoMap.set,
    show isRegisteredName (ToUpper "exp") = true by decide]

theorem timeOfUnix_unix_mono (a b : Int) (h : a ≤ b) :
    timeOfUnix (Unix a) ≤ timeOfUnix (Unix b) := by
  show (a / 1000000000 * 1000000000 : Int) ≤ b / 1000000000 * 1000000000
  omega

theorem timeOfUnix_unix_strict (a b : Int) (h : a + 1000000000 ≤ b) :
    timeOfUnix (Unix a) < timeOfUnix (Unix b) := by
  show (a / 1000000000 * 1000000000 : Int) < b / 1000000000 * 1000000000
  omega

/-- C14 (amended): for a pair issued from an additional map without an `exp` entry and a
later successful `RefreshToken` call on its refresh token, the expiry of the new access
token, which tokens carry in whole seconds, is never earlier than the expiry of the access
token of the pair, and it is strictly later when the refresh call comes at least one
second after the pair's expiry was computed. -/
theorem C14_refreshed_expiry_not_earlier (lib : Jose) (now nowRefresh : Nat → Time)
    (refreshTime : Time) (tf : DefaultTokenFactory) (subject : String)
    (audience : List String) (additional : GoMap) (access refresh newToken : String)
    (hExp : additional "exp" = none)
    (hPair : CreateTokenPair lib now tf subject audience additional =
      .ret (access, refresh, none))
    (hOk : RefreshToken lib nowRefresh refreshTime tf refresh = .ret (newToken, none))
    (hLater : now 2 ≤ refreshTime) :
    lib.Serialize (accessClaims now tf subject audience additional)
        (signingMethodOf tf.SignMethod) tf.SignKey = .ok access ∧
      lib.Serialize (refreshedClaims tf refreshTime (ReadToken lib nowRefresh tf refresh).1)
        (signingMethodOf tf.SignMethod) tf.SignKey = .ok newToken ∧
      GetTime (accessClaims now tf subject audience additional) "exp" ≤
        GetTime (refreshedClaims tf refreshTime (ReadToken lib nowRefresh tf refresh).1) "exp" ∧
      (now 2 + 1000000000 ≤ refreshTime →
        GetTime (accessClaims now tf subject audience additional) "exp" <
          GetTime (refreshedClaims tf refreshTime (ReadToken lib nowRefresh tf refresh).1)
            "exp") := by
  obtain ⟨_, hser⟩ := createTokenPair_access_signed hPair
  obtain ⟨herr, _, hser2⟩ := refreshToken_ok hOk
  obtain ⟨c, _, _, htok, _⟩ := readToken_ok herr
  have hnew : refreshedClaims tf refreshTime (ReadToken lib nowRefresh tf refresh).1 "exp" =
      some (.num (Unix (Add refreshTime tf.AccessTokenDuration))) := by
    rw [htok]
    exact refreshedClaims_exp tf refreshTime c refresh
  rw [getTime_of (accessClaims_exp now tf subject audience additional hExp), getTime_of hnew]
  refine ⟨hser, hser2, ?_, ?_⟩
  · exact timeOfUnix_unix_mono _ _ (Int.add_le_add_right hLater _)
  · intro h
    refine timeOfUnix_unix_strict _ _ ?_
    have h2 : now 2 + 1000000000 + tf.AccessTokenDuration ≤
        refreshTime + tf.AccessTokenDuration := Int.add_le_add_right h _
    unfold Add
    rw [Int.add_right_comm]
    exact h2

/-- C14 (instance of the amended claim): the refresh token of a pair for `alice`, used
two seconds after the pair's first clock reading. -/
theorem C14_refreshed_expiry_not_earlier_witness :
    GetTime (accessClaims sampleNow sampleFactory "alice" ["admin@aud"] GoMap.empty) "exp" <
      GetTime (refreshedClaims sampleFactory (sampleNow 2000000000)
        (ReadToken (sampleJose "alice" ["admin@aud"] GoMap.empty) sampleNow sampleFactory
          "refresh.jwt").1) "exp" :=
  (C14_refreshed_expiry_not_earlier (sampleJose "alice" ["admin@aud"] GoMap.empty) sampleNow
    sampleNow (sampleNow 2000000000) sampleFactory "alice" ["admin@aud"] GoMap.empty
    "access.jwt" "refresh.jwt" "access.jwt" rfl (by decide) (by decide) (by decide)).2.2.2
    (by decide)

/-- The type entries of the two claim sets of a pair. -/
theorem pair_types (now : Nat → Time) (tf : DefaultTokenFactory) (subject : String)
    (audience : List String) (additional : GoMap) :
    accessClaims now tf subject audience additional "type" = some (.str "access") ∧
      refreshClaims now tf subject audience additional "type" = some (.str "refresh") := by
  constructor
  · unfold accessClaims
    exact jwtClaims_of_present _ _ _ _ _ _ _ "type" _ (by simp [GoMap.set])
  · unfold refreshClaims
    exact jwtClaims_of_present _ _ _ _ _ _ _ "type" _ (by simp [GoMap.set])

/-- C15 (the code at the failing input): when the signing operation fails, for the access
token or only for the refresh token, `CreateTokenPair` does not return an error and two
empty token texts: `CreateJWTStringToken` panics with the signing error (line 210). -/
theorem C15_signing_failure_panics :
    ∀ (lib : Jose) (now : Nat → Time) (tf : DefaultTokenFactory) (subject : String)
      (audience : List String) (additional : GoMap) (e : String),
      CreateTokenPair ⟨lib.ParseJWT, lib.Validate, fun _ _ _ => .error e⟩ now tf subject
          audience additional = .panic e ∧
        CreateTokenPair ⟨lib.ParseJWT, lib.Validate, fun c _ _ =>
            if c "type" = some (.str "refresh") then .error e else .ok "access.jwt"⟩ now tf
          subject audience additional = .panic e := by
  intro lib now tf subject audience additional e
  have h1 := (pair_types now tf subject audience additional).1
  have h2 := (pair_types now tf subject audience additional).2
  constructor
  · rw [createTokenPair_eq]
  · rw [createTokenPair_eq]
    simp [h1, h2]
/-! ## Further properties of the middleware -/

/-- When the loop passes every rule by, the handler writes the final 403. -/
theorem JwtMiddleware_all_skipped (env : Env) (r : Request) (acls : List ACL)
    (h : ∀ a ∈ acls, Skipped env r a) :
    JwtMiddleware env acls r =
      ⟨.written 403 ("You are authenticated but not allowed to access this end point " ++ r.Path),
        [], acls.length⟩ := by
  have := JwtMiddleware_skip env r acls [] h
  rw [List.append_nil] at this
  rw [this]
  simp [JwtMiddleware, StatusForbidden]

/-- C16 (counterexample): the path `/api/v1/auth/authenticate` matches a pattern of
`whiteListUrls`, yet with the declared rule list a `GET` on it gets 403, with an empty rule
list a `POST` on it gets 403, and with a rule list that protects it a `POST` without
header gets 401. -/
theorem C16_counterexample :
    Whitelisted sampleEnv "/api/v1/auth/authenticate" ∧
      JwtMiddleware sampleEnv sampleACLs ⟨"GET", "/api/v1/auth/authenticate", ""⟩ =
        ⟨.written 403 ("You are authenticated but not allowed to access this end point " ++
          "/api/v1/auth/authenticate"), [], 60⟩ ∧
      JwtMiddleware sampleEnv [] ⟨"POST", "/api/v1/auth/authenticate", ""⟩ =
        ⟨.written 403 ("You are authenticated but not allowed to access this end point " ++
          "/api/v1/auth/authenticate"), [], 0⟩ ∧
      JwtMiddleware sampleEnv [⟨"/api/v1/auth/authenticate", "POST", ["admin@aud"]⟩]
          ⟨"POST", "/api/v1/auth/authenticate", ""⟩ =
        ⟨.written 401 ("You are not authorized to access this end point " ++
          "/api/v1/auth/authenticate"), [], 1⟩ := by
  decide

/-- A pattern without wildcard segments matches exactly the path with the same segments. -/
theorem matchSegments_literal (ps : List (List Char))
    (h : ∀ p ∈ ps, p ≠ "**".data ∧ p ≠ "*".data) (segs : List (List Char)) :
    matchSegments ps segs = true ↔ segs = ps := by
  induction ps generalizing segs with
  | nil => cases segs <;> simp [matchSegments]
  | cons p ps ih =>
    have hp := h p (List.mem_cons_self _ _)
    have ih2 := ih (fun q hq => h q (List.mem_cons_of_mem _ hq))
    cases segs with
    | nil => simp [matchSegments, hp.1]
    | cons s ss =>
      simp only [matchSegments, hp.1, hp.2, false_and, if_false, decide_False, Bool.false_or,
        Bool.and_eq_true, decide_eq_true_eq, ih2, List.cons.injEq]
      constructor
      · rintro ⟨h1, h2⟩; exact ⟨h1.symm, h2⟩
      · rintro ⟨h1, h2⟩; exact ⟨h1.symm, h2⟩

/-- No path matches both a pattern of `whiteListUrls` and `/api/v1/auth/refresh`. -/
theorem whitelisted_not_refresh (p path : String) (hp : p ∈ whiteListUrls)
    (hm : (specMatch p path).1 = true) :
    ¬ (specMatch "/api/v1/auth/refresh" path).1 = true := by
  intro hr
  have hseg : splitOn '/' path.data = splitOn '/' "/api/v1/auth/refresh".data :=
    (matchSegments_literal _ (by decide) _).1 hr
  unfold specMatch at hm
  rw [hseg] at hm
  simp only [whiteListUrls, List.mem_cons, List.mem_singleton, List.mem_nil_iff, or_false] at hp
  rcases hp with rfl | rfl | rfl | rfl | rfl <;> revert hm <;> decide

/-- When every rule of a prefix of the list is passed by or is public, and one of them
matches, the request is forwarded as received without a token being read. -/
theorem JwtMiddleware_public_prefix (env : Env) (r : Request) (pre post : List ACL)
    (hpre : ∀ b ∈ pre, (env.Match b.PathPattern r.Path).2 = none ∧
      (Matches env r b → b.AllowedAudiences = []))
    (hex : ∃ a ∈ pre, Matches env r a) :
    (JwtMiddleware env (pre ++ post) r).outcome = .served none ∧
      (JwtMiddleware env (pre ++ post) r).reads = [] := by
  induction pre with
  | nil => obtain ⟨a, ha, _⟩ := hex; cases ha
  | cons b pre ih =>
    obtain ⟨he, hpub⟩ := hpre b (List.mem_cons_self _ _)
    show (JwtMiddleware env (b :: (pre ++ post)) r).outcome = _ ∧
      (JwtMiddleware env (b :: (pre ++ post)) r).reads = _
    by_cases hm : Matches env r b
    · rw [JwtMiddleware, checkACL_public hm (hpub hm)]
      exact ⟨rfl, rfl⟩
    · rw [JwtMiddleware, checkACL_skipped (not_matches_skipped he hm)]
      have hex2 : ∃ a ∈ pre, Matches env r a := by
        obtain ⟨a, ha, hma⟩ := hex
        rcases List.mem_cons.1 ha with rfl | ha2
        · exact absurd hma hm
        · exact ⟨a, ha2, hma⟩
      have := ih (fun c hc => hpre c (List.mem_cons_of_mem _ hc)) hex2
      simpa using this

/-- With the declared rule list, a `POST` on a path matching one of the four patterns of
`whiteListUrls` other than `/docs/**/*` is forwarded as received. -/
theorem declared_whitelist_post (readToken : String → ReadResult)
    (issuer adminRole userRole method path header p : String)
    (hmeth : ToUpper method = "POST") (hp : p ∈ whiteListUrls) (hd : p ≠ "/docs/**/*")
    (hm : (specMatch p path).1 = true) :
    (JwtMiddleware ⟨specMatch, readToken, issuer⟩ (ACLs adminRole userRole)
        ⟨method, path, header⟩).outcome = .served none ∧
      (JwtMiddleware ⟨specMatch, readToken, issuer⟩ (ACLs adminRole userRole)
        ⟨method, path, header⟩).reads = [] := by
  have hnr := whitelisted_not_refresh p path hp hm
  have hsplit : ACLs adminRole userRole =
      (ACLs adminRole userRole).take 10 ++ (ACLs adminRole userRole).drop 10 :=
    (List.take_append_drop 10 _).symm
  rw [hsplit]
  apply JwtMiddleware_public_prefix
  · intro b hb
    refine ⟨rfl, fun hmb => ?_⟩
    have hb2 : b ∈ [ (⟨"/docs/**/*", "GET", []⟩ : ACL),
        ⟨"/health", "GET", []⟩,
        ⟨"/api/v1/auth/authenticate", "POST", []⟩,
        ⟨"/api/v1/auth/refresh", "POST", [userRole, adminRole]⟩,
        ⟨"/api/v1/auth/2fa", "POST", []⟩,
        ⟨"/api/v1/auth/2fatest", "POST", []⟩,
        ⟨"/api/v1/auth/authenticate2fa", "POST", []⟩,
        ⟨"/api/v1/recovery/**/*", "POST", []⟩,
        ⟨"/api/v1/management/user/whoami", "GET", [userRole, adminRole]⟩,
        ⟨"/api/v1/management/user/activate", "POST", []⟩ ] := hb
    simp only [List.mem_cons, List.mem_singleton, List.mem_nil_iff, or_false] at hb2
    rcases hb2 with rfl | rfl | rfl | rfl | rfl | rfl | rfl | rfl | rfl | rfl
    · rfl
    · rfl
    · rfl
    · exfalso
      apply hnr
      have := hmb.1
      exact congrArg Prod.fst this
    · rfl
    · rfl
    · rfl
    · rfl
    · exfalso
      have h2 : ToUpper method = "GET" := hmb.2
      rw [hmeth] at h2
      revert h2
      decide
    · rfl
  · simp only [whiteListUrls, List.mem_cons, List.mem_singleton, List.mem_nil_iff, or_false] at hp
    rcases hp with rfl | rfl | rfl | rfl | rfl
    · exact absurd rfl hd
    · exact ⟨⟨"/api/v1/auth/authenticate", "POST", []⟩, by simp [ACLs],
        Prod.ext hm rfl, hmeth⟩
    · exact ⟨⟨"/api/v1/auth/2fa", "POST", []⟩, by simp [ACLs], Prod.ext hm rfl, hmeth⟩
    · exact ⟨⟨"/api/v1/recovery/**/*", "POST", []⟩, by simp [ACLs], Prod.ext hm rfl, hmeth⟩
    · exact ⟨⟨"/api/v1/management/user/activate", "POST", []⟩, by simp [ACLs],
        Prod.ext hm rfl, hmeth⟩

/-- C16 (amended): the middleware does not consult `whiteListUrls`. A request whose path
matches one of its patterns is forwarded without token validation when the first rule of
the list matching its path and method has an empty audience list, and gets 403 when no
rule matches its path and method. With the declared rule list the first case holds for
`GET` on every path matching `/docs/**/*` and for `POST` on every path matching one of the
other four patterns, whatever the header and the letter case of the method. -/
theorem C16_whitelist_not_consulted :
    (∀ (env : Env) (r : Request) (pre post : List ACL) (a : ACL),
        Whitelisted env r.Path → (∀ b ∈ pre, Skipped env r b) → Matches env r a →
        a.AllowedAudiences = [] →
        JwtMiddleware env (pre ++ a :: post) r = ⟨.served none, [], pre.length + 1⟩) ∧
      (∀ (env : Env) (r : Request) (acls : List ACL),
        Whitelisted env r.Path → (∀ b ∈ acls, Skipped env r b) →
        JwtMiddleware env acls r =
          ⟨.written 403
            ("You are authenticated but not allowed to access this end point " ++ r.Path),
            [], acls.length⟩) ∧
      (∀ (readToken : String → ReadResult)
          (issuer adminRole userRole method path header : String),
        (ToUpper method = "GET" → (specMatch "/docs/**/*" path).1 = true →
          JwtMiddleware ⟨specMatch, readToken, issuer⟩ (ACLs adminRole userRole)
            ⟨method, path, header⟩ = ⟨.served none, [], 1⟩) ∧
        (ToUpper method = "POST" → ∀ p ∈ whiteListUrls, p ≠ "/docs/**/*" →
          (specMatch p path).1 = true →
          (JwtMiddleware ⟨specMatch, readToken, issuer⟩ (ACLs adminRole userRole)
            ⟨method, path, header⟩).outcome = .served none ∧
          (JwtMiddleware ⟨specMatch, readToken, issuer⟩ (ACLs adminRole userRole)
            ⟨method, path, header⟩).reads = [])) := by
  refine ⟨?_, ?_, ?_⟩
  · intro env r pre post a _ hpre hm hp
    rw [JwtMiddleware_skip env _ pre (a :: post) hpre, JwtMiddleware, checkACL_public hm hp]
    simp [Nat.add_comm]
  · intro env r acls _ h
    exact JwtMiddleware_all_skipped env r acls h
  · intro readToken issuer adminRole userRole method path header
    refine ⟨fun hmeth hm => ?_, fun hmeth p hp hd hm => ?_⟩
    · have hmatch : Matches ⟨specMatch, readToken, issuer⟩ ⟨method, path, header⟩
          ⟨"/docs/**/*", "GET", []⟩ := ⟨Prod.ext hm rfl, hmeth⟩
      show JwtMiddleware _ (⟨"/docs/**/*", "GET", []⟩ :: _) _ = _
      rw [JwtMiddleware, checkACL_public hmatch rfl]
    · exact declared_whitelist_post readToken issuer adminRole userRole method path header p
        hmeth hp hd hm

/-- C16 (instance of the amended claim): a `DELETE` on a whitelisted path, for which the
declared list has no rule. -/
theorem C16_whitelist_not_consulted_witness :
    JwtMiddleware sampleEnv sampleACLs ⟨"DELETE", "/api/v1/auth/2fa", "Bearer admin-access"⟩ =
      ⟨.written 403 ("You are authenticated but not allowed to access this end point " ++
        "/api/v1/auth/2fa"), [], sampleACLs.length⟩ :=
  C16_whitelist_not_consulted.2.1 sampleEnv
    ⟨"DELETE", "/api/v1/auth/2fa", "Bearer admin-access"⟩ sampleACLs (by decide) (by decide)
theorem toNat_ofNat_small (n : Nat) (h : n < 55296) : (Char.ofNat n).toNat = n := by
  have hv : n.isValidChar := Or.inl h
  unfold Char.ofNat
  rw [dif_pos hv]
  show (Char.ofNatAux n hv).val.toNat = n
  unfold Char.ofNatAux
  simp [UInt32.toNat]

theorem char_toUpper_toUpper (c : Char) : c.toUpper.toUpper = c.toUpper := by
  unfold Char.toUpper
  simp only
  split
  · rename_i h
    rw [if_neg]
    rw [toNat_ofNat_small _ (by omega)]
    omega
  · rfl

theorem char_toUpper_toNat (c : Char) : c.toUpper.toNat = c.toNat ∨ c.toUpper.toNat < 128 := by
  unfold Char.toUpper
  simp only
  split
  · right
    rw [toNat_ofNat_small _ (by omega)]
    omega
  · left; rfl

theorem upperRune_upperRune (c : Char) : upperRune (upperRune c) = upperRune c := by
  by_cases h1 : c = 'ı'
  · subst h1; decide
  by_cases h2 : c = 'ſ'
  · subst h2; decide
  have e : upperRune c = c.toUpper := by simp [upperRune, h1, h2]
  have n1 : c.toNat ≠ 305 := fun h => h1 (Char.ext (by
    apply UInt32.ext; exact h))
  have n2 : c.toNat ≠ 383 := fun h => h2 (Char.ext (by
    apply UInt32.ext; exact h))
  have h3 : c.toUpper ≠ 'ı' := by
    intro h
    have := congrArg Char.toNat h
    rcases char_toUpper_toNat c with h4 | h4
    · rw [h4] at this; exact n1 this
    · rw [this] at h4; revert h4; decide
  have h4 : c.toUpper ≠ 'ſ' := by
    intro h
    have := congrArg Char.toNat h
    rcases char_toUpper_toNat c with h4 | h4
    · rw [h4] at this; exact n2 this
    · rw [this] at h4; revert h4; decide
  rw [e]
  simp [upperRune, h3, h4, char_toUpper_toUpper]

/-- Upper-casing twice is upper-casing once. -/
theorem toUpper_toUpper (s : String) : ToUpper (ToUpper s) = ToUpper s := by
  unfold ToUpper
  simp [List.map_map, Function.comp_def, upperRune_upperRune]

/-- A rule whose pattern matches and whose method test succeeds is not passed by in
silence: the loop body returns, panics, or reads a token before going on. -/
theorem checkACL_evaluated {env : Env} {r : Request} {acl : ACL} (hm : Matches env r acl) :
    checkACL env r acl ≠ (none, []) := by
  by_cases hp : acl.AllowedAudiences = []
  · rw [checkACL_public hm hp]
    simp
  by_cases h0 : r.Authorization = ""
  · rw [checkACL_noHeader hm hp h0]
    simp
  have hlen : r.Authorization.length ≠ 0 := by
    intro hl
    apply h0
    have : r.Authorization.data = [] := List.length_eq_zero.1 hl
    exact String.ext this
  by_cases h6 : 6 ≤ r.Authorization.length
  · by_cases hbe : ToLower (TrimSpace ⟨r.Authorization.data.take 6⟩) = "bearer"
    · by_cases h7 : 7 ≤ r.Authorization.length
      · rw [checkACL_slices hm hp h7 hbe rfl]
        split
        · simp
        · split
          · simp
          · split
            · split <;> simp
            · simp
      · obtain ⟨h1, h2⟩ := hm
        unfold checkACL
        rw [h1]
        simp [h2, hp, hlen, sliceTo, sliceFrom, h6, hbe, h7]
    · obtain ⟨h1, h2⟩ := hm
      unfold checkACL
      rw [h1]
      simp [h2, hp, hlen, sliceTo, h6, hbe]
  · obtain ⟨h1, h2⟩ := hm
    unfold checkACL
    rw [h1]
    simp [h2, hp, hlen, sliceTo, h6]

/-- C17 (counterexample): the rule `/health` with method `get` is not evaluated for the
requests `get /health` and `GET /health`, whose methods equal the rule's when letter case is
ignored; the middleware answers 403 although the rule is public. -/
theorem C17_counterexample :
    EqualFold "get" "get" ∧ EqualFold "GET" "get" ∧
      sampleEnv.Match "/health" "/health" = (true, none) ∧
      JwtMiddleware sampleEnv [⟨"/health", "get", []⟩] ⟨"get", "/health", ""⟩ =
        ⟨.written 403 "You are authenticated but not allowed to access this end point /health",
          [], 1⟩ ∧
      JwtMiddleware sampleEnv [⟨"/health", "get", []⟩] ⟨"GET", "/health", ""⟩ =
        ⟨.written 403 "You are authenticated but not allowed to access this end point /health",
          [], 1⟩ := by
  decide

/-- C17 (amended): a rule whose path pattern matches is evaluated exactly when its `Method`
equals the upper-cased request method. So for a rule whose `Method` is written in upper
case the test ignores the letter case of the request method, and a rule whose `Method` is
not in upper case is never evaluated. -/
theorem C17_method_test_upper_cases_request (env : Env) (r : Request) (acl : ACL)
    (hMatch : env.Match acl.PathPattern r.Path = (true, none)) :
    (checkACL env r acl ≠ (none, []) ↔ ToUpper r.Method = acl.Method) ∧
      (ToUpper acl.Method = acl.Method →
        (checkACL env r acl ≠ (none, []) ↔ EqualFold r.Method acl.Method)) ∧
      (ToUpper acl.Method ≠ acl.Method → checkACL env r acl = (none, [])) := by
  have h1 : checkACL env r acl ≠ (none, []) ↔ ToUpper r.Method = acl.Method := by
    constructor
    · intro h
      by_contra hne
      apply h
      unfold checkACL
      rw [hMatch]
      simp [hne]
    · intro h
      exact checkACL_evaluated ⟨hMatch, h⟩
  refine ⟨h1, ?_, ?_⟩
  · intro hu
    rw [h1]
    unfold EqualFold
    rw [hu]
  · intro hu
    by_contra hc
    apply hu
    rw [← h1.1 hc, toUpper_toUpper]

/-- C17 (instance of the amended claim): the rule `GET /health` and the request
`get /health`. -/
theorem C17_method_test_upper_cases_request_witness :
    checkACL sampleEnv ⟨"get", "/health", ""⟩ ⟨"/health", "GET", []⟩ ≠ (none, []) ↔
      EqualFold "get" "GET" :=
  (C17_method_test_upper_cases_request sampleEnv ⟨"get", "/health", ""⟩ ⟨"/health", "GET", []⟩
    (by decide)).2.1 (by decide)

/-- The two messages of the middleware for a refused token and for a missed audience
never coincide. -/
theorem forbidden_messages_differ (e path : String) :
    "Forbidden. Got " ++ e ++ " " ≠
      "You are authenticated but not allowed to access this end point " ++ path := by
  intro h
  have hd := congrArg (fun s => s.data.head?) h
  simp only [String.data_append, List.cons_append, List.head?_cons, Option.some.injEq] at hd
  revert hd
  decide

/-- C18 (counterexample): on `GET /api/v1/management/users` an unreadable token and a
valid token with the wrong audience both get status 403, with two different messages. -/
theorem C18_counterexample :
    JwtMiddleware sampleEnv sampleACLs ⟨"GET", "/api/v1/management/users", "Bearer garbage"⟩ =
        ⟨.written 403 "Forbidden. Got malformed jwt token ", ["garbage"], 11⟩ ∧
      JwtMiddleware sampleEnv sampleACLs
          ⟨"GET", "/api/v1/management/users", "Bearer user-access"⟩ =
        ⟨.written 403 ("You are authenticated but not allowed to access this end point " ++
          "/api/v1/management/users"), ["user-access"], 60⟩ ∧
      "Forbidden. Got malformed jwt token " ≠
        "You are authenticated but not allowed to access this end point " ++
          "/api/v1/management/users" := by
  decide

/-- C18 (amended): for two requests to the same audience-protected endpoint that no later
rule matches, each with a bearer header (seven ASCII characters, the first six of them
`bearer` in some letter case, then the token), one with a token `ReadToken` rejects and one
with an accepted token of the configured issuer whose audiences miss the allowed ones, the
middleware writes the same
status 403 and two different messages: `Forbidden. Got <error> ` for the first, the
generic `You are authenticated but not allowed to access this end point <path>` for the
second. -/
theorem C18_same_status_different_message (env : Env) (method path header1 header2 : String)
    (pre post : List ACL) (a : ACL) (tok1 tok2 e : String)
    (hpre : ∀ b ∈ pre, Skipped env ⟨method, path, header1⟩ b)
    (hm : Matches env ⟨method, path, header1⟩ a)
    (hpost : ∀ b ∈ post, Skipped env ⟨method, path, header1⟩ b)
    (hp : a.AllowedAudiences ≠ [])
    (hb1 : BearerHeader header1 tok1) (herr1 : (env.ReadToken tok1).err = some e)
    (hb2 : BearerHeader header2 tok2) (herr2 : (env.ReadToken tok2).err = none)
    (hiss2 : (env.ReadToken tok2).issuer = env.tokenIssuer)
    (haud2 : ∀ x ∈ a.AllowedAudiences, x ∉ (env.ReadToken tok2).audience) :
    (JwtMiddleware env (pre ++ a :: post) ⟨method, path, header1⟩).outcome =
        .written 403 ("Forbidden. Got " ++ e ++ " ") ∧
      (JwtMiddleware env (pre ++ a :: post) ⟨method, path, header2⟩).outcome =
        .written 403
          ("You are authenticated but not allowed to access this end point " ++ path) ∧
      "Forbidden. Got " ++ e ++ " " ≠
        "You are authenticated but not allowed to access this end point " ++ path := by
  have hpre2 : ∀ b ∈ pre, Skipped env ⟨method, path, header2⟩ b := hpre
  have hm2 : Matches env ⟨method, path, header2⟩ a := hm
  have hpost2 : ∀ b ∈ post, Skipped env ⟨method, path, header2⟩ b := hpost
  refine ⟨?_, ?_, forbidden_messages_differ e path⟩
  · rw [JwtMiddleware_skip env _ pre (a :: post) hpre, JwtMiddleware,
      checkACL_bearer hm hp hb1, herr1]
  · have hpo : PassedOver env ⟨method, path, header2⟩ a :=
      ⟨hp, tok2, hb2, herr2, hiss2, haud2⟩
    obtain ⟨tok, hc⟩ := checkACL_passedOver hm2 hpo
    rw [JwtMiddleware_skip env _ pre (a :: post) hpre2, JwtMiddleware, hc,
      JwtMiddleware_all_skipped env _ post hpost2]

/-- C18 (instance of the amended claim): the two requests of the counterexample. -/
theorem C18_same_status_different_message_witness :
    (JwtMiddleware sampleEnv (sampleACLs.take 10 ++ ⟨"/api/v1/management/users", "GET",
        ["admin@aud"]⟩ :: sampleACLs.drop 11)
        ⟨"GET", "/api/v1/management/users", "Bearer garbage"⟩).outcome =
        .written 403 ("Forbidden. Got " ++ "malformed jwt token" ++ " ") ∧
      (JwtMiddleware sampleEnv (sampleACLs.take 10 ++ ⟨"/api/v1/management/users", "GET",
        ["admin@aud"]⟩ :: sampleACLs.drop 11)
        ⟨"GET", "/api/v1/management/users", "Bearer user-access"⟩).outcome =
        .written 403 ("You are authenticated but not allowed to access this end point " ++
          "/api/v1/management/users") ∧
      "Forbidden. Got " ++ "malformed jwt token" ++ " " ≠
        "You are authenticated but not allowed to access this end point " ++
          "/api/v1/management/users" :=
  C18_same_status_different_message sampleEnv "GET" "/api/v1/management/users"
    "Bearer garbage" "Bearer user-access" (sampleACLs.take 10) (sampleACLs.drop 11)
    ⟨"/api/v1/management/users", "GET", ["admin@aud"]⟩ "garbage" "user-access"
    "malformed jwt token" (by decide) (by decide) (by decide) (by decide) (by decide)
    (by decide) (by decide) (by decide) (by decide) (by decide)
/-! ## Properties of the user-management handlers -/

/-- Whenever `Show2FAQrCode` serves the QR image, it has saved the principal with the fresh
secret and then called `RecreateTOTPRecoveryCodes` for that principal. -/
theorem show2FAQrCode_recreates (d : Deps) (r : HandlerRequest) (png : String)
    (h : (Show2FAQrCode d r).outcome = .image png) :
    ∃ authCtx user, r.Authentication = some authCtx ∧
      d.GetUserByEmail authCtx.Subject = .ok user ∧
      (Show2FAQrCode d r).calls =
        [.GetUserByEmail authCtx.Subject,
          .SaveOrUpdate { user with UserTotpSecretKey := d.MakeRandomTotpKey },
          .RecreateTOTPRecoveryCodes { user with UserTotpSecretKey := d.MakeRandomTotpKey }] := by
  unfold Show2FAQrCode at h ⊢
  cases ha : r.Authentication with
  | none => rw [ha] at h; simp at h
  | some authCtx =>
    rw [ha] at h
    simp only at h ⊢
    cases hu : d.GetUserByEmail authCtx.Subject with
    | error e => rw [hu] at h; simp at h
    | ok user =>
      rw [hu] at h
      simp only at h ⊢
      cases hs : d.SaveOrUpdate { user with UserTotpSecretKey := d.MakeRandomTotpKey } with
      | some e => rw [hs] at h; simp at h
      | none =>
        rw [hs] at h
        simp only at h ⊢
        cases hc : d.RecreateTOTPRecoveryCodes
            { user with UserTotpSecretKey := d.MakeRandomTotpKey } with
        | error e => rw [hc] at h; simp at h
        | ok codes =>
          rw [hc] at h
          simp only at h ⊢
          cases hq : d.MakeTotpQrImage (TrimRightEquals (d.EncodeToString d.MakeRandomTotpKey))
              ("AAA:" ++ user.Email) with
          | error e => rw [hq] at h; simp at h
          | ok p => exact ⟨authCtx, user, rfl, hu, rfl⟩

/-- C19 (the code at the failing input): `Show2FAQrCode` saves the fresh secret and then
calls `RecreateTOTPRecoveryCodes`; `UpdateUserDetail`, asked to enable 2FA for a principal
that has it disabled, saves the principal with the fresh secret `NEWSECRET` in place of
`OLDSECRET` and answers 200 without calling `RecreateTOTPRecoveryCodes`. -/
theorem C19_update_user_detail_keeps_old_codes :
    Show2FAQrCode sampleDeps ⟨"/api/v1/management/user/2FAQR", some sampleAuth, .ok ""⟩ =
        ⟨.image "png:NEWSECRET:AAA:alice@example.com",
          [.GetUserByEmail "alice@example.com",
            .SaveOrUpdate { sampleUser with UserTotpSecretKey := "NEWSECRET" },
            .RecreateTOTPRecoveryCodes { sampleUser with UserTotpSecretKey := "NEWSECRET" }]⟩ ∧
      UpdateUserDetail sampleDeps
          ⟨"/api/v1/management/user/u-1", some sampleAuth, .ok "enable-2fa"⟩ =
        ⟨.written 200 "User updated" (.userDetail "u-1" "alice@example.com" true false 0 0 true),
          [.GetUserByRecID "u-1",
            .SaveOrUpdate { sampleUser with
              UserTotpSecretKey := "NEWSECRET", Enable2FactorAuth := true }]⟩ := by
  decide

/-- C20 (the code at the failing input): `Activate2FA` with the code `000000` where the
code computed for the principal's secret is `123456` panics on line 299, which passes
`err.Error()` although `err` is nil; no response is written. The principal is not saved and
no recovery code is read. -/
theorem C20_activate2FA_wrong_code_panics :
    Activate2FA sampleDeps 0
        ⟨"/api/v1/management/user/activate2FA", some sampleAuth, .ok "2FA_token=000000"⟩ =
      ⟨.panicked "invalid memory address or nil pointer dereference",
        [.GetUserByEmail "alice@example.com"]⟩ := by
  decide

/-! ## Totality of the middleware and the shadowed rule -/

/-- C24 (the code at the failing inputs): on the protected rule
`GET /api/v1/management/users` the handler panics, and neither forwards nor writes a
status, for a header of three bytes, for the six-byte header `Bearer`, for an accepted token
of another issuer, for an accepted token without a `type` claim, and for an accepted token
whose `type` claim is a number. -/
theorem C24_middleware_panics :
    (JwtMiddleware sampleEnv sampleACLs ⟨"GET", "/api/v1/management/users", "abc"⟩).outcome =
        .panicked "slice bounds out of range" ∧
      (JwtMiddleware sampleEnv sampleACLs
          ⟨"GET", "/api/v1/management/users", "Bearer"⟩).outcome =
        .panicked "slice bounds out of range" ∧
      (JwtMiddleware sampleEnv sampleACLs
          ⟨"GET", "/api/v1/management/users", "Bearer foreign"⟩).outcome =
        .panicked "invalid memory address or nil pointer dereference" ∧
      (JwtMiddleware ⟨specMatch, acceptingRead GoMap.empty, "hansip"⟩ sampleACLs
          ⟨"GET", "/api/v1/management/users", "Bearer some-token"⟩).outcome =
        .panicked "interface conversion: interface is not string" ∧
      (JwtMiddleware ⟨specMatch, acceptingRead (GoMap.empty.set "type" (.num 1)), "hansip"⟩
          sampleACLs ⟨"GET", "/api/v1/management/users", "Bearer some-token"⟩).outcome =
        .panicked "interface conversion: interface is not string" := by
  decide

/-- Taking a rule the loop passes by out of the list changes neither the outcome nor the
tokens read. -/
theorem JwtMiddleware_remove_skipped (env : Env) (r : Request) (b : ACL)
    (hb : Skipped env r b) (mid post : List ACL) :
    (JwtMiddleware env (mid ++ b :: post) r).outcome = (JwtMiddleware env (mid ++ post) r).outcome ∧
      (JwtMiddleware env (mid ++ b :: post) r).reads = (JwtMiddleware env (mid ++ post) r).reads := by
  induction mid with
  | nil =>
    show (JwtMiddleware env (b :: post) r).outcome = _ ∧ (JwtMiddleware env (b :: post) r).reads = _
    rw [JwtMiddleware, checkACL_skipped hb]
    simp
  | cons c mid ih =>
    show (JwtMiddleware env (c :: (mid ++ b :: post)) r).outcome =
        (JwtMiddleware env (c :: (mid ++ post)) r).outcome ∧
      (JwtMiddleware env (c :: (mid ++ b :: post)) r).reads =
        (JwtMiddleware env (c :: (mid ++ post)) r).reads
    rw [JwtMiddleware, JwtMiddleware]
    rcases hc : checkACL env r c with ⟨o, reads⟩
    cases o with
    | some o => simp
    | none => simp [ih.1, ih.2]

/-- A rule that repeats the pattern and the method of an earlier public rule never decides:
taking it out of the list changes neither the outcome nor the tokens read. -/
theorem JwtMiddleware_remove_shadowed (env : Env) (r : Request) (a b : ACL)
    (hpat : b.PathPattern = a.PathPattern) (hmeth : b.Method = a.Method)
    (hpub : a.AllowedAudiences = []) (pre mid post : List ACL) :
    (JwtMiddleware env (pre ++ a :: (mid ++ b :: post)) r).outcome =
        (JwtMiddleware env (pre ++ a :: (mid ++ post)) r).outcome ∧
      (JwtMiddleware env (pre ++ a :: (mid ++ b :: post)) r).reads =
        (JwtMiddleware env (pre ++ a :: (mid ++ post)) r).reads := by
  induction pre with
  | nil =>
    show (JwtMiddleware env (a :: (mid ++ b :: post)) r).outcome =
        (JwtMiddleware env (a :: (mid ++ post)) r).outcome ∧
      (JwtMiddleware env (a :: (mid ++ b :: post)) r).reads =
        (JwtMiddleware env (a :: (mid ++ post)) r).reads
    rw [JwtMiddleware, JwtMiddleware]
    rcases hc : checkACL env r a with ⟨o, reads⟩
    cases o with
    | some o => simp
    | none =>
      have hsk : Skipped env r b := by
        unfold Skipped
        rw [hpat, hmeth]
        unfold checkACL at hc
        rcases hM : env.Match a.PathPattern r.Path with ⟨v, e⟩
        rw [hM] at hc
        cases e with
        | some err => simp at hc
        | none =>
          cases v with
          | false => simp
          | true =>
            by_cases hmm : ToUpper r.Method = a.Method
            · simp [hmm, hpub] at hc
            · simp [hmm]
      have := JwtMiddleware_remove_skipped env r b hsk mid post
      simp [this.1, this.2]
  | cons c pre ih =>
    show (JwtMiddleware env (c :: (pre ++ a :: (mid ++ b :: post))) r).outcome =
        (JwtMiddleware env (c :: (pre ++ a :: (mid ++ post))) r).outcome ∧
      (JwtMiddleware env (c :: (pre ++ a :: (mid ++ b :: post))) r).reads =
        (JwtMiddleware env (c :: (pre ++ a :: (mid ++ post))) r).reads
    rw [JwtMiddleware, JwtMiddleware]
    rcases hc : checkACL env r c with ⟨o, reads⟩
    cases o with
    | some o => simp
    | none => simp [ih.1, ih.2]

/-- C25: with the declared rule list, every `POST` request to
`/api/v1/management/user/activate` is forwarded as received by the 10th entry, the public
rule for that path and method, whatever its header and without any token being read; and
for every request whatever, the 14th entry, the admin-only rule for the same path and
method, decides nothing: the list without it gives the same outcome and reads the same
tokens. -/
theorem C25_admin_activate_rule_shadowed :
    (∀ (readToken : String → ReadResult) (issuer adminRole userRole method header : String),
        ToUpper method = "POST" →
        JwtMiddleware ⟨specMatch, readToken, issuer⟩ (ACLs adminRole userRole)
          ⟨method, "/api/v1/management/user/activate", header⟩ = ⟨.served none, [], 10⟩) ∧
      (∀ (env : Env) (adminRole userRole : String) (r : Request),
        (JwtMiddleware env (ACLs adminRole userRole) r).outcome =
            (JwtMiddleware env (ACLsWithoutAdminActivate adminRole userRole) r).outcome ∧
          (JwtMiddleware env (ACLs adminRole userRole) r).reads =
            (JwtMiddleware env (ACLsWithoutAdminActivate adminRole userRole) r).reads) := by
  constructor
  · intro readToken issuer adminRole userRole method header hm
    have hsplit : ACLs adminRole userRole = (ACLs adminRole userRole).take 9 ++
        ⟨"/api/v1/management/user/activate", "POST", []⟩ :: (ACLs adminRole userRole).drop 10 :=
      rfl
    have hpre : ∀ b ∈ (ACLs adminRole userRole).take 9,
        Skipped ⟨specMatch, readToken, issuer⟩
          ⟨method, "/api/v1/management/user/activate", header⟩ b := by
      intro b hb
      simp only [ACLs, List.take, List.mem_cons, List.mem_singleton, List.not_mem_nil,
        or_false] at hb
      unfold Skipped
      rcases hb with rfl | rfl | rfl | rfl | rfl | rfl | rfl | rfl | rfl <;>
        refine ⟨rfl, ?_⟩ <;> simp only [hm] <;> decide
    have hmatch : Matches ⟨specMatch, readToken, issuer⟩
        ⟨method, "/api/v1/management/user/activate", header⟩
        ⟨"/api/v1/management/user/activate", "POST", []⟩ := ⟨rfl, hm⟩
    rw [hsplit, JwtMiddleware_skip _ _ _ _ hpre, JwtMiddleware, checkACL_public hmatch rfl]
    rfl
  · intro env adminRole userRole r
    exact JwtMiddleware_remove_shadowed env r
      ⟨"/api/v1/management/user/activate", "POST", []⟩
      ⟨"/api/v1/management/user/activate", "POST", [adminRole]⟩ rfl rfl rfl
      ((ACLs adminRole userRole).take 9) (((ACLs adminRole userRole).drop 10).take 3)
      ((ACLs adminRole userRole).drop 14)

/-- C25 (instance): a lower-case `post` with an unreadable bearer token. -/
theorem C25_admin_activate_rule_shadowed_witness :
    JwtMiddleware sampleEnv (ACLs "admin@aud" "user@aud")
        ⟨"post", "/api/v1/management/user/activate", "Bearer garbage"⟩ =
      ⟨.served none, [], 10⟩ :=
  C25_admin_activate_rule_shadowed.1 sampleRead "hansip" "admin@aud" "user@aud" "post"
    "Bearer garbage" (by decide)
/-! ## Further properties of the user-management handlers -/

/-- C22 (the code at the failing input): when the listing call returns the error `e`,
with whatever records and page, `ListUserRole`, `ListAllUserRole` and `ListUserGroup` do not
answer 500: they go on and write status 200 with the message of success. -/
theorem C22_listing_error_answers_200 :
    ∀ (d : Deps) (rp : Repos) (r : HandlerRequest) (params : String → String) (user : User)
      (pageRequest : PageRequest) (roles : List Role) (groups : List Group)
      (page : Option Page) (e : String),
      ListUserRole
          { d with ParsePathParams := fun _ _ => .ok params, GetUserByRecID := fun _ => .ok user }
          { rp with NewPageRequestFromRequest := fun _ => .ok pageRequest,
                    ListUserRoleByUser := fun _ _ => ⟨roles, page, some e⟩ } r =
        ⟨.written 200 "List of roles paginated"
          (.roles (roles.map (fun v => ⟨v.RecID, v.RoleName⟩)) page),
          [.GetUserByRecID (params "userRecId"), .ListUserRoleByUser user pageRequest]⟩ ∧
      ListAllUserRole
          { d with ParsePathParams := fun _ _ => .ok params, GetUserByRecID := fun _ => .ok user }
          { rp with NewPageRequestFromRequest := fun _ => .ok pageRequest,
                    ListAllUserRoles := fun _ _ => ⟨roles, page, some e⟩ } r =
        ⟨.written 200 "List of roles paginated"
          (.roles (roles.map (fun v => ⟨v.RecID, v.RoleName⟩)) page),
          [.GetUserByRecID (params "userRecId"), .ListAllUserRoles user pageRequest]⟩ ∧
      ListUserGroup
          { d with ParsePathParams := fun _ _ => .ok params, GetUserByRecID := fun _ => .ok user }
          { rp with NewPageRequestFromRequest := fun _ => .ok pageRequest,
                    ListUserGroupByUser := fun _ _ => ⟨groups, page, some e⟩ } r =
        ⟨.written 200 "List of groups paginated"
          (.groups (groups.map (fun v => ⟨v.RecID, v.GroupName⟩)) page),
          [.GetUserByRecID (params "userRecId"), .ListUserGroupByUser user pageRequest]⟩ := by
  intro d rp r params user pageRequest roles groups page e
  exact ⟨rfl, rfl, rfl⟩

/-- C23 (counterexample): `ChangePassphrase` answers a wrong old passphrase, for which
`bcrypt.CompareHashAndPassword` returns an error, with status 406, which is none of 200,
400, 401, 403, 404 and 500. -/
theorem C23_counterexample :
    (ChangePassphrase pathDeps sampleRepos
        ⟨"/api/v1/management/user/u-1/passwd", some sampleAuth, .ok "old=wrong"⟩).outcome =
        .written 406 "crypto/bcrypt: hashedPassword is not the hash of the given password"
          .null ∧
      (406 : Nat) ∉ [200, 400, 401, 403, 404, 500] := by
  decide
/-- A run of one loop body of the middleware that writes a response writes 401 or 403. -/
theorem checkACL_status {env : Env} {r : Request} {acl : ACL} {o : Outcome}
    {reads : List String} {s : Nat} (h : checkACL env r acl = (some o, reads))
    (hs : o.status = some s) : s = 401 ∨ s = 403 := by
  by_cases hm : Matches env r acl
  · by_cases hp : acl.AllowedAudiences = []
    · rw [checkACL_public hm hp] at h
      simp only [Prod.mk.injEq, Option.some.injEq] at h
      rw [← h.1] at hs
      simp [Outcome.status] at hs
    by_cases h0 : r.Authorization = ""
    · rw [checkACL_noHeader hm hp h0] at h
      simp only [Prod.mk.injEq, Option.some.injEq] at h
      rw [← h.1] at hs
      simp [Outcome.status] at hs
      omega
    have hlen : r.Authorization.length ≠ 0 := by
      intro hl
      apply h0
      have : r.Authorization.data = [] := List.length_eq_zero.1 hl
      exact String.ext this
    by_cases h6 : 6 ≤ r.Authorization.length
    · by_cases hbe : ToLower (TrimSpace ⟨r.Authorization.data.take 6⟩) = "bearer"
      · by_cases h7 : 7 ≤ r.Authorization.length
        · rw [checkACL_slices hm hp h7 hbe rfl] at h
          cases herr : (env.ReadToken (TrimSpace ⟨r.Authorization.data.drop 7⟩)).err with
          | some e =>
            rw [herr] at h
            simp only [Prod.mk.injEq, Option.some.injEq] at h
            rw [← h.1] at hs
            simp [Outcome.status] at hs
            omega
          | none =>
            rw [herr] at h
            simp only at h
            split at h
            · simp only [Prod.mk.injEq, Option.some.injEq] at h
              rw [← h.1] at hs
              simp [Outcome.status] at hs
            · split at h
              · split at h <;>
                · simp only [Prod.mk.injEq, Option.some.injEq] at h
                  rw [← h.1] at hs
                  simp [Outcome.status] at hs
              · simp at h
        · obtain ⟨h1, h2⟩ := hm
          unfold checkACL at h
          rw [h1] at h
          simp [h2, hp, hlen, sliceTo, sliceFrom, h6, hbe, h7] at h
          rw [← h.1] at hs
          simp [Outcome.status] at hs
      · obtain ⟨h1, h2⟩ := hm
        unfold checkACL at h
        rw [h1] at h
        simp [h2, hp, hlen, sliceTo, h6, hbe] at h
        rw [← h.1] at hs
        simp [Outcome.status, StatusUnauthorized] at hs
        omega
    · obtain ⟨h1, h2⟩ := hm
      unfold checkACL at h
      rw [h1] at h
      simp [h2, hp, hlen, sliceTo, h6] at h
      rw [← h.1] at hs
      simp [Outcome.status] at hs
  · unfold checkACL at h
    rcases hM : env.Match acl.PathPattern r.Path with ⟨v, e⟩
    rw [hM] at h
    cases e with
    | some err =>
      simp only [Prod.mk.injEq, Option.some.injEq] at h
      rw [← h.1] at hs
      simp [Outcome.status] at hs
    | none =>
      cases v with
      | false => simp at h
      | true =>
        have hne : ¬ ToUpper r.Method = acl.Method := fun hh => hm ⟨hM, hh⟩
        simp [hne] at h

/-- Every status the middleware writes is 401 or 403. -/
theorem JwtMiddleware_status (env : Env) (r : Request) (acls : List ACL) (s : Nat)
    (hs : (JwtMiddleware env acls r).outcome.status = some s) : s = 401 ∨ s = 403 := by
  induction acls with
  | nil =>
    simp [JwtMiddleware, Outcome.status, StatusForbidden] at hs
    omega
  | cons a rest ih =>
    rw [JwtMiddleware] at hs
    rcases hc : checkACL env r a with ⟨o, reads⟩
    rw [hc] at hs
    cases o with
    | some o => exact checkACL_status hc hs
    | none => exact ih hs

theorem show2FAQrCode_status (d : Deps) (r : HandlerRequest) :
    StatusIn [200, 400, 404, 406, 500] (Show2FAQrCode d r).outcome := by
  simp only [Show2FAQrCode]
  repeat' split
  all_goals
    intro s hs
    simp only [calling, HandlerOutcome.status, StatusOK, StatusBadRequest, StatusNotFound,
      StatusNotAcceptable, StatusInternalServerError, Option.some.injEq, reduceCtorEq] at hs
  all_goals
    subst hs
    decide

theorem activate2FA_status (d : Deps) (now : Time) (r : HandlerRequest) :
    StatusIn [200, 400, 404, 406, 500] (Activate2FA d now r).outcome := by
  simp only [Activate2FA]
  repeat' split
  all_goals
    intro s hs
    simp only [calling, HandlerOutcome.status, StatusOK, StatusBadRequest, StatusNotFound,
      StatusNotAcceptable, StatusInternalServerError, Option.some.injEq, reduceCtorEq] at hs
  all_goals
    subst hs
    decide

theorem updateUserDetail_status (d : Deps) (r : HandlerRequest) :
    StatusIn [200, 400, 404, 406, 500] (UpdateUserDetail d r).outcome := by
  simp only [UpdateUserDetail]
  repeat' split
  all_goals
    intro s hs
    simp only [calling, HandlerOutcome.status, StatusOK, StatusBadRequest, StatusNotFound,
      StatusNotAcceptable, StatusInternalServerError, Option.some.injEq, reduceCtorEq] at hs
  all_goals
    subst hs
    decide

theorem listAllUsers_status (rp : Repos) (r : HandlerRequest) :
    StatusIn [200, 400, 404, 406, 500] (ListAllUsers rp r).outcome := by
  simp only [ListAllUsers]
  repeat' split
  all_goals
    intro s hs
    simp only [calling, HandlerOutcome.status, StatusOK, StatusBadRequest, StatusNotFound,
      StatusNotAcceptable, StatusInternalServerError, Option.some.injEq, reduceCtorEq] at hs
  all_goals
    subst hs
    decide

theorem createNewUser_status (rp : Repos) (r : HandlerRequest) :
    StatusIn [200, 400, 404, 406, 500] (CreateNewUser rp r).outcome := by
  simp only [CreateNewUser]
  repeat' split
  all_goals
    intro s hs
    simp only [calling, HandlerOutcome.status, StatusOK, StatusBadRequest, StatusNotFound,
      StatusNotAcceptable, StatusInternalServerError, Option.some.injEq, reduceCtorEq] at hs
  all_goals
    subst hs
    decide

theorem changePassphrase_status (d : Deps) (rp : Repos) (r : HandlerRequest) :
    StatusIn [200, 400, 404, 406, 500] (ChangePassphrase d rp r).outcome := by
  simp only [ChangePassphrase]
  repeat' split
  all_goals
    intro s hs
    simp only [calling, HandlerOutcome.status, StatusOK, StatusBadRequest, StatusNotFound,
      StatusNotAcceptable, StatusInternalServerError, Option.some.injEq, reduceCtorEq] at hs
  all_goals
    subst hs
    decide

theorem activateUser_status (d : Deps) (rp : Repos) (r : HandlerRequest) :
    StatusIn [200, 400, 404, 406, 500] (ActivateUser d rp r).outcome := by
  simp only [ActivateUser]
  repeat' split
  all_goals
    intro s hs
    simp only [calling, HandlerOutcome.status, StatusOK, StatusBadRequest, StatusNotFound,
      StatusNotAcceptable, StatusInternalServerError, Option.some.injEq, reduceCtorEq] at hs
  all_goals
    subst hs
    decide

theorem getUserDetail_status (d : Deps) (r : HandlerRequest) :
    StatusIn [200, 400, 404, 406, 500] (GetUserDetail d r).outcome := by
  simp only [GetUserDetail]
  repeat' split
  all_goals
    intro s hs
    simp only [calling, HandlerOutcome.status, StatusOK, StatusBadRequest, StatusNotFound,
      StatusNotAcceptable, StatusInternalServerError, Option.some.injEq, reduceCtorEq] at hs
  all_goals
    subst hs
    decide

theorem deleteUser_status (d : Deps) (r : HandlerRequest) :
    StatusIn [200, 400, 404, 406, 500] (DeleteUser d r).outcome := by
  simp only [DeleteUser]
  repeat' split
  all_goals
    intro s hs
    simp only [calling, HandlerOutcome.status, StatusOK, StatusBadRequest, StatusNotFound,
      StatusNotAcceptable, StatusInternalServerError, Option.some.injEq, reduceCtorEq] at hs
  all_goals
    subst hs
    decide

theorem listUserRole_status (d : Deps) (rp : Repos) (r : HandlerRequest) :
    StatusIn [200, 400, 404, 406, 500] (ListUserRole d rp r).outcome := by
  simp only [ListUserRole]
  repeat' split
  all_goals
    intro s hs
    simp only [calling, HandlerOutcome.status, StatusOK, StatusBadRequest, StatusNotFound,
      StatusNotAcceptable, StatusInternalServerError, Option.some.injEq, reduceCtorEq] at hs
  all_goals
    subst hs
    decide

theorem listAllUserRole_status (d : Deps) (rp : Repos) (r : HandlerRequest) :
    StatusIn [200, 400, 404, 406, 500] (ListAllUserRole d rp r).outcome := by
  simp only [ListAllUserRole]
  repeat' split
  all_goals
    intro s hs
    simp only [calling, HandlerOutcome.status, StatusOK, StatusBadRequest, StatusNotFound,
      StatusNotAcceptable, StatusInternalServerError, Option.some.injEq, reduceCtorEq] at hs
  all_goals
    subst hs
    decide

theorem createUserRole_status (d : Deps) (rp : Repos) (r : HandlerRequest) :
    StatusIn [200, 400, 404, 406, 500] (CreateUserRole d rp r).outcome := by
  simp only [CreateUserRole]
  repeat' split
  all_goals
    intro s hs
    simp only [calling, HandlerOutcome.status, StatusOK, StatusBadRequest, StatusNotFound,
      StatusNotAcceptable, StatusInternalServerError, Option.some.injEq, reduceCtorEq] at hs
  all_goals
    subst hs
    decide

theorem deleteUserRole_status (d : Deps) (rp : Repos) (r : HandlerRequest) :
    StatusIn [200, 400, 404, 406, 500] (DeleteUserRole d rp r).outcome := by
  simp only [DeleteUserRole]
  repeat' split
  all_goals
    intro s hs
    simp only [calling, HandlerOutcome.status, StatusOK, StatusBadRequest, StatusNotFound,
      StatusNotAcceptable, StatusInternalServerError, Option.some.injEq, reduceCtorEq] at hs
  all_goals
    subst hs
    decide

theorem listUserGroup_status (d : Deps) (rp : Repos) (r : HandlerRequest) :
    StatusIn [200, 400, 404, 406, 500] (ListUserGroup d rp r).outcome := by
  simp only [ListUserGroup]
  repeat' split
  all_goals
    intro s hs
    simp only [calling, HandlerOutcome.status, StatusOK, StatusBadRequest, StatusNotFound,
      StatusNotAcceptable, StatusInternalServerError, Option.some.injEq, reduceCtorEq] at hs
  all_goals
    subst hs
    decide

theorem createUserGroup_status (d : Deps) (rp : Repos) (r : HandlerRequest) :
    StatusIn [200, 400, 404, 406, 500] (CreateUserGroup d rp r).outcome := by
  simp only [CreateUserGroup]
  repeat' split
  all_goals
    intro s hs
    simp only [calling, HandlerOutcome.status, StatusOK, StatusBadRequest, StatusNotFound,
      StatusNotAcceptable, StatusInternalServerError, Option.some.injEq, reduceCtorEq] at hs
  all_goals
    subst hs
    decide

theorem deleteUserGroup_status (d : Deps) (rp : Repos) (r : HandlerRequest) :
    StatusIn [200, 400, 404, 406, 500] (DeleteUserGroup d rp r).outcome := by
  simp only [DeleteUserGroup]
  repeat' split
  all_goals
    intro s hs
    simp only [calling, HandlerOutcome.status, StatusOK, StatusBadRequest, StatusNotFound,
      StatusNotAcceptable, StatusInternalServerError, Option.some.injEq, reduceCtorEq] at hs
  all_goals
    subst hs
    decide

theorem whoAmI_status (d : Deps) (rp : Repos) (r : HandlerRequest) :
    StatusIn [200, 400, 404, 406, 500] (WhoAmI d rp r).outcome := by
  simp only [WhoAmI]
  repeat' split
  all_goals
    intro s hs
    simp only [calling, HandlerOutcome.status, StatusOK, StatusBadRequest, StatusNotFound,
      StatusNotAcceptable, StatusInternalServerError, Option.some.injEq, reduceCtorEq] at hs
  all_goals
    subst hs
    decide

/-- C23 (amended): every response written by `JwtMiddleware` and by the seventeen handlers
of `UserManagement.go` carries a status code among 200, 400, 401, 403, 404, 406 and 500:
the middleware writes 401 or 403, the handlers write 200, 400, 404, 406 or 500, where 406
is written by `ChangePassphrase` for a wrong old passphrase. -/
theorem C23_statuses_with_406 :
    (∀ (env : Env) (acls : List ACL) (r : Request) (s : Nat),
        (JwtMiddleware env acls r).outcome.status = some s →
        s ∈ [200, 400, 401, 403, 404, 406, 500]) ∧
      (∀ (d : Deps) (rp : Repos) (now : Time) (r : HandlerRequest) (o : HandlerOutcome),
        o ∈ [(Show2FAQrCode d r).outcome, (ListAllUsers rp r).outcome,
          (CreateNewUser rp r).outcome, (ChangePassphrase d rp r).outcome,
          (Activate2FA d now r).outcome, (WhoAmI d rp r).outcome,
          (ActivateUser d rp r).outcome, (GetUserDetail d r).outcome,
          (UpdateUserDetail d r).outcome, (DeleteUser d r).outcome,
          (ListUserRole d rp r).outcome, (ListAllUserRole d rp r).outcome,
          (CreateUserRole d rp r).outcome, (DeleteUserRole d rp r).outcome,
          (ListUserGroup d rp r).outcome, (CreateUserGroup d rp r).outcome,
          (DeleteUserGroup d rp r).outcome] →
        StatusIn [200, 400, 401, 403, 404, 406, 500] o) := by
  have hsub : ∀ o, StatusIn [200, 400, 404, 406, 500] o →
      StatusIn [200, 400, 401, 403, 404, 406, 500] o := by
    intro o h s hs
    have := h s hs
    simp only [List.mem_cons, List.mem_singleton, List.not_mem_nil, or_false] at this ⊢
    omega
  constructor
  · intro env acls r s hs
    have := JwtMiddleware_status env r acls s hs
    simp only [List.mem_cons, List.mem_singleton, List.not_mem_nil, or_false]
    omega
  · intro d rp now r o ho
    simp only [List.mem_cons, List.mem_singleton, List.not_mem_nil, or_false] at ho
    rcases ho with rfl | rfl | rfl | rfl | rfl | rfl | rfl | rfl | rfl | rfl | rfl | rfl | rfl |
      rfl | rfl | rfl | rfl
    · exact hsub _ (show2FAQrCode_status d r)
    · exact hsub _ (listAllUsers_status rp r)
    · exact hsub _ (createNewUser_status rp r)
    · exact hsub _ (changePassphrase_status d rp r)
    · exact hsub _ (activate2FA_status d now r)
    · exact hsub _ (whoAmI_status d rp r)
    · exact hsub _ (activateUser_status d rp r)
    · exact hsub _ (getUserDetail_status d r)
    · exact hsub _ (updateUserDetail_status d r)
    · exact hsub _ (deleteUser_status d r)
    · exact hsub _ (listUserRole_status d rp r)
    · exact hsub _ (listAllUserRole_status d rp r)
    · exact hsub _ (createUserRole_status d rp r)
    · exact hsub _ (deleteUserRole_status d rp r)
    · exact hsub _ (listUserGroup_status d rp r)
    · exact hsub _ (createUserGroup_status d rp r)
    · exact hsub _ (deleteUserGroup_status d rp r)

/-- C23 (instance of the amended claim): the 406 of `ChangePassphrase` and the 401 of the
middleware. -/
theorem C23_statuses_with_406_witness :
    (401 : Nat) ∈ [200, 400, 401, 403, 404, 406, 500] :=
  C23_statuses_with_406.1 sampleEnv sampleACLs ⟨"GET", "/api/v1/management/users", ""⟩ 401
    (by decide)
/-- The first page of 100 rows holds every row when there are at most 100. -/
theorem mem_pageOf_first {α : Type} (key : α → String) (rows : List α) (orderBy : String)
    (h : rows.length ≤ 100) (x : α) :
    x ∈ pageOf key rows (whoamiPage orderBy) ↔ x ∈ rows := by
  have hasc : ¬ (whoamiPage orderBy).SortOrder = "DESC" := by
    show ¬ "ASC" = "DESC"
    decide
  unfold pageOf
  simp only [hasc, if_false]
  have hno : ((whoamiPage orderBy).No - 1) * (whoamiPage orderBy).PageSize = 0 := rfl
  have hsize : (whoamiPage orderBy).PageSize = 100 := rfl
  rw [hno, hsize, List.drop_zero, List.take_of_length_le]
  · exact (List.perm_insertionSort _ rows).mem_iff
  · rw [List.length_insertionSort]
    exact h

/-- Answered from the relation tables, the loop over the groups never fails and builds
one summary for each group, with the first page of the group's roles. -/
theorem whoamiGroups_tables (t : Tables) (base : Repos) (groups : List Group) :
    whoamiGroups (tableRepos t base) groups =
      (.ok (groups.map (fun g => ⟨g.RecID, g.GroupName,
          (pageOf (fun role => role.RoleName) (rolesOfGroup t g) (whoamiPage "ROLE_NAME")).map
            (fun gr => ⟨gr.RecID, gr.RoleName⟩)⟩)),
        groups.map (fun g => Call.ListGroupRoleByGroup g (whoamiPage "ROLE_NAME"))) := by
  induction groups with
  | nil => rfl
  | cons g rest ih =>
    simp only [whoamiGroups, ih, List.map_cons]
    rfl

/-- C21 (counterexample): the principal `u-1` holds 101 roles directly; `WhoAmI` answers
200 with 100 roles, and the role that comes last in name order is not among them. -/
theorem C21_counterexample :
    (directRoles crowdedTables sampleUser).length = 101 ∧
      numberedRole 100 ∈ directRoles crowdedTables sampleUser ∧
      (WhoAmI sampleDeps (tableRepos crowdedTables sampleRepos)
        ⟨"/api/v1/management/user/whoami", some sampleAuth, .ok ""⟩).outcome.status =
        some 200 ∧
      (whoamiOf (WhoAmI sampleDeps (tableRepos crowdedTables sampleRepos)
        ⟨"/api/v1/management/user/whoami", some sampleAuth, .ok ""⟩).outcome).map
          (fun resp => resp.Roles.length) = some 100 ∧
      (whoamiOf (WhoAmI sampleDeps (tableRepos crowdedTables sampleRepos)
        ⟨"/api/v1/management/user/whoami", some sampleAuth, .ok ""⟩).outcome).map
          (fun resp => decide ((⟨(numberedRole 100).RecID, (numberedRole 100).RoleName⟩ :
            RoleSummary) ∈ resp.Roles)) = some false := by
  set_option maxRecDepth 100000 in decide

/-- C21 (amended): each listing call of `WhoAmI` asks for the first page of 100 records.
For every principal with at most 100 directly granted roles and at most 100 groups, each
of them with at most 100 roles, the response lists every role directly granted to the
principal and every group the principal belongs to, each group with every role granted to
it, as the relation tables hold them at the time of the call. -/
theorem C21_whoami_lists_first_page (d : Deps) (base : Repos) (t : Tables)
    (r : HandlerRequest) (authCtx : AuthenticationContext) (user : User)
    (hauth : r.Authentication = some authCtx)
    (huser : d.GetUserByEmail authCtx.Subject = .ok user)
    (hroles : (directRoles t user).length ≤ 100)
    (hgroups : (groupsOf t user).length ≤ 100)
    (hgr : ∀ g ∈ groupsOf t user, (rolesOfGroup t g).length ≤ 100) :
    ∃ resp, (WhoAmI d (tableRepos t base) r).outcome =
        .written 200 "User information populated" (.whoami resp) ∧
      (∀ role ∈ directRoles t user, (⟨role.RecID, role.RoleName⟩ : RoleSummary) ∈ resp.Roles) ∧
      (∀ g ∈ groupsOf t user, ∃ gs ∈ resp.Groups,
        gs.RecordID = g.RecID ∧ gs.GroupName = g.GroupName ∧
          ∀ role ∈ rolesOfGroup t g, (⟨role.RecID, role.RoleName⟩ : RoleSummary) ∈ gs.Roles) := by
  refine ⟨⟨user.RecID, user.Email, user.Enabled, user.Suspended,
    (pageOf (fun role => role.RoleName) (directRoles t user) (whoamiPage "ROLE_NAME")).map
      (fun role => ⟨role.RecID, role.RoleName⟩),
    (pageOf (fun g => g.GroupName) (groupsOf t user) (whoamiPage "GROUP_NAME")).map
      (fun g => ⟨g.RecID, g.GroupName,
        (pageOf (fun role => role.RoleName) (rolesOfGroup t g) (whoamiPage "ROLE_NAME")).map
          (fun gr => ⟨gr.RecID, gr.RoleName⟩)⟩)⟩, ?_, ?_, ?_⟩
  · unfold WhoAmI
    rw [hauth]
    simp only [huser, calling]
    have hg := whoamiGroups_tables t base
      (pageOf (fun g => g.GroupName) (groupsOf t user) (whoamiPage "GROUP_NAME"))
    simp only [tableRepos] at hg ⊢
    rw [hg]
    rfl
  · intro role hrole
    simp only [List.mem_map]
    exact ⟨role, (mem_pageOf_first _ _ _ hroles role).2 hrole, rfl⟩
  · intro g hg
    simp only [List.mem_map]
    refine ⟨_, ⟨g, (mem_pageOf_first _ _ _ hgroups g).2 hg, rfl⟩, rfl, rfl, ?_⟩
    intro role hrole
    exact List.mem_map.2 ⟨role, (mem_pageOf_first _ _ _ (hgr g hg) role).2 hrole, rfl⟩

/-- C21 (instance of the amended claim): `alice` with the roles `auditor` and `admin`, and
the group `ops` that grants `operator`. -/
theorem C21_whoami_lists_first_page_witness :
    ∃ resp, (WhoAmI sampleDeps (tableRepos smallTables sampleRepos)
        ⟨"/api/v1/management/user/whoami", some sampleAuth, .ok ""⟩).outcome =
        .written 200 "User information populated" (.whoami resp) ∧
      (∀ role ∈ directRoles smallTables sampleUser,
        (⟨role.RecID, role.RoleName⟩ : RoleSummary) ∈ resp.Roles) ∧
      (∀ g ∈ groupsOf smallTables sampleUser, ∃ gs ∈ resp.Groups,
        gs.RecordID = g.RecID ∧ gs.GroupName = g.GroupName ∧
          ∀ role ∈ rolesOfGroup smallTables g,
            (⟨role.RecID, role.RoleName⟩ : RoleSummary) ∈ gs.Roles) :=
  C21_whoami_lists_first_page sampleDeps sampleRepos smallTables
    ⟨"/api/v1/management/user/whoami", some sampleAuth, .ok ""⟩ sampleAuth sampleUser rfl rfl
    (by decide) (by decide) (by decide)

end Hansip
